import Mathlib

/-!
# ip-source-api-web: dataset manager, lookup and response merge

A shallow embedding of the Go packages `geoip` (src/geoip/geoip.go), `api`
(src/api/handler.go, src/api/response.go) and `updater`
(src/updater/updater.go), followed by theorems about them.

Conventions of the embedding

* A Go `map[string]string` is an association list under `Option`; `none` is the
  nil map. Keys are unique, so `List.lookup` is the map index.
* A Go pointer that may be nil is an `Option`.
* A runtime panic of a Go function is the result `none` of its model.
* The package-level variables `cityDB`, `asnDB`, `cnRawDB` are the fields of
  `geoip.DBState`; every function that touches them passes the state explicitly.
  The mutex `dbMux` serialises the calls and is not part of the sequential model.
* The third-party readers (`geoip2`, `maxminddb`) are not part of the repository.
  What they answer is a parameter, `geoip.Library`, over which every theorem
  quantifies.
* `log.Printf` / `log.Println` calls have no effect on any value and are left out.
-/

set_option autoImplicit false
set_option linter.dupNamespace false

/-! ## Go maps -/

/-- Go `map[string]string`; `none` is the nil map. -/
abbrev GoMap := Option (List (String × String))

/-- The assignment `m[k] = v` on the entries of a non-nil map. -/
def insertKV (k v : String) : List (String × String) → List (String × String)
  | [] => [(k, v)]
  | (k', v') :: rest => if k' = k then (k, v) :: rest else (k', v') :: insertKV k v rest

namespace GoMap

/-- The two-valued index `v, ok := m[k]`; a nil map has no key. -/
def find (m : GoMap) (k : String) : Option String :=
  match m with
  | none => none
  | some l => l.lookup k

/-- The one-valued index `m[k]`: the zero value `""` when the key is missing. -/
def get (m : GoMap) (k : String) : String := (find m k).getD ""

/-- Go `len(m)`; a nil map has length 0. -/
def len (m : GoMap) : Nat :=
  match m with
  | none => 0
  | some l => l.length

/-- The entries of `m`, a nil map replaced by `make(map[string]string)`. -/
def entriesOrMake (m : GoMap) : List (String × String) :=
  match m with
  | none => []
  | some l => l

end GoMap

/-! ## Records of the `geoip2` library (the fields this repository reads or writes) -/

/-- Go `float64` values of this program are stored and copied, never computed with. -/
abbrev Float64 := Rat

namespace geoip2

/-- One element of `geoip2.City.Subdivisions`. -/
structure Subdivision where
  Names : GoMap := none
  IsoCode : String := ""
  GeoNameID : Nat := 0
deriving DecidableEq, Repr

/-- The field `City` of `geoip2.City`. -/
structure CityNames where
  Names : GoMap := none
deriving DecidableEq, Repr

/-- The field `Continent` of `geoip2.City`. -/
structure ContinentRec where
  Code : String := ""
deriving DecidableEq, Repr

/-- The field `Country` of `geoip2.City`. -/
structure CountryRec where
  IsoCode : String := ""
  Names : GoMap := none
deriving DecidableEq, Repr

/-- The field `Location` of `geoip2.City`. -/
structure LocationRec where
  Latitude : Float64 := 0
  Longitude : Float64 := 0
  TimeZone : String := ""
deriving DecidableEq, Repr

/-- The field `Postal` of `geoip2.City`. -/
structure PostalRec where
  Code : String := ""
deriving DecidableEq, Repr

/-- Go `geoip2.City`: the General dataset's record. The default is the zero value
`geoip2.City{}`. -/
structure City where
  City : CityNames := {}
  Continent : ContinentRec := {}
  Country : CountryRec := {}
  Location : LocationRec := {}
  Postal : PostalRec := {}
  Subdivisions : List Subdivision := []
deriving DecidableEq, Repr

/-- Go `geoip2.ASN`: the ASN dataset's record. -/
structure ASN where
  AutonomousSystemNumber : Nat := 0
  AutonomousSystemOrganization : String := ""
deriving DecidableEq, Repr

end geoip2

/-! ## `net.IP` -/

namespace net

/-- Go `net.IP`, a byte slice (every element below 256). -/
structure IP where
  bytes : List Nat
deriving DecidableEq, Repr

end net

/-! ## Package `geoip` (src/geoip/geoip.go) -/

namespace geoip

/-- Go `error` values, by their text; `none` is the nil error. -/
abbrev GoError := Option String

/-- An opened database reader (`*geoip2.Reader` or `*maxminddb.Reader`): `id`
is the identity of the allocation, `path` the file it was opened from. -/
structure Reader where
  id : Nat
  path : String
deriving DecidableEq, Repr

/-- GeoCNResult 表示 GeoCN 数据库响应的结构 (geoip.go 172-182). -/
structure GeoCNResult where
  City : String := ""
  CityCode : Nat := 0
  Districts : String := ""
  DistrictsCode : Nat := 0
  ISP : String := ""
  Net : String := ""
  Province : String := ""
  ProvinceCode : Nat := 0
deriving DecidableEq, Repr

/-- What the third-party readers answer. An open call returns whether the
reader it returns is non-nil, and its error. A query gets the reader, whether
`Close` has already been called on it, and the address. -/
structure Library where
  /-- The call `geoip2.Open(path)`. -/
  geoip2Open : String → Bool × GoError
  /-- The call `maxminddb.Open(path)`. -/
  maxminddbOpen : String → Bool × GoError
  /-- The call `(*geoip2.Reader).City(ip)`. -/
  City : Reader → Bool → net.IP → Option geoip2.City × GoError
  /-- The call `(*geoip2.Reader).ASN(ip)`. -/
  ASN : Reader → Bool → net.IP → Option geoip2.ASN × GoError
  /-- The call `(*maxminddb.Reader).Lookup(ip, &result)` on a zero `result`:
  the decoded `result` and the error. -/
  rawLookup : Reader → Bool → net.IP → GeoCNResult × GoError

/-- The package-level variables (geoip.go 13-18), with two ghost fields:
`closed` lists the ids of the readers on which `Close` has been called and
`nextId` is the id of the next reader to be allocated. -/
structure DBState where
  cityDB : Option Reader := none
  asnDB : Option Reader := none
  cnRawDB : Option Reader := none
  closed : List Nat := []
  nextId : Nat := 0
deriving DecidableEq, Repr

/-- Whether `Close` has been called on the reader. -/
def DBState.isClosed (s : DBState) (r : Reader) : Bool := s.closed.contains r.id

/-- The call `r.Close()`. -/
def closeReader (s : DBState) (r : Reader) : DBState :=
  { s with closed := r.id :: s.closed }

/-- The reader an open call hands back: a fresh allocation when it is non-nil. -/
def newReader (s : DBState) (path : String) (nonNil : Bool) : Option Reader × DBState :=
  if nonNil then (some ⟨s.nextId, path⟩, { s with nextId := s.nextId + 1 }) else (none, s)

/-- Go `openDBs` (geoip.go 27-51). Each assignment `xDB, err = Open(path)`
stores what the open call returned, also when `err` is not nil. -/
def openDBs (lib : Library) (s : DBState) (cityDBPath asnDBPath cnDBPath : String) :
    DBState × GoError :=
  let (r, s) := newReader s cityDBPath (lib.geoip2Open cityDBPath).1
  let s := { s with cityDB := r }
  match (lib.geoip2Open cityDBPath).2 with
  | some err => (s, some err)
  | none =>
    let (r, s) := newReader s asnDBPath (lib.geoip2Open asnDBPath).1
    let s := { s with asnDB := r }
    match (lib.geoip2Open asnDBPath).2 with
    | some err => (s, some err)
    | none =>
      let (r, s) := newReader s cnDBPath (lib.maxminddbOpen cnDBPath).1
      let s := { s with cnRawDB := r }
      (s, none)

/-- Go `OpenDBs` (geoip.go 20-25). -/
def OpenDBs (lib : Library) (s : DBState) (cityDBPath asnDBPath cnDBPath : String) :
    DBState × GoError :=
  openDBs lib s cityDBPath asnDBPath cnDBPath

/-- Go `closeDBs` (geoip.go 60-74): the variables keep pointing at the closed readers. -/
def closeDBs (s : DBState) : DBState :=
  let s := match s.cityDB with
    | some r => closeReader s r
    | none => s
  let s := match s.asnDB with
    | some r => closeReader s r
    | none => s
  match s.cnRawDB with
  | some r => closeReader s r
  | none => s

/-- Go `CloseDBs` (geoip.go 53-58). -/
def CloseDBs (s : DBState) : DBState := closeDBs s

/-- Go `ReloadDBs` (geoip.go 76-99): close `cityDB` and `asnDB`, then `openDBs`. -/
def ReloadDBs (lib : Library) (s : DBState) (cityDBPath asnDBPath cnDBPath : String) :
    DBState × GoError :=
  let s := match s.cityDB with
    | some r => closeReader s r
    | none => s
  let s := match s.asnDB with
    | some r => closeReader s r
    | none => s
  match openDBs lib s cityDBPath asnDBPath cnDBPath with
  | (s, some err) => (s, some err)
  | (s, none) => (s, none)

/-- A query sent to a reader (ghost: what `Lookup` asked, in order). -/
inductive DBQuery where
  | city (id : Nat)
  | geocn (id : Nat)
  | asn (id : Nat)
deriving DecidableEq, Repr

/-- Go `queryGeoCNDatabase` (geoip.go 184-204), with the queries it sent. -/
def queryGeoCNDatabase (lib : Library) (s : DBState) (ip : net.IP) :
    (Option GeoCNResult × GoError) × List DBQuery :=
  match s.cnRawDB with
  | none => ((none, some "GeoCN raw database not available"), [])
  | some r =>
    let (result, err) := lib.rawLookup r (s.isClosed r) ip
    match err with
    | some e => ((none, some e), [DBQuery.geocn r.id])
    | none =>
      if result.Province = "" then
        ((none, some "no GeoCN data found for IP"), [DBQuery.geocn r.id])
      else ((some result, none), [DBQuery.geocn r.id])

/-- Go `convertGeoCNToGeoLite2` (geoip.go 206-248). -/
def convertGeoCNToGeoLite2 (cnResult : GeoCNResult) : geoip2.City :=
  let city : geoip2.City := {}
  let city := { city with
    Country := { city.Country with
      IsoCode := "CN", Names := some [("en", "China"), ("zh-CN", "中国")] } }
  let city :=
    if cnResult.City ≠ "" then
      { city with City := { city.City with
          Names := some [("zh-CN", cnResult.City), ("en", cnResult.City)] } }
    else city
  let city :=
    if cnResult.Province ≠ "" then
      { city with Subdivisions :=
          [{ Names := some [("zh-CN", cnResult.Province)], IsoCode := "", GeoNameID := 0 }] }
    else city
  { city with Location := { city.Location with TimeZone := "Asia/Shanghai" } }

/-- Go `mergeGeoCNData` (geoip.go 250-305); the record `city` points at is
updated in place, the model returns the updated record. -/
def mergeGeoCNData (city : geoip2.City) (cnResult : GeoCNResult) : geoip2.City :=
  let city :=
    if cnResult.City ≠ "" then
      let names := GoMap.entriesOrMake city.City.Names
      let names := insertKV "zh-CN" cnResult.City names
      let names := insertKV "en" cnResult.City names
      { city with City := { city.City with Names := some names } }
    else city
  let city :=
    if cnResult.Province ≠ "" then
      let subs : List geoip2.Subdivision :=
        if city.Subdivisions.length = 0 then
          [{ Names := some [], IsoCode := "", GeoNameID := 0 }]
        else city.Subdivisions
      match subs with
      | [] => { city with Subdivisions := subs }
      | first :: rest =>
        let names := GoMap.entriesOrMake first.Names
        let names := insertKV "zh-CN" cnResult.Province names
        let names := insertKV "en" cnResult.Province names
        { city with Subdivisions := { first with Names := some names } :: rest }
    else city
  let city :=
    if city.Country.IsoCode ≠ "CN" then
      { city with Country := { city.Country with
          IsoCode := "CN", Names := some [("en", "China"), ("zh-CN", "中国")] } }
    else city
  if city.Location.TimeZone = "" then
    { city with Location := { city.Location with TimeZone := "Asia/Shanghai" } }
  else city

/-- The four values `Lookup` returns, and the queries it sent (ghost). -/
structure LookupResult where
  city : Option geoip2.City
  asn : Option geoip2.ASN
  cnResult : Option GeoCNResult
  err : GoError
  queries : List DBQuery
deriving DecidableEq, Repr

/-- Lines 107-118 of `Lookup`: the General record, nil when `cityDB` is nil,
otherwise what `cityDB.City(ip)` returned (its error is only logged). -/
def lookupCity (lib : Library) (s : DBState) (ip : net.IP) :
    Option geoip2.City × List DBQuery :=
  match s.cityDB with
  | some r => ((lib.City r (s.isClosed r) ip).1, [DBQuery.city r.id])
  | none => (none, [])

/-- Lines 128-147 of `Lookup`. The statement
`cnResult, cnErr := queryGeoCNDatabase(ip)` on line 130 declares a new
`cnResult` in the scope of the `if` block; the function-level `cnResult` of
line 108 is only assigned `nil` (line 146). The result is the record `city`
after the block and the function-level `cnResult`. -/
def lookupGeoCN (lib : Library) (s : DBState) (ip : net.IP) (city : Option geoip2.City) :
    (Option geoip2.City × Option GeoCNResult) × List DBQuery :=
  let cnResult : Option GeoCNResult := none
  if s.cnRawDB ≠ none ∧ (city = none ∨ (city.map (·.Country.IsoCode)) = some "CN") then
    let ((cnResultInner, cnErr), qs) := queryGeoCNDatabase lib s ip
    match cnErr, cnResultInner with
    | none, some cn =>
      match city with
      | none => ((some (convertGeoCNToGeoLite2 cn), cnResult), qs)
      | some c => ((some (mergeGeoCNData c cn), cnResult), qs)
    | _, _ => ((city, cnResult), qs)
  else
    let cnResult : Option GeoCNResult := none
    ((city, cnResult), [])

/-- Lines 160-163 of `Lookup`: the ASN record (the query's error is dropped). -/
def lookupASN (lib : Library) (s : DBState) (ip : net.IP) :
    Option geoip2.ASN × List DBQuery :=
  match s.asnDB with
  | some r => ((lib.ASN r (s.isClosed r) ip).1, [DBQuery.asn r.id])
  | none => (none, [])

/-- Go `Lookup` (geoip.go 101-170). -/
def Lookup (lib : Library) (s : DBState) (ip : net.IP) : LookupResult :=
  let (city, q1) := lookupCity lib s ip
  let ((city, cnResult), q2) := lookupGeoCN lib s ip city
  let (asn, q3) := lookupASN lib s ip
  if s.cityDB = none ∧ s.asnDB = none then
    { city := none, asn := none, cnResult := none,
      err := some "no GeoIP databases are available", queries := q1 ++ q2 ++ q3 }
  else
    { city := city, asn := asn, cnResult := cnResult, err := none,
      queries := q1 ++ q2 ++ q3 }

/-- Whether `Lookup` sent a query to the regional-override reader. -/
def LookupResult.queriedGeoCN (r : LookupResult) : Bool :=
  r.queries.any fun q =>
    match q with
    | DBQuery.geocn _ => true
    | _ => false

end geoip

/-! ## `net.IP` methods of Go's standard library that `buildSuccessResponse` calls -/

namespace net

/-- Go `IP.To4`: the 4-byte form of an IPv4 address, `none` (nil) otherwise. -/
def IP.To4 (ip : IP) : Option IP :=
  if ip.bytes.length = 4 then some ip
  else if ip.bytes.length = 16 ∧ (ip.bytes.take 10).all (fun b => b == 0) = true
      ∧ ip.bytes.getD 10 0 = 0xff ∧ ip.bytes.getD 11 0 = 0xff then
    some ⟨ip.bytes.drop 12⟩
  else none

/-- The eight 16-bit groups of a 16-byte address. -/
def v6groups (b : List Nat) : List Nat :=
  (List.range 8).map fun i => b.getD (2 * i) 0 * 256 + b.getD (2 * i + 1) 0

/-- Lowercase hexadecimal without leading zeros (Go `appendHex`). -/
def hexString (n : Nat) : String := String.mk (Nat.toDigits 16 n)

/-- The end of the run of zero groups that starts at group `i`. -/
def zeroRunEnd (g : List Nat) (i : Nat) : Nat :=
  i + ((g.drop i).takeWhile (fun x => x == 0)).length

/-- The first longest run of at least two zero groups, as (start, end);
(255, 255) when there is none. -/
def longestZeroRun (g : List Nat) : Nat × Nat :=
  (List.range 8).foldl
    (fun (z : Nat × Nat) i =>
      let j := zeroRunEnd g i
      if j - i ≥ 2 ∧ j - i > z.2 - z.1 then (i, j) else z)
    (255, 255)

/-- The output loop of the IPv6 text form, from group `i` on, with `ret` the
text so far (`fuel` bounds the eight iterations). -/
def appendGroups (g : List Nat) (zeroStart zeroEnd : Nat) : Nat → Nat → String → String
  | 0, _, ret => ret
  | fuel + 1, i, ret =>
    if i ≥ 8 then ret
    else if i = zeroStart then
      let ret := ret ++ "::"
      if zeroEnd ≥ 8 then ret
      else appendGroups g zeroStart zeroEnd fuel (zeroEnd + 1) (ret ++ hexString (g.getD zeroEnd 0))
    else
      let ret := if i > 0 then ret ++ ":" else ret
      appendGroups g zeroStart zeroEnd fuel (i + 1) (ret ++ hexString (g.getD i 0))

/-- Two lowercase hexadecimal digits for each byte (Go `hexString` of package net). -/
def rawHex (b : List Nat) : String :=
  String.join (b.map fun x => String.mk [Nat.digitChar (x / 16), Nat.digitChar (x % 16)])

/-- Go `IP.String`: dotted decimal for an IPv4 address, the RFC 5952 form for
any other 16-byte address. The text is ASCII, so its bytes are its characters. -/
def IP.String (ip : IP) : String :=
  if ip.bytes.length = 0 then "<nil>"
  else if ip.bytes.length ≠ 4 ∧ ip.bytes.length ≠ 16 then "?" ++ rawHex ip.bytes
  else
    match ip.To4 with
    | some p4 =>
      toString (p4.bytes.getD 0 0) ++ "." ++ toString (p4.bytes.getD 1 0) ++ "."
        ++ toString (p4.bytes.getD 2 0) ++ "." ++ toString (p4.bytes.getD 3 0)
    | none =>
      let g := v6groups ip.bytes
      let z := longestZeroRun g
      appendGroups g z.1 z.2 8 0 ""

end net

/-! ## Package `api` (src/api/response.go, src/api/handler.go) -/

namespace api

/-- Response 是 API 响应的结构 (response.go 5-39); the default is the zero value. -/
structure Response where
  IP : String := ""
  Network : String := ""
  Version : String := ""
  City : String := ""
  CityCode : Nat := 0
  Region : String := ""
  RegionCode : String := ""
  ProvinceCode : Nat := 0
  Districts : String := ""
  DistrictsCode : Nat := 0
  Country : String := ""
  CountryName : String := ""
  CountryCode : String := ""
  CountryCodeISO3 : String := ""
  CountryCapital : String := ""
  CountryTLD : String := ""
  ContinentCode : String := ""
  InEU : Bool := false
  Postal : String := ""
  Latitude : Float64 := 0
  Longitude : Float64 := 0
  Timezone : String := ""
  UTCOffset : String := ""
  CountryCallingCode : String := ""
  Currency : String := ""
  CurrencyName : String := ""
  Languages : String := ""
  CountryArea : Float64 := 0
  CountryPopulation : Int := 0
  ASN : String := ""
  Org : String := ""
  ISP : String := ""
  Message : String := ""
deriving DecidableEq, Repr

/-- The table `countryISO3` of Go `getISO3Code` (handler.go 311-343). -/
def countryISO3 : List (String × String) :=
  [("US", "USA"), ("CN", "CHN"), ("JP", "JPN"), ("DE", "DEU"), ("GB", "GBR"), ("FR", "FRA"),
   ("IT", "ITA"), ("ES", "ESP"), ("CA", "CAN"), ("AU", "AUS"), ("BR", "BRA"), ("IN", "IND"),
   ("RU", "RUS"), ("KR", "KOR"), ("MX", "MEX"), ("NL", "NLD"), ("SE", "SWE"), ("NO", "NOR"),
   ("DK", "DNK"), ("FI", "FIN"), ("CH", "CHE"), ("AT", "AUT"), ("BE", "BEL"), ("IE", "IRL"),
   ("PT", "PRT"), ("GR", "GRC"), ("PL", "POL"), ("CZ", "CZE"), ("HU", "HUN"), ("SK", "SVK"),
   ("SI", "SVN"), ("HR", "HRV"), ("BG", "BGR"), ("RO", "ROU"), ("LT", "LTU"), ("LV", "LVA"),
   ("EE", "EST"), ("MT", "MLT"), ("CY", "CYP"), ("LU", "LUX"), ("HK", "HKG"), ("SG", "SGP"),
   ("TW", "TWN"), ("TH", "THA"), ("MY", "MYS"), ("ID", "IDN"), ("PH", "PHL"), ("VN", "VNM"),
   ("BD", "BGD"), ("PK", "PAK"), ("LK", "LKA"), ("NP", "NPL"), ("MM", "MMR"), ("KH", "KHM"),
   ("LA", "LAO"), ("MN", "MNG"), ("KZ", "KAZ"), ("UZ", "UZB"), ("KG", "KGZ"), ("TJ", "TJK"),
   ("TM", "TKM"), ("AF", "AFG"), ("IR", "IRN"), ("IQ", "IRQ"), ("SY", "SYR"), ("LB", "LBN"),
   ("JO", "JOR"), ("IL", "ISR"), ("PS", "PSE"), ("SA", "SAU"), ("AE", "ARE"), ("QA", "QAT"),
   ("BH", "BHR"), ("KW", "KWT"), ("OM", "OMN"), ("YE", "YEM"), ("EG", "EGY"), ("LY", "LBY"),
   ("TN", "TUN"), ("DZ", "DZA"), ("MA", "MAR"), ("SD", "SDN"), ("ET", "ETH"), ("KE", "KEN"),
   ("UG", "UGA"), ("TZ", "TZA"), ("RW", "RWA"), ("BI", "BDI"), ("DJ", "DJI"), ("SO", "SOM"),
   ("ER", "ERI"), ("SS", "SSD"), ("CF", "CAF"), ("TD", "TCD"), ("CM", "CMR"), ("NG", "NGA"),
   ("NE", "NER"), ("BF", "BFA"), ("ML", "MLI"), ("SN", "SEN"), ("MR", "MRT"), ("GW", "GNB"),
   ("GN", "GIN"), ("SL", "SLE"), ("LR", "LBR"), ("CI", "CIV"), ("GH", "GHA"), ("TG", "TGO"),
   ("BJ", "BEN"), ("GA", "GAB"), ("GQ", "GNQ"), ("ST", "STP"), ("AO", "AGO"), ("ZM", "ZMB"),
   ("ZW", "ZWE"), ("BW", "BWA"), ("NA", "NAM"), ("ZA", "ZAF"), ("LS", "LSO"), ("SZ", "SWZ"),
   ("MZ", "MOZ"), ("MW", "MWI"), ("MG", "MDG"), ("MU", "MUS"), ("SC", "SYC"), ("KM", "COM"),
   ("AR", "ARG"), ("CL", "CHL"), ("PE", "PER"), ("BO", "BOL"), ("PY", "PRY"), ("UY", "URY"),
   ("EC", "ECU"), ("CO", "COL"), ("VE", "VEN"), ("GY", "GUY"), ("SR", "SUR"), ("GF", "GUF"),
   ("FK", "FLK"), ("GS", "SGS"), ("NZ", "NZL"), ("FJ", "FJI"), ("PG", "PNG"), ("SB", "SLB"),
   ("VU", "VUT"), ("NC", "NCL"), ("PF", "PYF"), ("WS", "WSM"), ("TO", "TON"), ("TV", "TUV"),
   ("NR", "NRU"), ("KI", "KIR"), ("MH", "MHL"), ("FM", "FSM"), ("PW", "PLW")]

/-- The table `capitals` of Go `getCountryCapital` (handler.go 352-360). -/
def capitals : List (String × String) :=
  [("US", "Washington"), ("CN", "Beijing"), ("JP", "Tokyo"), ("DE", "Berlin"), ("GB", "London"),
   ("FR", "Paris"), ("IT", "Rome"), ("ES", "Madrid"), ("CA", "Ottawa"), ("AU", "Canberra"),
   ("BR", "Brasília"), ("IN", "New Delhi"), ("RU", "Moscow"), ("KR", "Seoul"),
   ("MX", "Mexico City"), ("NL", "Amsterdam"), ("SE", "Stockholm"), ("NO", "Oslo"),
   ("DK", "Copenhagen"), ("FI", "Helsinki"), ("CH", "Bern"), ("AT", "Vienna"),
   ("BE", "Brussels"), ("IE", "Dublin"), ("PT", "Lisbon"), ("GR", "Athens"), ("PL", "Warsaw"),
   ("CZ", "Prague"), ("HU", "Budapest"), ("SK", "Bratislava"), ("HK", "Hong Kong"),
   ("SG", "Singapore"), ("TW", "Taipei"), ("TH", "Bangkok"), ("MY", "Kuala Lumpur")]

/-- The table `tlds` of Go `getCountryTLD` (handler.go 369-377). -/
def tlds : List (String × String) :=
  [("US", ".us"), ("CN", ".cn"), ("JP", ".jp"), ("DE", ".de"), ("GB", ".uk"), ("FR", ".fr"),
   ("IT", ".it"), ("ES", ".es"), ("CA", ".ca"), ("AU", ".au"), ("BR", ".br"), ("IN", ".in"),
   ("RU", ".ru"), ("KR", ".kr"), ("MX", ".mx"), ("NL", ".nl"), ("SE", ".se"), ("NO", ".no"),
   ("DK", ".dk"), ("FI", ".fi"), ("CH", ".ch"), ("AT", ".at"), ("BE", ".be"), ("IE", ".ie"),
   ("PT", ".pt"), ("GR", ".gr"), ("PL", ".pl"), ("CZ", ".cz"), ("HU", ".hu"), ("SK", ".sk"),
   ("HK", ".hk"), ("SG", ".sg"), ("TW", ".tw"), ("TH", ".th"), ("MY", ".my")]

/-- The table `callingCodes` of Go `getCountryCallingCode` (handler.go 386-394). -/
def callingCodes : List (String × String) :=
  [("US", "+1"), ("CN", "+86"), ("JP", "+81"), ("DE", "+49"), ("GB", "+44"), ("FR", "+33"),
   ("IT", "+39"), ("ES", "+34"), ("CA", "+1"), ("AU", "+61"), ("BR", "+55"), ("IN", "+91"),
   ("RU", "+7"), ("KR", "+82"), ("MX", "+52"), ("NL", "+31"), ("SE", "+46"), ("NO", "+47"),
   ("DK", "+45"), ("FI", "+358"), ("CH", "+41"), ("AT", "+43"), ("BE", "+32"), ("IE", "+353"),
   ("PT", "+351"), ("GR", "+30"), ("PL", "+48"), ("CZ", "+420"), ("HU", "+36"), ("SK", "+421"),
   ("HK", "+852"), ("SG", "+65"), ("TW", "+886"), ("TH", "+66"), ("MY", "+60")]

/-- The table `currencies` of Go `getCurrency` (handler.go 403-411). -/
def currencies : List (String × String) :=
  [("US", "USD"), ("CN", "CNY"), ("JP", "JPY"), ("DE", "EUR"), ("GB", "GBP"), ("FR", "EUR"),
   ("IT", "EUR"), ("ES", "EUR"), ("CA", "CAD"), ("AU", "AUD"), ("BR", "BRL"), ("IN", "INR"),
   ("RU", "RUB"), ("KR", "KRW"), ("MX", "MXN"), ("NL", "EUR"), ("SE", "SEK"), ("NO", "NOK"),
   ("DK", "DKK"), ("FI", "EUR"), ("CH", "CHF"), ("AT", "EUR"), ("BE", "EUR"), ("IE", "EUR"),
   ("PT", "EUR"), ("GR", "EUR"), ("PL", "PLN"), ("CZ", "CZK"), ("HU", "HUF"), ("SK", "EUR"),
   ("HK", "HKD"), ("SG", "SGD"), ("TW", "TWD"), ("TH", "THB"), ("MY", "MYR")]

/-- The table `currencyNames` of Go `getCurrencyName` (handler.go 420-428). -/
def currencyNames : List (String × String) :=
  [("US", "Dollar"), ("CN", "Yuan"), ("JP", "Yen"), ("DE", "Euro"), ("GB", "Pound"),
   ("FR", "Euro"), ("IT", "Euro"), ("ES", "Euro"), ("CA", "Dollar"), ("AU", "Dollar"),
   ("BR", "Real"), ("IN", "Rupee"), ("RU", "Ruble"), ("KR", "Won"), ("MX", "Peso"),
   ("NL", "Euro"), ("SE", "Krona"), ("NO", "Krone"), ("DK", "Krone"), ("FI", "Euro"),
   ("CH", "Franc"), ("AT", "Euro"), ("BE", "Euro"), ("IE", "Euro"), ("PT", "Euro"),
   ("GR", "Euro"), ("PL", "Zloty"), ("CZ", "Koruna"), ("HU", "Forint"), ("SK", "Euro"),
   ("HK", "Dollar"), ("SG", "Dollar"), ("TW", "Dollar"), ("TH", "Baht"), ("MY", "Ringgit")]

/-- The table `languages` of Go `getLanguages` (handler.go 437-445). -/
def languages : List (String × String) :=
  [("US", "en-US,es-US,haw"), ("CN", "zh-CN,yue,wuu,dta,ug,za"), ("JP", "ja"), ("DE", "de"),
   ("GB", "en-GB,cy-GB,gd"), ("FR", "fr-FR,frp,br,co,ca,eu,oc"),
   ("IT", "it-IT,de-IT,fr-IT,sc,ca,co,sl"), ("ES", "es-ES,ca,gl,eu,oc"),
   ("CA", "en-CA,fr-CA,iu"), ("AU", "en-AU"), ("BR", "pt-BR,en,es,de,it,ja,ko,zh"),
   ("IN", "en-IN,hi,bn,te,mr,ta,ur,gu,kn,ml,or,pa,as,bh,sat,ks,ne,sd,kok,brx,ks"),
   ("RU", "ru,tt,xal,cau,ady,kv,ce,tyv,cv,udm,tut,mns,bua,myv,mdf,chm,ba,inh,tut,kbd,krc,av,sah,nog"),
   ("KR", "ko-KR,en"), ("MX", "es-MX,en"), ("NL", "nl-NL,fy-NL"), ("SE", "sv-SE,se,sma,fi-SE"),
   ("NO", "no,nb,nn,se,fi"), ("DK", "da-DK,en,fo,de-DK"), ("FI", "fi-FI,sv-FI,smn"),
   ("CH", "de-CH,fr-CH,it-CH,rm"), ("AT", "de-AT,hr,hu,sl"), ("BE", "nl-BE,fr-BE,de-BE"),
   ("IE", "en-IE,ga-IE"), ("PT", "pt-PT,mwl"), ("GR", "el-GR,en,fr"), ("PL", "pl"),
   ("CZ", "cs,sk"), ("HU", "hu"), ("SK", "sk,hu"), ("HK", "zh-HK,yue,zh,en"),
   ("SG", "cmn,en-SG,ms-SG,ta-SG,zh-SG"), ("TW", "zh-TW,zh,nan,hak"), ("TH", "th,en"),
   ("MY", "ms-MY,en,zh,ta,te,ml,pa,th")]

/-- The table `offsets` of Go `getUTCOffset` (handler.go 456-469). -/
def offsets : List (String × String) :=
  [("America/Los_Angeles", "-0700"), ("America/Denver", "-0600"), ("America/Chicago", "-0500"),
   ("America/New_York", "-0400"), ("Europe/London", "+0100"), ("Europe/Paris", "+0200"),
   ("Europe/Berlin", "+0200"), ("Asia/Tokyo", "+0900"), ("Asia/Shanghai", "+0800"),
   ("Asia/Hong_Kong", "+0800"), ("Asia/Singapore", "+0800"), ("Australia/Sydney", "+1100")]

/-- The table `countryAreas` of Go `getCountryArea` (handler.go 478-656). -/
def countryAreas : List (String × Float64) :=
  [("US", 9833517.0), ("CN", 9596960.0), ("CA", 9984670.0), ("RU", 17098242.0),
   ("BR", 8514877.0), ("AU", 7692024.0), ("IN", 3287263.0), ("AR", 2780400.0), ("KZ", 2724900.0),
   ("DZ", 2381741.0), ("SA", 2149690.0), ("MX", 1964375.0), ("ID", 1904569.0), ("SD", 1861484.0),
   ("LY", 1759540.0), ("IR", 1648195.0), ("MN", 1564110.0), ("PE", 1285216.0), ("TD", 1284000.0),
   ("NE", 1267000.0), ("AO", 1246700.0), ("ML", 1240192.0), ("ZA", 1221037.0), ("CO", 1141748.0),
   ("ET", 1104300.0), ("BO", 1098581.0), ("MR", 1030700.0), ("EG", 1001449.0), ("TZ", 947300.0),
   ("NG", 923768.0), ("VE", 912050.0), ("PK", 881913.0), ("CL", 756096.0), ("ZM", 752618.0),
   ("MM", 676578.0), ("AF", 652230.0), ("SO", 637657.0), ("CF", 622984.0), ("UA", 603550.0),
   ("MG", 587041.0), ("BW", 581730.0), ("KE", 580367.0), ("FR", 551695.0), ("YE", 527968.0),
   ("TH", 513120.0), ("ES", 505992.0), ("TM", 488100.0), ("CM", 475442.0), ("PG", 462840.0),
   ("UZ", 447400.0), ("MA", 446550.0), ("IQ", 438317.0), ("PY", 406752.0), ("ZW", 390757.0),
   ("NO", 385207.0), ("JP", 377930.0), ("DE", 357114.0), ("FI", 338424.0), ("VN", 331212.0),
   ("MY", 330803.0), ("PL", 312696.0), ("OM", 309500.0), ("IT", 301336.0), ("PH", 300000.0),
   ("EC", 283561.0), ("BF", 274222.0), ("NZ", 268838.0), ("GA", 267668.0), ("WS", 2842.0),
   ("GN", 245857.0), ("UK", 242495.0), ("GB", 242495.0), ("UG", 241550.0), ("GH", 238533.0),
   ("RO", 238391.0), ("LA", 236800.0), ("GY", 214969.0), ("BY", 207600.0), ("KG", 199951.0),
   ("SN", 196722.0), ("SY", 185180.0), ("KH", 181035.0), ("UY", 176215.0), ("TN", 163610.0),
   ("SR", 163820.0), ("BD", 147570.0), ("NP", 147181.0), ("TJ", 143100.0), ("GR", 131957.0),
   ("NI", 130373.0), ("KP", 120538.0), ("ER", 117600.0), ("BG", 110879.0), ("CU", 109884.0),
   ("IS", 103000.0), ("JO", 89342.0), ("AZ", 86600.0), ("AT", 83871.0), ("AE", 83600.0),
   ("CZ", 78867.0), ("RS", 77474.0), ("PA", 75417.0), ("IE", 70273.0), ("GE", 69700.0),
   ("LK", 65610.0), ("LT", 65300.0), ("LV", 64559.0), ("TG", 56785.0), ("HR", 56594.0),
   ("BA", 51197.0), ("CR", 51100.0), ("SK", 49035.0), ("EE", 45228.0), ("DK", 43094.0),
   ("NL", 41850.0), ("CH", 41285.0), ("BH", 760.0), ("GW", 36125.0), ("MD", 33846.0),
   ("BE", 30528.0), ("AM", 29743.0), ("AL", 28748.0), ("SL", 71740.0), ("EQ", 28051.0),
   ("BJ", 112622.0), ("HT", 27750.0), ("RW", 26338.0), ("MK", 25713.0), ("DJ", 23200.0),
   ("BZ", 22966.0), ("IL", 20770.0), ("SV", 21041.0), ("SI", 20273.0), ("FJ", 18272.0),
   ("KW", 17818.0), ("SZ", 17364.0), ("ME", 13812.0), ("VU", 12189.0), ("QA", 11586.0),
   ("GM", 11295.0), ("JM", 10991.0), ("LB", 10452.0), ("CY", 9251.0), ("PR", 8870.0),
   ("PS", 6220.0), ("BN", 5765.0), ("TT", 5130.0), ("CV", 4033.0), ("LU", 2586.0),
   ("KM", 2235.0), ("MU", 2040.0), ("FO", 1393.0), ("ST", 964.0), ("KI", 811.0), ("DM", 751.0),
   ("TO", 747.0), ("MH", 181.0), ("KN", 261.0), ("PW", 459.0), ("LC", 539.0), ("AD", 468.0),
   ("AG", 442.0), ("BB", 430.0), ("TV", 26.0), ("SC", 455.0), ("GD", 344.0), ("MT", 316.0),
   ("MV", 298.0), ("VC", 389.0), ("LI", 160.0), ("SM", 61.0), ("NR", 21.0), ("MC", 2.02),
   ("VA", 0.17), ("HK", 1092.0), ("SG", 719.0), ("MO", 115.3)]

/-- The table `euCountries` of Go `isEUCountry` (handler.go 665-693). -/
def euCountries : List (String × Bool) :=
  [("AT", true), ("BE", true), ("BG", true), ("HR", true), ("CY", true), ("CZ", true),
   ("DK", true), ("EE", true), ("FI", true), ("FR", true), ("DE", true), ("GR", true),
   ("HU", true), ("IE", true), ("IT", true), ("LV", true), ("LT", true), ("LU", true),
   ("MT", true), ("NL", true), ("PL", true), ("PT", true), ("RO", true), ("SK", true),
   ("SI", true), ("ES", true), ("SE", true)]

/-- The table `cityStates` of Go `isCityState` (handler.go 699-709). -/
def cityStates : List (String × Bool) :=
  [("HK", true), ("SG", true), ("MC", true), ("VA", true), ("SM", true), ("LI", true),
   ("AD", true), ("MT", true), ("MO", true)]

/-- The table `countryPopulations` of Go `getCountryPopulation` (handler.go 715-899). -/
def countryPopulations : List (String × Int) :=
  [("CN", 1439323776), ("IN", 1380004385), ("US", 331002651), ("ID", 273523615),
   ("PK", 220892340), ("BR", 212559417), ("NG", 206139589), ("BD", 164689383), ("RU", 145934462),
   ("MX", 128932753), ("JP", 126476461), ("PH", 109581078), ("ET", 114963588), ("VN", 97338579),
   ("EG", 102334404), ("DE", 83783942), ("TR", 84339067), ("IR", 83992949), ("TH", 69799978),
   ("GB", 67886011), ("UK", 67886011), ("FR", 65273511), ("IT", 60461826), ("TZ", 59734218),
   ("ZA", 59308690), ("MM", 54409800), ("KR", 51269185), ("CO", 50882891), ("KE", 53771296),
   ("UG", 45741007), ("ES", 46754778), ("AR", 45195774), ("DZ", 43851044), ("SD", 43849260),
   ("UA", 43733762), ("IQ", 40222493), ("AF", 38928346), ("PL", 37846611), ("CA", 37742154),
   ("MA", 36910560), ("SA", 34813871), ("UZ", 33469203), ("PE", 32971854), ("MY", 32365999),
   ("AO", 32866272), ("MZ", 31255435), ("GH", 31072940), ("YE", 29825964), ("NP", 29136808),
   ("VE", 28435940), ("MG", 27691018), ("CM", 26545863), ("CI", 26378274), ("AU", 25499884),
   ("NE", 24206644), ("LK", 21413249), ("BF", 20903273), ("ML", 20250833), ("RO", 19237691),
   ("MW", 19129952), ("CL", 19116201), ("KZ", 18776707), ("ZM", 18383955), ("GT", 17915568),
   ("EC", 17643054), ("SY", 17500658), ("NL", 17134872), ("SN", 16743927), ("KH", 16718965),
   ("TD", 16425864), ("SO", 15893222), ("ZW", 14862924), ("GN", 13132795), ("RW", 12952218),
   ("BJ", 12123200), ("TN", 11818619), ("BI", 11890784), ("BO", 11673021), ("BE", 11589623),
   ("HT", 11402528), ("CU", 11326616), ("SS", 11193725), ("DO", 10847910), ("CZ", 10708981),
   ("GR", 10423054), ("JO", 10203134), ("PT", 10196709), ("AZ", 10139177), ("SE", 10099265),
   ("HU", 9660351), ("BY", 9449323), ("TJ", 9537645), ("AE", 9890402), ("HN", 9904607),
   ("AT", 9006398), ("PG", 8947024), ("IL", 8655535), ("CH", 8654622), ("TG", 8278724),
   ("SL", 7976983), ("HK", 7451000), ("LA", 7275560), ("PY", 7132538), ("BG", 6948445),
   ("LY", 6871292), ("LB", 6825445), ("NI", 6624554), ("KG", 6524195), ("ER", 3546421),
   ("UY", 3473730), ("MN", 3278290), ("BA", 3280819), ("AM", 2963243), ("JM", 2961167),
   ("QA", 2881053), ("AL", 2877797), ("PR", 2860853), ("LT", 2722289), ("MR", 4649658),
   ("PA", 4314767), ("CR", 5094118), ("SK", 5459642), ("NO", 5421241), ("IE", 4937786),
   ("HR", 4105267), ("NZ", 4822233), ("GE", 3989167), ("LV", 1886198), ("EE", 1326535),
   ("MU", 1271768), ("CY", 1207359), ("FI", 5540720), ("DK", 5792202), ("SG", 5850342),
   ("KW", 4270571), ("OM", 5106626), ("MD", 4033963), ("BH", 1701575), ("TT", 1399488),
   ("EQ", 1402985), ("SZ", 1160164), ("DJ", 988000), ("FJ", 896445), ("RE", 895312),
   ("GP", 400124), ("BT", 771608), ("GY", 786552), ("SB", 686884), ("MO", 649335),
   ("LU", 625978), ("ME", 628066), ("WS", 198414), ("CV", 555987), ("BN", 437479),
   ("MT", 441543), ("BZ", 397628), ("MV", 540544), ("IS", 341243), ("VU", 307145),
   ("BB", 287375), ("ST", 219159), ("WF", 11239), ("LC", 183627), ("KI", 119449), ("FM", 115023),
   ("GD", 112523), ("VC", 110940), ("TO", 105695), ("SC", 98347), ("AG", 97929), ("AD", 77265),
   ("DM", 71986), ("MH", 59190), ("KN", 53199), ("FO", 48863), ("LI", 38128), ("MC", 39242),
   ("SM", 33931), ("PW", 18094), ("CK", 17564), ("NR", 10824), ("TV", 11792), ("VA", 801)]

/-- The table `postalMap` of Go `getChinesePostalCode` (handler.go 911-943). -/
def postalMap : List (String × String) :=
  [("BJ", "100000"), ("TJ", "300000"), ("HE", "050000"), ("SX", "030000"), ("NM", "010000"),
   ("LN", "110000"), ("JL", "130000"), ("HL", "150000"), ("SH", "200000"), ("JS", "210000"),
   ("ZJ", "310000"), ("AH", "230000"), ("FJ", "350000"), ("JX", "330000"), ("SD", "250000"),
   ("HA", "450000"), ("HB", "430000"), ("HN", "410000"), ("GD", "510000"), ("GX", "530000"),
   ("HI", "570000"), ("CQ", "400000"), ("SC", "610000"), ("GZ", "550000"), ("YN", "650000"),
   ("XZ", "850000"), ("SN", "710000"), ("GS", "730000"), ("QH", "810000"), ("NX", "750000"),
   ("XJ", "830000")]

/-- The table `regionNameMap` of Go `getChinesePostalCode` (handler.go 952-984). -/
def regionNameMap : List (String × String) :=
  [("北京", "100000"), ("天津", "300000"), ("河北", "050000"), ("山西", "030000"), ("内蒙古", "010000"),
   ("辽宁", "110000"), ("吉林", "130000"), ("黑龙江", "150000"), ("上海", "200000"), ("江苏", "210000"),
   ("浙江", "310000"), ("安徽", "230000"), ("福建", "350000"), ("江西", "330000"), ("山东", "250000"),
   ("河南", "450000"), ("湖北", "430000"), ("湖南", "410000"), ("广东", "510000"), ("广西", "530000"),
   ("海南", "570000"), ("重庆", "400000"), ("四川", "610000"), ("贵州", "550000"), ("云南", "650000"),
   ("西藏", "850000"), ("陕西", "710000"), ("甘肃", "730000"), ("青海", "810000"), ("宁夏", "750000"),
   ("新疆", "830000")]
/-- Go `getISO3Code` (handler.go 309-348). -/
def getISO3Code (iso2 : String) : String :=
  match countryISO3.lookup iso2 with
  | some iso3 => iso3
  | none => ""

/-- Go `getCountryCapital` (handler.go 350-365). -/
def getCountryCapital (countryCode : String) : String :=
  match capitals.lookup countryCode with
  | some capital => capital
  | none => ""

/-- Go `getCountryTLD` (handler.go 367-382). -/
def getCountryTLD (countryCode : String) : String :=
  match tlds.lookup countryCode with
  | some tld => tld
  | none => ""

/-- Go `getCountryCallingCode` (handler.go 384-399). -/
def getCountryCallingCode (countryCode : String) : String :=
  match callingCodes.lookup countryCode with
  | some code => code
  | none => ""

/-- Go `getCurrency` (handler.go 401-416). -/
def getCurrency (countryCode : String) : String :=
  match currencies.lookup countryCode with
  | some currency => currency
  | none => ""

/-- Go `getCurrencyName` (handler.go 418-433). -/
def getCurrencyName (countryCode : String) : String :=
  match currencyNames.lookup countryCode with
  | some name => name
  | none => ""

/-- Go `getLanguages` (handler.go 435-450). -/
def getLanguages (countryCode : String) : String :=
  match languages.lookup countryCode with
  | some langs => langs
  | none => ""

/-- Go `getUTCOffset` (handler.go 452-474). -/
def getUTCOffset (timezone : String) : String :=
  match offsets.lookup timezone with
  | some offset => offset
  | none => ""

/-- Go `getCountryArea` (handler.go 476-661). -/
def getCountryArea (countryCode : String) : Float64 :=
  match countryAreas.lookup countryCode with
  | some area => area
  | none => 0

/-- Go `isEUCountry` (handler.go 663-695): the index of a missing key is `false`. -/
def isEUCountry (countryCode : String) : Bool :=
  (euCountries.lookup countryCode).getD false

/-- Go `isCityState` (handler.go 697-711). -/
def isCityState (countryCode : String) : Bool :=
  (cityStates.lookup countryCode).getD false

/-- Go `getCountryPopulation` (handler.go 713-904). -/
def getCountryPopulation (countryCode : String) : Int :=
  match countryPopulations.lookup countryCode with
  | some population => population
  | none => 0

/-- Go `getChinesePostalCode` (handler.go 906-993). -/
def getChinesePostalCode (regionCode regionName : String) : String :=
  let byCode : Option String :=
    if regionCode ≠ "" then postalMap.lookup regionCode else none
  match byCode with
  | some postal => postal
  | none =>
    let byName : Option String :=
      if regionName ≠ "" then regionNameMap.lookup regionName else none
    match byName with
    | some postal => postal
    | none => ""

/-- Lines 143-152 of `buildSuccessResponse`: Version and Network. For an address
that is not IPv4 the slice `ip.String()[:19]` panics when the text is shorter
than 19 bytes. -/
def networkInfo (ip : net.IP) (resp : Response) : Option Response :=
  match ip.To4 with
  | some ipv4 =>
    some { resp with
      Version := "IPv4",
      Network := toString (ipv4.bytes.getD 0 0) ++ "." ++ toString (ipv4.bytes.getD 1 0) ++ "."
        ++ toString (ipv4.bytes.getD 2 0) ++ ".0/24" }
  | none =>
    if ip.String.length < 19 then none
    else
      some { resp with
        Version := "IPv6",
        Network := String.mk (ip.String.data.take 19) ++ "/64" }

/-- Lines 155-173 of `buildSuccessResponse`: country fields. -/
def countryInfo (resp : Response) (city : geoip2.City) : Response :=
  let resp := { resp with Country := city.Country.IsoCode, CountryCode := city.Country.IsoCode }
  let resp :=
    if city.Country.Names.len > 0 then
      if resp.CountryCode = "CN" ∧ city.Country.Names.get "zh-CN" ≠ "" then
        { resp with CountryName := city.Country.Names.get "zh-CN" }
      else { resp with CountryName := city.Country.Names.get "en" }
    else resp
  { resp with
    CountryCodeISO3 := getISO3Code city.Country.IsoCode,
    CountryTLD := getCountryTLD city.Country.IsoCode,
    CountryCallingCode := getCountryCallingCode city.Country.IsoCode,
    Currency := getCurrency city.Country.IsoCode,
    CurrencyName := getCurrencyName city.Country.IsoCode,
    Languages := getLanguages city.Country.IsoCode,
    CountryArea := getCountryArea city.Country.IsoCode,
    CountryPopulation := getCountryPopulation city.Country.IsoCode }

/-- Lines 175-194 of `buildSuccessResponse`: the 香港 / 台湾 special case, the
capital, the continent and the EU flag. -/
def specialRegionInfo (resp : Response) (city : geoip2.City) : Response :=
  let resp :=
    if city.Country.IsoCode = "HK" ∨ city.Country.IsoCode = "TW" then
      let resp := { resp with
        Country := "CN", CountryCode := "CN", CountryName := "中国", CountryCapital := "北京" }
      if city.Country.IsoCode = "HK" then { resp with Region := "香港", City := "香港" }
      else if city.Country.IsoCode = "TW" then { resp with Region := "台湾", City := "台湾" }
      else resp
    else { resp with CountryCapital := getCountryCapital city.Country.IsoCode }
  { resp with ContinentCode := city.Continent.Code, InEU := isEUCountry city.Country.IsoCode }

/-- Lines 196-204 of `buildSuccessResponse`: the city name, "zh-CN" before "en". -/
def cityNameInfo (resp : Response) (city : geoip2.City) : Response :=
  if city.City.Names ≠ none then
    let zh := city.City.Names.find "zh-CN"
    if zh.isSome ∧ zh.getD "" ≠ "" then { resp with City := zh.getD "" }
    else
      let en := city.City.Names.find "en"
      if en.isSome ∧ en.getD "" ≠ "" then { resp with City := en.getD "" }
      else resp
  else resp

/-- Lines 206-216 of `buildSuccessResponse`: region code and name from the
first subdivision, "zh-CN" before "en". -/
def subdivisionInfo (resp : Response) (city : geoip2.City) : Response :=
  match city.Subdivisions with
  | [] => resp
  | subdivision :: _ =>
    if subdivision.Names ≠ none then
      let resp := { resp with RegionCode := subdivision.IsoCode }
      let zh := subdivision.Names.find "zh-CN"
      if zh.isSome ∧ zh.getD "" ≠ "" then { resp with Region := zh.getD "" }
      else
        let en := subdivision.Names.find "en"
        if en.isSome ∧ en.getD "" ≠ "" then { resp with Region := en.getD "" }
        else resp
    else resp

/-- Lines 218-228 of `buildSuccessResponse`: the fallback for an empty city. -/
def cityFallback (resp : Response) : Response :=
  if resp.City = "" then
    if isCityState resp.CountryCode = true then { resp with City := resp.CountryName }
    else if resp.CountryCode = "CN" ∧ resp.Region ≠ "" then { resp with City := resp.Region }
    else resp
  else resp

/-- Lines 230-242 of `buildSuccessResponse`: postal code, coordinates, time zone. -/
def locationInfo (resp : Response) (city : geoip2.City) : Response :=
  let resp := { resp with Postal := city.Postal.Code }
  let resp :=
    if resp.Postal = "" ∧ resp.CountryCode = "CN" then
      { resp with Postal := getChinesePostalCode resp.RegionCode resp.Region }
    else resp
  { resp with
    Latitude := city.Location.Latitude,
    Longitude := city.Location.Longitude,
    Timezone := city.Location.TimeZone,
    UTCOffset := getUTCOffset city.Location.TimeZone }

/-- Lines 154-243 of `buildSuccessResponse`: the block `if city != nil`. -/
def cityInfo (resp : Response) (city : Option geoip2.City) : Response :=
  match city with
  | none => resp
  | some city =>
    let resp := countryInfo resp city
    let resp := specialRegionInfo resp city
    let resp := cityNameInfo resp city
    let resp := subdivisionInfo resp city
    let resp := cityFallback resp
    locationInfo resp city

/-- Lines 245-249 of `buildSuccessResponse`: the ASN fields. -/
def asnInfo (resp : Response) (asn : Option geoip2.ASN) : Response :=
  match asn with
  | none => resp
  | some asn =>
    if asn.AutonomousSystemNumber > 0 then
      { resp with
        ASN := "AS" ++ toString asn.AutonomousSystemNumber,
        Org := asn.AutonomousSystemOrganization }
    else resp

/-- Lines 251-273 of `buildSuccessResponse`: the GeoCN fields. -/
def geoCNInfo (resp : Response) (cnResult : Option geoip.GeoCNResult) : Response :=
  match cnResult with
  | none => resp
  | some cnResult =>
    let resp := if cnResult.City ≠ "" then { resp with City := cnResult.City } else resp
    let resp := if cnResult.Province ≠ "" then { resp with Region := cnResult.Province } else resp
    { resp with
      CityCode := cnResult.CityCode,
      ProvinceCode := cnResult.ProvinceCode,
      Districts := cnResult.Districts,
      DistrictsCode := cnResult.DistrictsCode,
      ISP := cnResult.ISP }

/-- Go `buildSuccessResponse` (handler.go 133-276); `none` is a runtime panic. -/
def buildSuccessResponse (ip : net.IP) (city : Option geoip2.City) (asn : Option geoip2.ASN)
    (cnResult : Option geoip.GeoCNResult) : Option Response :=
  let resp : Response := { IP := ip.String }
  match networkInfo ip resp with
  | none => none
  | some resp =>
    let resp := cityInfo resp city
    let resp := asnInfo resp asn
    let resp := geoCNInfo resp cnResult
    some resp

end api

/-! ## Package `updater` (src/updater/updater.go)

The file system, the HTTP client, the gzip and tar readers and the database
readers are outside the repository. The file system is explicit state
(`updater.FS`); what the outside answers and which file-system calls fail is a
parameter (`updater.World`) over which every theorem quantifies. Go strings
that are written to or read from files (the ETag) are byte lists. -/

namespace updater

/-- Go `[]byte`. -/
abbrev Bytes := List Nat

/-- Go `strings.Contains` on a list representation: whether `sub` occurs in `s`. -/
def hasSub {α : Type} [BEq α] : List α → List α → Bool
  | [], sub => sub.isEmpty
  | a :: s, sub => sub.isPrefixOf (a :: s) || hasSub s sub

/-- One byte of Go `strings.ToLower`: 'A'..'Z' become 'a'..'z'. Bytes outside
ASCII are left as they are: `strings.ToLower` rewrites them, but never into an
ASCII byte other than 'i' or 'k', and the texts searched for in this program
("<html", "<!doctype", "text/html") contain neither. -/
def lowerByte (b : Nat) : Nat := if 65 ≤ b ∧ b ≤ 90 then b + 32 else b

/-- The bytes of an ASCII text. -/
def asciiBytes (s : String) : Bytes := s.data.map Char.toNat

/-- The condition `strings.Contains(url, "suffix=tar.gz") ||
strings.HasSuffix(url, ".tar.gz")` of lines 166, 216 and 324. -/
def isTarGzURL (url : String) : Bool :=
  hasSub url.data "suffix=tar.gz".data || ".tar.gz".data.isSuffixOf url.data

/-- Go `filepath.Join(dir, name)`; `filepath.Clean` leaves the plain names of
this program as they are. -/
def filepathJoin (dir name : String) : String := dir ++ "/" ++ name

/-- A mutating file-system call (ghost: what a run attempted, in order). -/
inductive FsOp where
  | create (path : String)
  | write (path : String)
  | writeFile (path : String)
  | rename (src dst : String)
  | remove (path : String)
deriving DecidableEq, Repr

/-- The regular files on disk by path, and the mutating calls attempted so far. -/
structure FS where
  files : String → Option Bytes
  ops : List FsOp := []

/-- The file at `p` gets content `c`. -/
def FS.put (fs : FS) (p : String) (c : Bytes) : FS :=
  { fs with files := fun q => if q = p then some c else fs.files q }

/-- The file at `p` is gone. -/
def FS.del (fs : FS) (p : String) : FS :=
  { fs with files := fun q => if q = p then none else fs.files q }

/-- The call `op` is recorded. -/
def FS.record (fs : FS) (op : FsOp) : FS := { fs with ops := fs.ops ++ [op] }

/-- The paths a call may change. -/
def FsOp.targets : FsOp → List String
  | FsOp.create p => [p]
  | FsOp.write p => [p]
  | FsOp.writeFile p => [p]
  | FsOp.rename src dst => [src, dst]
  | FsOp.remove p => [p]

/-- The recorded calls that target the path `p`, in order. -/
def FS.touching (fs : FS) (p : String) : List FsOp :=
  fs.ops.filter fun op => decide (p ∈ op.targets)

/-- Which file-system calls fail. `write` and `read` give the number of bytes
that got through before the error. -/
structure Faults where
  create : String → Option String
  write : String → Bytes → Option (Nat × String)
  openFile : String → Option String
  read : String → Option (Nat × String)
  readFile : String → Option String
  writeFile : String → Bytes → Option (Option Nat × String)
  rename : String → String → Option String
  remove : String → Option String

/-- The response `httpClient.Do` returns: status, the two headers the program
reads, and what `io.ReadAll(resp.Body)` returns. -/
structure HTTPResponse where
  StatusCode : Nat
  Status : String := ""
  ContentType : String := ""
  ETag : Bytes := []
  Body : Bytes := []
  BodyErr : Option String := none

/-- One entry a `tar.Reader` yields: its header fields, the data `io.Copy`
can read from it, and the error that ends that data, if any. -/
structure TarEntry where
  Typeflag : Nat
  Name : String
  Data : Bytes
  DataErr : Option String := none
deriving DecidableEq, Repr

/-- Go `tar.TypeReg`, the byte '0'. -/
def tarTypeReg : Nat := 48

/-- What successive calls of `tarReader.Next()` yield: the entries, then
`io.EOF` (`endErr = none`) or an error. -/
structure TarStream where
  entries : List TarEntry
  endErr : Option String := none
deriving DecidableEq, Repr

/-- The fields of `config.App` the updater reads (config.go 7-49). -/
structure AppConfig where
  DataDir : String := "data"
  MaxMindLicenseKey : String := ""
deriving DecidableEq, Repr

/-- Everything outside the repository that the updater calls. -/
structure World where
  App : AppConfig := {}
  /-- The error of `http.NewRequest("GET", url, nil)`. -/
  newRequest : String → Option String
  /-- The call `httpClient.Do(req)`: the URL and the If-None-Match header, if set. -/
  httpDo : String → Option Bytes → Except String HTTPResponse
  /-- The error of `gzip.NewReader` on a file with these bytes. -/
  gzipNewReader : Bytes → Option String
  /-- The entries a `tar.Reader` over the gzip reader yields for these bytes. -/
  tarEntries : Bytes → TarStream
  /-- The database readers, given the files on disk. -/
  readers : (String → Option Bytes) → geoip.Library
  faults : Faults

/-- Go `os.Create(p)`: the file exists and is empty afterwards. -/
def osCreate (f : Faults) (fs : FS) (p : String) : FS × Option String :=
  let fs := fs.record (FsOp.create p)
  match f.create p with
  | some e => (fs, some e)
  | none => (fs.put p [], none)

/-- Go `file.Write(data)` and `io.Copy(file, src)` on the file just created at
`p`: `data` is what the source yields before `readErr`. -/
def writeTo (f : Faults) (fs : FS) (p : String) (data : Bytes) (readErr : Option String) :
    FS × Option String :=
  let fs := fs.record (FsOp.write p)
  match f.write p data with
  | some (k, e) => (fs.put p (data.take k), some e)
  | none => (fs.put p data, readErr)

/-- Go `os.Remove(p)`; every caller drops its error. -/
def osRemove (f : Faults) (fs : FS) (p : String) : FS :=
  let fs := fs.record (FsOp.remove p)
  match f.remove p with
  | some _ => fs
  | none => fs.del p

/-- Go `os.Rename(src, dst)`; a failed rename changes nothing. -/
def osRename (f : Faults) (fs : FS) (src dst : String) : FS × Option String :=
  let fs := fs.record (FsOp.rename src dst)
  match f.rename src dst with
  | some e => (fs, some e)
  | none =>
    match fs.files src with
    | none => (fs, some ("rename " ++ src ++ " " ++ dst ++ ": no such file or directory"))
    | some c => ((fs.del src).put dst c, none)

/-- Go `os.Open(p)` followed by reading the file to its end: the bytes read
and the read error, or the error of the open. -/
def osOpen (f : Faults) (fs : FS) (p : String) : Except String (Bytes × Option String) :=
  match f.openFile p with
  | some e => Except.error e
  | none =>
    match fs.files p with
    | none => Except.error ("open " ++ p ++ ": no such file or directory")
    | some c =>
      match f.read p with
      | some (k, e) => Except.ok (c.take k, some e)
      | none => Except.ok (c, none)

/-- Go `readETag` (updater.go 298-304). -/
def readETag (f : Faults) (fs : FS) (etagFile : String) : Bytes × Option String :=
  match f.readFile etagFile with
  | some e => ([], some e)
  | none =>
    match fs.files etagFile with
    | none => ([], some ("open " ++ etagFile ++ ": no such file or directory"))
    | some data => (data, none)

/-- Go `writeETag` (updater.go 306-309), that is `os.WriteFile`. -/
def writeETag (f : Faults) (fs : FS) (etagFile : String) (etag : Bytes) : FS × Option String :=
  let fs := fs.record (FsOp.writeFile etagFile)
  match f.writeFile etagFile etag with
  | some (none, e) => (fs, some e)
  | some (some k, e) => (fs.put etagFile (etag.take k), some e)
  | none => (fs.put etagFile etag, none)

/-- The errors of `validateFileFormat`. -/
inductive FormatError where
  | tooSmall
  | html
  | gzipMagic
deriving DecidableEq, Repr

/-- The text of a `FormatError`. -/
def FormatError.Error : FormatError → String
  | FormatError.tooSmall => "file too small for format validation"
  | FormatError.html => "detected HTML content, likely an error page"
  | FormatError.gzipMagic => "invalid gzip magic number"

/-- The first `min(512, len(data))` bytes, lowercased (lines 318-319). -/
def sniffWindow (data : Bytes) : Bytes := (data.take (min 512 data.length)).map lowerByte

/-- The loop of lines 334-341: whether three zero bytes start at some index
below `min(64, len(data)-4)`. -/
def hasValidStart (data : Bytes) : Bool :=
  (List.range (min 64 (data.length - 4))).any fun i =>
    data.getD i 0 == 0 && data.getD (i + 1) 0 == 0 && data.getD (i + 2) 0 == 0

/-- Whether `validateFileFormat` logs "MMDB file format validation
inconclusive" (lines 331-345). -/
def formatWarning (data : Bytes) (url : String) : Bool :=
  !isTarGzURL url && decide (data.length ≥ 4) && !hasValidStart data

/-- Go `validateFileFormat` (updater.go 311-349). -/
def validateFileFormat (data : Bytes) (url : String) : Option FormatError :=
  if data.length < 16 then some FormatError.tooSmall
  else if hasSub (sniffWindow data) (asciiBytes "<html")
      || hasSub (sniffWindow data) (asciiBytes "<!doctype") then
    some FormatError.html
  else if isTarGzURL url then
    if data.length ≥ 2 ∧ (data.getD 0 0 ≠ 0x1f ∨ data.getD 1 0 ≠ 0x8b) then
      some FormatError.gzipMagic
    else none
  else none

/-- The errors of `extractMmdbFromTarGz`: an error of a library call returned
as it is, or ".mmdb file not found in archive". -/
inductive ExtractError where
  | lib (e : String)
  | notFound
deriving DecidableEq, Repr

/-- The text of an `ExtractError`. -/
def ExtractError.Error : ExtractError → String
  | ExtractError.lib e => e
  | ExtractError.notFound => ".mmdb file not found in archive"

/-- Whether the loop of `extractMmdbFromTarGz` extracts this entry (line 273). -/
def isMmdbEntry (h : TarEntry) : Bool :=
  h.Typeflag == tarTypeReg && ".mmdb".data.isSuffixOf h.Name.data

/-- The loop of `extractMmdbFromTarGz` (lines 264-295) over the entries that
`tarReader.Next()` still has to yield. -/
def extractLoop (f : Faults) (destPath : String) (endErr : Option String) :
    FS → List TarEntry → FS × Option ExtractError
  | fs, [] =>
    match endErr with
    | none => (fs, some ExtractError.notFound)
    | some e => (fs, some (ExtractError.lib e))
  | fs, header :: rest =>
    if isMmdbEntry header then
      let tempDestPath := destPath ++ ".tmp"
      match osCreate f fs tempDestPath with
      | (fs, some e) => (fs, some (ExtractError.lib e))
      | (fs, none) =>
        match writeTo f fs tempDestPath header.Data header.DataErr with
        | (fs, some e) => (osRemove f fs tempDestPath, some (ExtractError.lib e))
        | (fs, none) =>
          match osRename f fs tempDestPath destPath with
          | (fs, some e) => (fs, some (ExtractError.lib e))
          | (fs, none) => (fs, none)
    else extractLoop f destPath endErr fs rest

/-- Go `extractMmdbFromTarGz` (updater.go 248-296). -/
def extractMmdbFromTarGz (w : World) (fs : FS) (tarGzPath destPath : String) :
    FS × Option ExtractError :=
  match osOpen w.faults fs tarGzPath with
  | Except.error e => (fs, some (ExtractError.lib e))
  | Except.ok (content, _) =>
    match w.gzipNewReader content with
    | some e => (fs, some (ExtractError.lib e))
    | none =>
      extractLoop w.faults destPath (w.tarEntries content).endErr fs
        (w.tarEntries content).entries

/-- Go `copyFile` (updater.go 362-378). -/
def copyFile (f : Faults) (fs : FS) (src dst : String) : FS × Option String :=
  match osOpen f fs src with
  | Except.error e => (fs, some e)
  | Except.ok (content, readErr) =>
    match osCreate f fs dst with
    | (fs, some e) => (fs, some e)
    | (fs, none) => writeTo f fs dst content readErr

/-- Go `validateMmdbFile` (updater.go 351-360): `geoip.OpenTestDB(filePath)`
is `geoip2.Open(filePath)`; the error of the open decides. -/
def validateMmdbFile (w : World) (fs : FS) (filePath : String) : Option String :=
  ((w.readers fs.files).geoip2Open filePath).2

/-- The errors `downloadAndExtract`, `downloadFromURL` and
`downloadFromMaxMind` return, by the statement that makes them. -/
inductive UpdateError where
  | notModified
  | licenseKeyNotSet
  | newRequest (e : String)
  | httpDo (e : String)
  | badStatus (status : String)
  | htmlContentType (contentType : String)
  | createTemp (e : String)
  | readBody (e : String)
  | tooSmall (n : Nat)
  | format (e : FormatError)
  | writeTemp (e : String)
  | extract (e : ExtractError)
  | copy (e : String)
  | mmdbInvalid (e : String)
  | replace (e : String)
deriving DecidableEq, Repr

/-- The text of an `UpdateError`. -/
def UpdateError.Error : UpdateError → String
  | UpdateError.notModified => "not modified"
  | UpdateError.licenseKeyNotSet => "MaxMind license key is not set"
  | UpdateError.newRequest e => e
  | UpdateError.httpDo e => e
  | UpdateError.badStatus status => "download failed with status: " ++ status
  | UpdateError.htmlContentType ct =>
    "received HTML content instead of binary file, Content-Type: " ++ ct
  | UpdateError.createTemp e => e
  | UpdateError.readBody e => "failed to read response body: " ++ e
  | UpdateError.tooSmall n =>
    "downloaded file too small (" ++ toString n ++ " bytes), likely an error page"
  | UpdateError.format e => "file format validation failed: " ++ e.Error
  | UpdateError.writeTemp e => "failed to write body to temp file: " ++ e
  | UpdateError.extract e => "failed to extract .mmdb from tar.gz: " ++ e.Error
  | UpdateError.copy e => "failed to copy file to final temp path: " ++ e
  | UpdateError.mmdbInvalid e =>
    "MMDB file validation failed: failed to open MMDB file for validation: " ++ e
  | UpdateError.replace e => "failed to replace final file: " ++ e

/-- The constant `minFileSize` of line 191. -/
def minFileSize : Nat := 2 * 1024 * 1024

/-- Lines 214-225 of `downloadAndExtract`: extract the archive, or copy the
download, to the final temp path. -/
def stageFile (w : World) (fs : FS) (url tempFilePath finalTempPath : String) :
    FS × Option UpdateError :=
  if isTarGzURL url then
    match extractMmdbFromTarGz w fs tempFilePath finalTempPath with
    | (fs, some e) => (fs, some (UpdateError.extract e))
    | (fs, none) => (fs, none)
  else
    match copyFile w.faults fs tempFilePath finalTempPath with
    | (fs, some e) => (fs, some (UpdateError.copy e))
    | (fs, none) => (fs, none)

/-- Lines 214-245 of `downloadAndExtract`: stage the file at the final temp
path, validate it, rename it over the canonical path, save the ETag. -/
def installStage (w : World) (fs : FS)
    (url filePath etagFilePath tempFilePath finalTempPath : String) (resp : HTTPResponse) :
    FS × Option UpdateError :=
  match stageFile w fs url tempFilePath finalTempPath with
  | (fs, some e) => (fs, some e)
  | (fs, none) =>
    match validateMmdbFile w fs finalTempPath with
    | some e => (fs, some (UpdateError.mmdbInvalid e))
    | none =>
      match osRename w.faults fs finalTempPath filePath with
      | (fs, some e) => (fs, some (UpdateError.replace e))
      | (fs, none) =>
        let newETag := resp.ETag
        if newETag ≠ [] then ((writeETag w.faults fs etagFilePath newETag).1, none)
        else (fs, none)

/-- Lines 183-245 of `downloadAndExtract`, with the deferred
`os.Remove(finalTempPath)` of line 212. -/
def bodyStage (w : World) (fs : FS) (url filePath etagFilePath tempFilePath : String)
    (resp : HTTPResponse) : FS × Option UpdateError :=
  match resp.BodyErr with
  | some e => (fs, some (UpdateError.readBody e))
  | none =>
    if resp.Body.length < minFileSize then (fs, some (UpdateError.tooSmall resp.Body.length))
    else
      match validateFileFormat resp.Body url with
      | some e => (fs, some (UpdateError.format e))
      | none =>
        match writeTo w.faults fs tempFilePath resp.Body none with
        | (fs, some e) => (fs, some (UpdateError.writeTemp e))
        | (fs, none) =>
          let finalTempPath := filePath ++ ".tmp_final"
          match installStage w fs url filePath etagFilePath tempFilePath finalTempPath resp with
          | (fs, err) => (osRemove w.faults fs finalTempPath, err)

/-- Lines 140-142 of `downloadAndExtract`: the If-None-Match header of the
request, set when the ETag file can be read. -/
def requestHeader (w : World) (fs : FS) (etagFilePath : String) : Option Bytes :=
  match readETag w.faults fs etagFilePath with
  | (etag, none) => some etag
  | (_, some _) => none

/-- Go `downloadAndExtract` (updater.go 132-246). The deferred
`os.Remove(tempFilePath)` of line 181 runs on every return after line 181. -/
def downloadAndExtract (w : World) (fs : FS) (url filePath etagFileName : String) :
    FS × Option UpdateError :=
  match w.newRequest url with
  | some e => (fs, some (UpdateError.newRequest e))
  | none =>
    let etagFilePath := filepathJoin w.App.DataDir (etagFileName ++ ".etag")
    match w.httpDo url (requestHeader w fs etagFilePath) with
    | Except.error e => (fs, some (UpdateError.httpDo e))
    | Except.ok resp =>
      if resp.StatusCode = 304 then (fs, some UpdateError.notModified)
      else if resp.StatusCode ≠ 200 then (fs, some (UpdateError.badStatus resp.Status))
      else if resp.ContentType ≠ ""
          ∧ hasSub (resp.ContentType.data.map Char.toLower) "text/html".data = true then
        (fs, some (UpdateError.htmlContentType resp.ContentType))
      else
        let tempFilePath := filePath ++ ".tmp_download"
        match osCreate w.faults fs tempFilePath with
        | (fs, some e) => (fs, some (UpdateError.createTemp e))
        | (fs, none) =>
          match bodyStage w fs url filePath etagFilePath tempFilePath resp with
          | (fs, err) => (osRemove w.faults fs tempFilePath, err)

/-- Go `downloadFromURL` (updater.go 115-119). -/
def downloadFromURL (w : World) (fs : FS) (url fileName : String) : FS × Option UpdateError :=
  downloadAndExtract w fs url (filepathJoin w.App.DataDir fileName) fileName

/-- Go `downloadFromMaxMind` (updater.go 121-130). -/
def downloadFromMaxMind (w : World) (fs : FS) (editionID fileName : String) :
    FS × Option UpdateError :=
  if w.App.MaxMindLicenseKey = "" then (fs, some UpdateError.licenseKeyNotSet)
  else
    let url := "https://download.maxmind.com/app/geoip_download?edition_id=" ++ editionID
      ++ "&license_key=" ++ w.App.MaxMindLicenseKey ++ "&suffix=tar.gz"
    downloadAndExtract w fs url (filepathJoin w.App.DataDir fileName) fileName

/-- One value of `dbSources`. -/
structure Source where
  EditionID : String := ""
  URL : String := ""
deriving DecidableEq, Repr

/-- Go `dbSources` (updater.go 22-30). -/
def dbSources : List (String × Source) :=
  [("GeoLite2-City.mmdb", { EditionID := "GeoLite2-City" }),
   ("GeoLite2-ASN.mmdb", { EditionID := "GeoLite2-ASN" }),
   ("GeoCN.mmdb", { URL := "https://github.com/ljxi/GeoCN/releases/download/Latest/GeoCN.mmdb" })]

/-- What `update` logs for one file, and the call of `geoip.ReloadDBs` it makes. -/
inductive UpdateEvent where
  | upToDate (fileName : String)
  | failed (fileName : String) (err : UpdateError)
  | updated (fileName : String)
  | reloadDBs (result : Option String)
deriving DecidableEq, Repr

/-- The state `update` works on: the files, the open readers, and what it has
logged and called so far (ghost). -/
structure UpdateState where
  fs : FS
  db : geoip.DBState
  events : List UpdateEvent := []

/-- Lines 87-92 of `update`: the download of one entry of `dbSources`. -/
def downloadSource (w : World) (fs : FS) (fileName : String) (source : Source) :
    FS × Option UpdateError :=
  if source.EditionID ≠ "" then downloadFromMaxMind w fs source.EditionID fileName
  else downloadFromURL w fs source.URL fileName

/-- The body of the loop of `update` (updater.go 85-110) for one entry of
`dbSources`. -/
def updateOne (w : World) (st : UpdateState) (entry : String × Source) : UpdateState :=
  let fileName := entry.1
  let source := entry.2
  match downloadSource w st.fs fileName source with
  | (fs, some e) =>
    if e = UpdateError.notModified then
      { st with fs := fs, events := st.events ++ [UpdateEvent.upToDate fileName] }
    else { st with fs := fs, events := st.events ++ [UpdateEvent.failed fileName e] }
  | (fs, none) =>
    let cityDBPath := filepathJoin w.App.DataDir "GeoLite2-City.mmdb"
    let asnDBPath := filepathJoin w.App.DataDir "GeoLite2-ASN.mmdb"
    let cnDBPath := filepathJoin w.App.DataDir "GeoCN.mmdb"
    match geoip.ReloadDBs (w.readers fs.files) st.db cityDBPath asnDBPath cnDBPath with
    | (db, rerr) =>
      { fs := fs, db := db,
        events := st.events ++ [UpdateEvent.updated fileName, UpdateEvent.reloadDBs rerr] }

/-- Go `update` (updater.go 82-111); `order` is the order in which the `range`
over the map `dbSources` yields its entries. -/
def update (w : World) (order : List (String × Source)) (st : UpdateState) : UpdateState :=
  order.foldl (updateOne w) st

end updater

/-! ## `filterResponse` (src/api/handler.go 278-305)

Go strings are byte sequences; the model works on the characters of valid
UTF-8 text. A `fields` parameter that is not valid UTF-8 names no field of
`Response`, whose tags are ASCII. -/

namespace api

/-- A value held in an `interface{}`: the types of the fields of `Response`. -/
inductive Value where
  | str (s : String)
  | uint (n : Nat)
  | bool (b : Bool)
  | float64 (x : Float64)
  | int64 (i : Int)
deriving DecidableEq, Repr

/-- Go `reflect.Value.IsZero` on the types of the fields of `Response`. -/
def Value.IsZero : Value → Bool
  | Value.str s => decide (s = "")
  | Value.uint n => decide (n = 0)
  | Value.bool b => !b
  | Value.float64 x => decide (x = 0)
  | Value.int64 i => decide (i = 0)

/-- One struct field as `reflect` presents it: the text of its `json` tag
(`field.Tag.Get("json")`) and its value (`val.Field(i)`). -/
structure StructField where
  Tag : String
  Value : Value
deriving DecidableEq, Repr

/-- The fields of `Response` in declaration order, with their `json` tags
(response.go 5-39). -/
def Response.structFields (resp : Response) : List StructField :=
  [⟨"ip", Value.str resp.IP⟩,
   ⟨"network,omitempty", Value.str resp.Network⟩,
   ⟨"version,omitempty", Value.str resp.Version⟩,
   ⟨"city", Value.str resp.City⟩,
   ⟨"city_code,omitempty", Value.uint resp.CityCode⟩,
   ⟨"region", Value.str resp.Region⟩,
   ⟨"region_code", Value.str resp.RegionCode⟩,
   ⟨"province_code,omitempty", Value.uint resp.ProvinceCode⟩,
   ⟨"districts,omitempty", Value.str resp.Districts⟩,
   ⟨"districts_code,omitempty", Value.uint resp.DistrictsCode⟩,
   ⟨"country,omitempty", Value.str resp.Country⟩,
   ⟨"country_name,omitempty", Value.str resp.CountryName⟩,
   ⟨"country_code,omitempty", Value.str resp.CountryCode⟩,
   ⟨"country_code_iso3,omitempty", Value.str resp.CountryCodeISO3⟩,
   ⟨"country_capital,omitempty", Value.str resp.CountryCapital⟩,
   ⟨"country_tld,omitempty", Value.str resp.CountryTLD⟩,
   ⟨"continent_code,omitempty", Value.str resp.ContinentCode⟩,
   ⟨"in_eu", Value.bool resp.InEU⟩,
   ⟨"postal", Value.str resp.Postal⟩,
   ⟨"latitude,omitempty", Value.float64 resp.Latitude⟩,
   ⟨"longitude,omitempty", Value.float64 resp.Longitude⟩,
   ⟨"timezone,omitempty", Value.str resp.Timezone⟩,
   ⟨"utc_offset,omitempty", Value.str resp.UTCOffset⟩,
   ⟨"country_calling_code,omitempty", Value.str resp.CountryCallingCode⟩,
   ⟨"currency,omitempty", Value.str resp.Currency⟩,
   ⟨"currency_name,omitempty", Value.str resp.CurrencyName⟩,
   ⟨"languages,omitempty", Value.str resp.Languages⟩,
   ⟨"country_area,omitempty", Value.float64 resp.CountryArea⟩,
   ⟨"country_population,omitempty", Value.int64 resp.CountryPopulation⟩,
   ⟨"asn,omitempty", Value.str resp.ASN⟩,
   ⟨"org,omitempty", Value.str resp.Org⟩,
   ⟨"isp,omitempty", Value.str resp.ISP⟩,
   ⟨"message,omitempty", Value.str resp.Message⟩]

/-- Go `strings.Split(s, string(sep))` on the characters of `s`. -/
def splitOnChar (sep : Char) : List Char → List (List Char)
  | [] => [[]]
  | c :: cs =>
    if c = sep then [] :: splitOnChar sep cs
    else
      match splitOnChar sep cs with
      | [] => [[c]]
      | p :: ps => (c :: p) :: ps

/-- Go `unicode.IsSpace`. -/
def isSpace (c : Char) : Bool :=
  (9 ≤ c.toNat && c.toNat ≤ 13) || c.toNat == 0x20 || c.toNat == 0x85 || c.toNat == 0xa0
    || c.toNat == 0x1680 || (0x2000 ≤ c.toNat && c.toNat ≤ 0x200a) || c.toNat == 0x2028
    || c.toNat == 0x2029 || c.toNat == 0x202f || c.toNat == 0x205f || c.toNat == 0x3000

/-- Go `strings.TrimSpace`. -/
def TrimSpace (s : String) : String :=
  String.mk ((s.data.dropWhile isSpace).reverse.dropWhile isSpace).reverse

/-- The keys of `requestFields` (lines 280-283). -/
def requestFields (fieldsStr : String) : List String :=
  (splitOnChar ',' fieldsStr.data).map fun f => TrimSpace (String.mk f)

/-- The expression `strings.Split(field.Tag.Get("json"), ",")[0]` of line 294. -/
def StructField.jsonTag (field : StructField) : String :=
  String.mk ((splitOnChar ',' field.Tag.data).headD [])

/-- The condition of line 298: the value is not zero or the tag has no
"omitempty". -/
def StructField.kept (field : StructField) : Bool :=
  !field.Value.IsZero || !updater.hasSub field.Tag.data "omitempty".data

/-- The assignment `m[k] = v` on a `map[string]interface{}`. -/
def setKey (k : String) (v : Value) : List (String × Value) → List (String × Value)
  | [] => [(k, v)]
  | (k', v') :: rest => if k' = k then (k, v) :: rest else (k', v') :: setKey k v rest

/-- The body of the loop of lines 292-302 for one field. -/
def filterField (requested : List String) (filteredMap : List (String × Value))
    (field : StructField) : List (String × Value) :=
  if field.jsonTag ∈ requested then
    if field.kept then setKey field.jsonTag field.Value filteredMap else filteredMap
  else filteredMap

/-- Go `filterResponse` (handler.go 278-305); the map is the list of its
entries, each key once. -/
def filterResponse (resp : Response) (fieldsStr : String) : List (String × Value) :=
  resp.structFields.foldl (filterField (requestFields fieldsStr)) [("ip", Value.str resp.IP)]

end api

/-! ## `IPHandler` (src/api/handler.go 25-131) -/

namespace api

/-- The functions of Go's package `net` that the handler calls and that are
not modelled here; every theorem quantifies over what they answer. -/
structure NetLib where
  /-- Go `net.ParseIP`. -/
  ParseIP : String → Option net.IP
  /-- The host that `net.SplitHostPort` returns ("" on an error). -/
  SplitHostPort : String → String
  IsPrivate : net.IP → Bool
  IsLoopback : net.IP → Bool
  IsLinkLocalUnicast : net.IP → Bool
  IsLinkLocalMulticast : net.IP → Bool
  IsUnspecified : net.IP → Bool

/-- The parts of an `http.Request` that `IPHandler` reads. -/
structure Request where
  /-- The path `r.URL.Path`. -/
  Path : String := ""
  /-- The value `r.URL.Query().Get("query")`. -/
  query : String := ""
  /-- The value `r.URL.Query().Get("fields")`. -/
  fields : String := ""
  /-- The header X-Forwarded-For. -/
  XForwardedFor : String := ""
  /-- The header X-Real-IP. -/
  XRealIP : String := ""
  RemoteAddr : String := ""
deriving DecidableEq, Repr

/-- Go `strings.Trim(s, "/")`. -/
def trimSlash (s : List Char) : List Char :=
  ((s.dropWhile (fun c => c == '/')).reverse.dropWhile (fun c => c == '/')).reverse

/-- Go `getIPFromRequest` (handler.go 101-129). -/
def getIPFromRequest (env : NetLib) (r : Request) : String :=
  let parts := splitOnChar '/' (trimSlash r.Path.data)
  if parts.length > 1 ∧ parts.headD [] = "json".data then String.mk (parts.getD 1 [])
  else if r.query ≠ "" then r.query
  else if r.XForwardedFor ≠ "" then
    TrimSpace (String.mk ((splitOnChar ',' r.XForwardedFor.data).headD []))
  else if r.XRealIP ≠ "" then TrimSpace r.XRealIP
  else env.SplitHostPort r.RemoteAddr

/-- A value held in `ipCache` or passed to `json.NewEncoder(w).Encode`: a
`Response`, the map `filterResponse` returned, or the image bytes that
`StaticMapHandler` (handler.go 994-1076) stores in the same cache. -/
inductive Encoded where
  | response (resp : Response)
  | filtered (m : List (String × Value))
  | image (data : List Nat)
deriving DecidableEq, Repr

/-- The text under the key "message" of the encoded value ("" when the key is
left out). -/
def Encoded.Message : Encoded → String
  | Encoded.response resp => resp.Message
  | Encoded.filtered m =>
    match m.lookup "message" with
    | some (Value.str s) => s
    | _ => ""
  | Encoded.image _ => ""

/-- What `ipCache.Get` finds under each key. -/
abbrev Cache := String → Option Encoded

/-- The call `ipCache.Set(key, value, cache.DefaultExpiration)`. -/
def Cache.set (c : Cache) (key : String) (value : Encoded) : Cache :=
  fun k => if k = key then some value else c k

/-- What one call of `IPHandler` leaves: the status code (200 when
`WriteHeader` is not called), whether the header X-Cache is set to "HIT", the
encoded value, and the cache. -/
structure Served where
  StatusCode : Nat := 200
  XCacheHit : Bool := false
  Body : Encoded
  cache : Cache

/-- Go `IPHandler` (handler.go 25-98); `none` is a runtime panic (in
`buildSuccessResponse`). -/
def IPHandler (env : NetLib) (lib : geoip.Library) (db : geoip.DBState) (cache : Cache)
    (r : Request) : Option Served :=
  let ipStr := getIPFromRequest env r
  match env.ParseIP ipStr with
  | none =>
    some { StatusCode := 400, Body := Encoded.response { IP := ipStr, Message := "invalid query" },
           cache := cache }
  | some ip =>
    let fieldsStr := r.fields
    let cacheKey := ip.String ++ "?fields=" ++ fieldsStr
    match cache cacheKey with
    | some cachedResponse => some { XCacheHit := true, Body := cachedResponse, cache := cache }
    | none =>
      let res := geoip.Lookup lib db ip
      match res.err with
      | some err =>
        if ¬ updater.hasSub err.data "is not in the database".data = true then
          some { StatusCode := 500,
                 Body := Encoded.response { IP := ipStr, Message := "internal error" },
                 cache := cache }
        else
          let message :=
            if env.IsPrivate ip = true then "private range"
            else if env.IsLoopback ip = true ∨ env.IsLinkLocalUnicast ip = true
                ∨ env.IsLinkLocalMulticast ip = true ∨ env.IsUnspecified ip = true then
              "reserved range"
            else if updater.hasSub err.data "is not in the database".data = true then
              "not in database"
            else "invalid query"
          some { StatusCode := 200,
                 Body := Encoded.response { IP := ipStr, Message := message }, cache := cache }
      | none =>
        match buildSuccessResponse ip res.city res.asn res.cnResult with
        | none => none
        | some fullResp =>
          let finalResp :=
            if fieldsStr ≠ "" then Encoded.filtered (filterResponse fullResp fieldsStr)
            else Encoded.response fullResp
          some { Body := finalResp, cache := cache.set cacheKey finalResp }

/-- One request as it arrives: what the readers answer and the state of the
package `geoip` at that time, the request, the cache keys whose items have
expired by then, and the images `StaticMapHandler` has stored since the
request before, by key. -/
structure Arrival where
  lib : geoip.Library
  db : geoip.DBState
  r : Request
  expired : String → Bool
  images : String → Option (List Nat)

/-- The cache as a request finds it. -/
def Arrival.live (a : Arrival) (cache : Cache) : Cache :=
  fun k =>
    if a.expired k = true then none
    else
      match a.images k with
      | some data => some (Encoded.image data)
      | none => cache k

/-- The handler on a sequence of requests, the cache carried from each to the
next; a call that panics leaves the cache as it was. -/
def serveAll (env : NetLib) : Cache → List Arrival → List (Option Served)
  | _, [] => []
  | cache, a :: rest =>
    match IPHandler env a.lib a.db (a.live cache) a.r with
    | none => none :: serveAll env (a.live cache) rest
    | some out => some out :: serveAll env out.cache rest

/-- The three messages of lines 72-78. -/
def clientMessages : List String := ["private range", "reserved range", "not in database"]

/-- No item of the cache carries one of the three messages of lines 72-78. -/
def Cache.clean (c : Cache) : Prop :=
  ∀ (k : String) (e : Encoded), c k = some e → e.Message ∉ clientMessages

end api

/-! ## Concrete inputs used by the witnesses and counterexamples -/

namespace geoip

/-- A state with all three readers open. -/
def liveState : DBState :=
  { cityDB := some ⟨0, "GeoLite2-City.mmdb"⟩, asnDB := some ⟨1, "GeoLite2-ASN.mmdb"⟩,
    cnRawDB := some ⟨2, "GeoCN.mmdb"⟩, closed := [], nextId := 3 }

/-- The address 1.2.3.4 as `net.ParseIP` returns it (16 bytes). -/
def ipv4Sample : net.IP := ⟨[0, 0, 0, 0, 0, 0, 0, 0, 0, 0, 255, 255, 1, 2, 3, 4]⟩

/-- An override record with city and province. -/
def shenzhen : GeoCNResult :=
  { City := "深圳", CityCode := 440300, Province := "广东", ProvinceCode := 440000, ISP := "电信" }

/-- A library whose General file cannot be opened; every other open succeeds. -/
def missingCityLib : Library :=
  { geoip2Open := fun p =>
      if p = "missing-City.mmdb" then (false, some "open missing-City.mmdb: no such file")
      else (true, none),
    maxminddbOpen := fun _ => (true, none),
    City := fun _ _ _ => (some {}, none),
    ASN := fun _ _ _ => (some {}, none),
    rawLookup := fun _ _ _ => ({}, none) }

/-- A library whose General dataset answers a record of country "CN" and whose
override dataset answers `shenzhen`. -/
def chinaLib : Library :=
  { geoip2Open := fun _ => (true, none),
    maxminddbOpen := fun _ => (true, none),
    City := fun _ _ _ => (some { Country := { IsoCode := "CN" } }, none),
    ASN := fun _ _ _ => (some { AutonomousSystemNumber := 4134 }, none),
    rawLookup := fun _ _ _ => (shenzhen, none) }

/-- A library whose General dataset answers the all-empty record (the address
is not in it) and whose override dataset answers `shenzhen`. -/
def emptyGeneralLib : Library :=
  { chinaLib with City := fun _ _ _ => (some {}, none) }

/-- A library whose General dataset answers no record and whose override
dataset answers `shenzhen`. -/
def absentGeneralLib : Library :=
  { chinaLib with City := fun _ _ _ => (none, some "not a City database") }

end geoip

namespace api

/-- The address 240e::1 as `net.ParseIP` returns it; its text has 7 bytes. -/
def ipv6Short : net.IP := ⟨[0x24, 0x0e, 0, 0, 0, 0, 0, 0, 0, 0, 0, 0, 0, 0, 0, 1]⟩

/-- An ASN record with number 4134. -/
def chinanet : geoip2.ASN :=
  { AutonomousSystemNumber := 4134, AutonomousSystemOrganization := "Chinanet" }

/-- A General record of country "CN" with no city names at all. -/
def cnRecord : geoip2.City :=
  { Country := { IsoCode := "CN", Names := some [("en", "China"), ("zh-CN", "中国")] } }

/-- An override record with city "上海". -/
def shanghai : geoip.GeoCNResult := { City := "上海", Province := "上海" }

/-- A General record of country "HK" that carries an English city name and a
first subdivision with an English name. -/
def kowloon : geoip2.City :=
  { Country := { IsoCode := "HK", Names := some [("en", "Hong Kong")] },
    City := { Names := some [("en", "Kowloon")] },
    Subdivisions := [{ Names := some [("en", "Kowloon City")], IsoCode := "KKC" }] }

/-- A General record of country "US" whose city and first subdivision carry
both an English and a "zh-CN" name. -/
def newYork : geoip2.City :=
  { Country := { IsoCode := "US", Names := some [("en", "United States"), ("zh-CN", "美国")] },
    City := { Names := some [("en", "New York"), ("zh-CN", "纽约")] },
    Subdivisions := [{ Names := some [("en", "New York"), ("zh-CN", "纽约州")], IsoCode := "NY" }] }

/-- A General record of country "CN" with city "Beijing". -/
def beijing : geoip2.City :=
  { Country := { IsoCode := "CN" }, City := { Names := some [("en", "Beijing")] },
    Subdivisions := [{ Names := some [("en", "Beijing")], IsoCode := "BJ" }] }

end api

namespace geoip

/-- A library whose override file cannot be opened (no reader is returned);
General and ASN open. The General dataset answers a record of country "CN". -/
def missingOverrideLib : Library :=
  { chinaLib with
    maxminddbOpen := fun _ => (false, some "open GeoCN.mmdb: no such file") }

end geoip

namespace updater

/-- No file-system call fails. -/
def quietFaults : Faults :=
  { create := fun _ => none, write := fun _ _ => none, openFile := fun _ => none,
    read := fun _ => none, readFile := fun _ => none, writeFile := fun _ _ => none,
    rename := fun _ _ => none, remove := fun _ => none }

/-- A disk that holds an installed GeoCN dataset and its ETag sidecar. -/
def installedFS : FS :=
  { files := fun p =>
      if p = "data/GeoCN.mmdb" then some [1, 2, 3]
      else if p = "data/GeoCN.mmdb.etag" then some [34, 118, 49, 34]
      else none }

/-- A world whose server answers every request with status 200 and a 14-byte
HTML page. -/
def errorPageWorld : World :=
  { newRequest := fun _ => none,
    httpDo := fun _ _ => Except.ok
      { StatusCode := 200, Status := "200 OK",
        Body := [60, 104, 116, 109, 108, 62, 111, 111, 112, 115, 60, 47, 104, 62] },
    gzipNewReader := fun _ => none,
    tarEntries := fun _ => { entries := [] },
    readers := fun _ => geoip.chinaLib,
    faults := quietFaults }

/-- A world whose server answers every request with status 304. -/
def notModifiedWorld : World :=
  { errorPageWorld with
    httpDo := fun _ _ => Except.ok { StatusCode := 304, Status := "304 Not Modified" } }

/-- The state of `update` on the installed disk with the three readers open. -/
def installedState : UpdateState := { fs := installedFS, db := geoip.liveState }

/-- The entry of `dbSources` for the regional-override dataset. -/
def geoCNSource : String × Source :=
  ("GeoCN.mmdb", { URL := "https://github.com/ljxi/GeoCN/releases/download/Latest/GeoCN.mmdb" })

end updater

namespace updater

/-- Sixteen bytes that start with "<HTML>" in capitals. -/
def capitalHtmlPage : Bytes :=
  [60, 72, 84, 77, 76, 62, 32, 32, 32, 32, 32, 32, 32, 32, 32, 32]

/-- A page of 528 bytes whose "<html>" starts at byte 512, after 512 blanks. -/
def lateHtmlPage : Bytes :=
  List.replicate 512 32 ++ [60, 104, 116, 109, 108, 62, 32, 32, 32, 32, 32, 32, 32, 32, 32, 32]

/-- A 2 MiB body with the gzip magic bytes in front. -/
def gzipBody : Bytes := 0x1f :: 0x8b :: List.replicate 2097150 0

/-- An archive with a text file, a dataset and a second dataset. -/
def sampleEntries : List TarEntry :=
  [{ Typeflag := tarTypeReg, Name := "GeoLite2-City_20240101/LICENSE.txt", Data := [76] },
   { Typeflag := tarTypeReg, Name := "GeoLite2-City_20240101/GeoLite2-City.mmdb",
     Data := [1, 2, 3] },
   { Typeflag := tarTypeReg, Name := "GeoLite2-City_20240101/other.mmdb", Data := [9] }]

/-- A world whose server answers every request with status 200 and `gzipBody`,
whose archives hold `sampleEntries`, and in which the one file-system call
that fails is the rename onto "data/GeoLite2-City.mmdb.tmp_final". -/
def renameFaultWorld : World :=
  { newRequest := fun _ => none,
    httpDo := fun _ _ => Except.ok { StatusCode := 200, Status := "200 OK", Body := gzipBody },
    gzipNewReader := fun _ => none,
    tarEntries := fun _ => { entries := sampleEntries },
    readers := fun _ => geoip.chinaLib,
    faults := { quietFaults with
      rename := fun _ dst =>
        if dst = "data/GeoLite2-City.mmdb.tmp_final" then some "rename: permission denied"
        else none } }

/-- A disk with no file. -/
def emptyFS : FS := { files := fun _ => none }

/-- The URL `downloadFromMaxMind` builds for GeoLite2-City with license key "KEY". -/
def archiveURL : String :=
  "https://download.maxmind.com/app/geoip_download?edition_id=GeoLite2-City"
    ++ "&license_key=KEY&suffix=tar.gz"

/-- A disk that holds one downloaded archive. -/
def archiveFS : FS :=
  { files := fun p => if p = "data/GeoLite2-City.mmdb.tmp_download" then some [31, 139] else none }

/-- A world in which no call fails and every archive holds `sampleEntries`. -/
def sampleArchiveWorld : World := { renameFaultWorld with faults := quietFaults }

end updater

namespace geoip

/-- A library as the readers answer for a dataset whose metadata names a
database type that `geoip2` does not know (the regional-override dataset is of
type "GeoCN"): `maxminddb.Open` opens the file, `geoip2.Open` returns the
error that the type is unknown. Files of any other name open with both. -/
def geoCNTypeLib : Library :=
  { chinaLib with
    geoip2Open := fun p =>
      if p = "data/GeoCN.mmdb.tmp_final" ∨ p = "data/GeoCN.mmdb" then
        (true, some "geoip2: reader does not support the GeoCN database type")
      else (true, none) }

/-- A library whose ASN file cannot be opened; every other open succeeds. -/
def missingASNLib : Library :=
  { chinaLib with
    geoip2Open := fun p =>
      if p = "missing-ASN.mmdb" then (false, some "open missing-ASN.mmdb: no such file")
      else (true, none) }

end geoip

namespace api

/-- The address 2001:db8:1:2:3:4:5:6; its text has 20 bytes. -/
def ipv6Long : net.IP :=
  ⟨[0x20, 0x01, 0x0d, 0xb8, 0, 1, 0, 2, 0, 3, 0, 4, 0, 5, 0, 6]⟩

end api

namespace updater

/-- A world whose database readers are `geoip.geoCNTypeLib`. -/
def geoCNTypeWorld : World := { errorPageWorld with readers := fun _ => geoip.geoCNTypeLib }

end updater

namespace api

/-- A response with a city, a zero city code and an empty region. -/
def sampleResponse : Response :=
  { IP := "1.2.3.4", Network := "1.2.3.0/24", Version := "IPv4", City := "深圳" }

end api

namespace api

/-- A `net` package that parses "1.2.3.4" and nothing else. -/
def sampleNet : NetLib :=
  { ParseIP := fun s => if s = "1.2.3.4" then some geoip.ipv4Sample else none,
    SplitHostPort := fun _ => "",
    IsPrivate := fun _ => false, IsLoopback := fun _ => false,
    IsLinkLocalUnicast := fun _ => false, IsLinkLocalMulticast := fun _ => false,
    IsUnspecified := fun _ => false }

end api

/-! ## Lemmas about `Lookup` -/

namespace geoip

theorem lookupGeoCN_cnResult (lib : Library) (s : DBState) (ip : net.IP)
    (city : Option geoip2.City) : (lookupGeoCN lib s ip city).1.2 = none := by
  unfold lookupGeoCN
  split
  · simp only
    split <;> [split; skip] <;> rfl
  · rfl

theorem Lookup_cnResult (lib : Library) (s : DBState) (ip : net.IP) :
    (Lookup lib s ip).cnResult = none := by
  unfold Lookup
  simp only
  split
  · rfl
  · exact lookupGeoCN_cnResult lib s ip _

theorem queryGeoCNDatabase_queries (lib : Library) (s : DBState) (ip : net.IP) (r : Reader)
    (h : s.cnRawDB = some r) : (queryGeoCNDatabase lib s ip).2 = [DBQuery.geocn r.id] := by
  unfold queryGeoCNDatabase
  rw [h]
  simp only
  split
  · rfl
  · split <;> rfl

theorem lookupGeoCN_queries (lib : Library) (s : DBState) (ip : net.IP)
    (city : Option geoip2.City) :
    (lookupGeoCN lib s ip city).2 =
      if s.cnRawDB ≠ none ∧ (city = none ∨ city.map (·.Country.IsoCode) = some "CN") then
        (queryGeoCNDatabase lib s ip).2
      else [] := by
  unfold lookupGeoCN
  split
  · simp only
    split <;> [split; skip] <;> rfl
  · rfl

theorem Lookup_queries (lib : Library) (s : DBState) (ip : net.IP) :
    (Lookup lib s ip).queries =
      (lookupCity lib s ip).2 ++ (lookupGeoCN lib s ip (lookupCity lib s ip).1).2
        ++ (lookupASN lib s ip).2 := by
  unfold Lookup
  simp only
  split <;> rfl

theorem Lookup_city (lib : Library) (s : DBState) (ip : net.IP)
    (h : ¬ (s.cityDB = none ∧ s.asnDB = none)) :
    (Lookup lib s ip).city = (lookupGeoCN lib s ip (lookupCity lib s ip).1).1.1 := by
  unfold Lookup
  simp only
  rw [if_neg h]

theorem Lookup_queriedGeoCN (lib : Library) (s : DBState) (ip : net.IP) :
    (Lookup lib s ip).queriedGeoCN = true ↔
      s.cnRawDB ≠ none ∧ ((lookupCity lib s ip).1 = none
        ∨ (lookupCity lib s ip).1.map (·.Country.IsoCode) = some "CN") := by
  have hc : ∀ q ∈ (lookupCity lib s ip).2, (match q with | DBQuery.geocn _ => true | _ => false) = false := by
    unfold lookupCity
    cases s.cityDB <;> simp
  have ha : ∀ q ∈ (lookupASN lib s ip).2, (match q with | DBQuery.geocn _ => true | _ => false) = false := by
    unfold lookupASN
    cases s.asnDB <;> simp
  unfold LookupResult.queriedGeoCN
  rw [Lookup_queries, lookupGeoCN_queries]
  simp only [List.any_append, Bool.or_eq_true, List.any_eq_true]
  constructor
  · rintro ((⟨q, hq, hq'⟩ | ⟨q, hq, hq'⟩) | ⟨q, hq, hq'⟩)
    · rw [hc q hq] at hq'; cases hq'
    · split at hq
      · assumption
      · cases hq
    · rw [ha q hq] at hq'; cases hq'
  · intro h
    left; right
    rw [if_pos h]
    obtain ⟨r, hr⟩ := Option.ne_none_iff_exists'.mp h.1
    rw [queryGeoCNDatabase_queries lib s ip r hr]
    exact ⟨_, List.mem_singleton.mpr rfl, rfl⟩

end geoip

/-! ## Claims about `ReloadDBs` and `Lookup` -/

namespace geoip

/-- C1, as stated, fails: with live readers 0 (General), 1 (ASN), 2 (override)
and a General file that cannot be opened, `ReloadDBs` returns the error, yet
`cityDB` is nil afterwards instead of reader 0, and `Close` has been called on
readers 0 and 1, so the prior handles are neither installed nor usable. -/
theorem ReloadDBs_failed_open_loses_live_handles :
    (missingCityLib.geoip2Open "missing-City.mmdb").2 ≠ none
    ∧ liveState.cityDB = some ⟨0, "GeoLite2-City.mmdb"⟩
    ∧ liveState.isClosed ⟨0, "GeoLite2-City.mmdb"⟩ = false
    ∧ (ReloadDBs missingCityLib liveState "missing-City.mmdb" "GeoLite2-ASN.mmdb"
        "GeoCN.mmdb").2 ≠ none
    ∧ (ReloadDBs missingCityLib liveState "missing-City.mmdb" "GeoLite2-ASN.mmdb"
        "GeoCN.mmdb").1.cityDB = none
    ∧ (ReloadDBs missingCityLib liveState "missing-City.mmdb" "GeoLite2-ASN.mmdb"
        "GeoCN.mmdb").1.isClosed ⟨0, "GeoLite2-City.mmdb"⟩ = true
    ∧ (ReloadDBs missingCityLib liveState "missing-City.mmdb" "GeoLite2-ASN.mmdb"
        "GeoCN.mmdb").1.isClosed ⟨1, "GeoLite2-ASN.mmdb"⟩ = true := by
  decide

/-- C1, amended: `ReloadDBs` closes the live General and ASN readers before it
reopens. When opening the new General or the new ASN file fails it returns the
error of the first open that failed; `Close` has been called on exactly the two
prior readers `cityDB` and `asnDB`; the override handle `cnRawDB` is the one
that was live before; and the variable of the kind that failed holds what the
failed open returned (nil when it returned no reader), not the prior handle. -/
theorem ReloadDBs_failed_open (lib : Library) (s : DBState)
    (cityDBPath asnDBPath cnDBPath : String)
    (hfail : (lib.geoip2Open cityDBPath).2 ≠ none ∨ (lib.geoip2Open asnDBPath).2 ≠ none) :
    (ReloadDBs lib s cityDBPath asnDBPath cnDBPath).2 ≠ none
    ∧ (ReloadDBs lib s cityDBPath asnDBPath cnDBPath).2 =
        (if (lib.geoip2Open cityDBPath).2 ≠ none then (lib.geoip2Open cityDBPath).2
         else (lib.geoip2Open asnDBPath).2)
    ∧ (ReloadDBs lib s cityDBPath asnDBPath cnDBPath).1.cnRawDB = s.cnRawDB
    ∧ (ReloadDBs lib s cityDBPath asnDBPath cnDBPath).1.closed =
        (s.asnDB.map (·.id)).toList ++ (s.cityDB.map (·.id)).toList ++ s.closed
    ∧ (∀ r, s.cityDB = some r →
        (ReloadDBs lib s cityDBPath asnDBPath cnDBPath).1.isClosed r = true)
    ∧ (∀ r, s.asnDB = some r →
        (ReloadDBs lib s cityDBPath asnDBPath cnDBPath).1.isClosed r = true)
    ∧ ((lib.geoip2Open cityDBPath).2 ≠ none → (lib.geoip2Open cityDBPath).1 = false →
        (ReloadDBs lib s cityDBPath asnDBPath cnDBPath).1.cityDB = none)
    ∧ ((lib.geoip2Open cityDBPath).2 = none → (lib.geoip2Open asnDBPath).1 = false →
        (ReloadDBs lib s cityDBPath asnDBPath cnDBPath).1.asnDB = none) := by
  obtain ⟨cityDB, asnDB, cnRawDB, closed, nextId⟩ := s
  rcases hc : lib.geoip2Open cityDBPath with ⟨okc, ec⟩
  rcases ha : lib.geoip2Open asnDBPath with ⟨oka, ea⟩
  rw [hc, ha] at hfail
  cases cityDB <;> cases asnDB <;> cases ec <;> cases ea <;> cases okc <;> cases oka <;>
    simp_all [ReloadDBs, openDBs, newReader, closeReader, DBState.isClosed]

/-- Witness of `ReloadDBs_failed_open` at the live state and a General file that
cannot be opened. -/
theorem ReloadDBs_failed_open_witness :
    (ReloadDBs missingCityLib liveState "missing-City.mmdb" "GeoLite2-ASN.mmdb"
        "GeoCN.mmdb").2 ≠ none
    ∧ (ReloadDBs missingCityLib liveState "missing-City.mmdb" "GeoLite2-ASN.mmdb"
        "GeoCN.mmdb").1.cnRawDB = liveState.cnRawDB
    ∧ (ReloadDBs missingCityLib liveState "missing-City.mmdb" "GeoLite2-ASN.mmdb"
        "GeoCN.mmdb").1.closed = [1, 0] :=
  have h := ReloadDBs_failed_open missingCityLib liveState "missing-City.mmdb"
    "GeoLite2-ASN.mmdb" "GeoCN.mmdb" (Or.inl (by decide))
  ⟨h.1, h.2.2.1, h.2.2.2.1⟩

/-- C2, evaluated on the code: the override reader is open, the General record
has country code "CN" and the override query succeeds with province "广东",
yet the third value `Lookup` returns is nil (the record reaches only the
block-local `cnResult` declared on line 130). -/
theorem Lookup_returns_nil_GeoCN_record :
    liveState.cnRawDB ≠ none
    ∧ (lookupCity chinaLib liveState ipv4Sample).1.map (·.Country.IsoCode) = some "CN"
    ∧ (queryGeoCNDatabase chinaLib liveState ipv4Sample).1 = (some shenzhen, none)
    ∧ shenzhen.Province ≠ ""
    ∧ (Lookup chinaLib liveState ipv4Sample).err = none
    ∧ (Lookup chinaLib liveState ipv4Sample).cnResult = none := by
  decide

/-- C3: `Lookup` queries the override dataset exactly when the override handle
is present and the General record is absent or has country code "CN"; and when
the General dataset answers a record whose country code is not "CN", the
override dataset is not queried and the returned General record is that record. -/
theorem Lookup_queries_override_iff (lib : Library) (s : DBState) (ip : net.IP) :
    ((Lookup lib s ip).queriedGeoCN = true ↔
      s.cnRawDB ≠ none ∧ ((lookupCity lib s ip).1 = none
        ∨ (lookupCity lib s ip).1.map (·.Country.IsoCode) = some "CN"))
    ∧ (∀ (r : Reader) (c : geoip2.City) (e : GoError), s.cityDB = some r →
        lib.City r (s.isClosed r) ip = (some c, e) → c.Country.IsoCode ≠ "CN" →
        (Lookup lib s ip).queriedGeoCN = false ∧ (Lookup lib s ip).city = some c) := by
  refine ⟨Lookup_queriedGeoCN lib s ip, ?_⟩
  intro r c e hr hq hc
  have hcity : (lookupCity lib s ip).1 = some c := by
    unfold lookupCity
    rw [hr]
    simp only [hq]
  have hskip : ¬ (s.cnRawDB ≠ none ∧ ((lookupCity lib s ip).1 = none
      ∨ (lookupCity lib s ip).1.map (·.Country.IsoCode) = some "CN")) := by
    rw [hcity]
    simp [hc]
  constructor
  · cases hb : (Lookup lib s ip).queriedGeoCN
    · rfl
    · exact absurd ((Lookup_queriedGeoCN lib s ip).mp hb) hskip
  · rw [Lookup_city lib s ip (by simp [hr])]
    unfold lookupGeoCN
    rw [if_neg hskip, hcity]

/-- C4: `Lookup` returns an error exactly when both `cityDB` and `asnDB` are
nil, whatever the individual queries answered. -/
theorem Lookup_error_iff_no_General_and_no_ASN (lib : Library) (s : DBState) (ip : net.IP) :
    (Lookup lib s ip).err ≠ none ↔ s.cityDB = none ∧ s.asnDB = none := by
  unfold Lookup
  simp only
  split <;> simp_all

/-- C9, evaluated on the code: the General dataset answers the all-empty
record (the address is not in it) and the override dataset holds `shenzhen`
(province "广东") for the address. The guard of line 128 tests `city == nil`,
not whether the record is empty, so `Lookup` sends no query to the override
reader and returns the empty record; with an absent General record it returns
the baseline `convertGeoCNToGeoLite2` of the override record, and the two
differ. The comment on line 120 says the override is checked when the city
data is empty. -/
theorem Lookup_empty_General_record_is_not_absent :
    (lookupCity emptyGeneralLib liveState ipv4Sample).1 = some {}
    ∧ (lookupCity absentGeneralLib liveState ipv4Sample).1 = none
    ∧ (queryGeoCNDatabase emptyGeneralLib liveState ipv4Sample).1 = (some shenzhen, none)
    ∧ (Lookup emptyGeneralLib liveState ipv4Sample).queriedGeoCN = false
    ∧ (Lookup emptyGeneralLib liveState ipv4Sample).city = some {}
    ∧ (Lookup absentGeneralLib liveState ipv4Sample).city
        = some (convertGeoCNToGeoLite2 shenzhen)
    ∧ (Lookup emptyGeneralLib liveState ipv4Sample).city
        ≠ (Lookup absentGeneralLib liveState ipv4Sample).city := by
  decide

/-- The guard of line 128 on the two records: whenever the General dataset
answers the all-empty record, `Lookup` sends no query to the override reader
and returns the empty record; when the General record is nil, the override
query succeeds with a non-empty province and `cityDB` or `asnDB` is present,
it returns `convertGeoCNToGeoLite2` of the override record. -/
theorem Lookup_guard_tests_nil_only (lib : Library) (s : DBState) (ip : net.IP) :
    (∀ (r : Reader) (e : GoError), s.cityDB = some r →
        lib.City r (s.isClosed r) ip = (some {}, e) →
        (Lookup lib s ip).queriedGeoCN = false ∧ (Lookup lib s ip).city = some {})
    ∧ (∀ (rc : Reader) (cn : GeoCNResult), (lookupCity lib s ip).1 = none →
        ¬ (s.cityDB = none ∧ s.asnDB = none) → s.cnRawDB = some rc →
        lib.rawLookup rc (s.isClosed rc) ip = (cn, none) → cn.Province ≠ "" →
        (Lookup lib s ip).city = some (convertGeoCNToGeoLite2 cn)) := by
  constructor
  · intro r e hr hq
    have hcity : (lookupCity lib s ip).1 = some {} := by
      unfold lookupCity
      rw [hr]
      simp only [hq]
    have hskip : ¬ (s.cnRawDB ≠ none ∧ ((lookupCity lib s ip).1 = none
        ∨ (lookupCity lib s ip).1.map (·.Country.IsoCode) = some "CN")) := by
      rw [hcity]
      simp
    constructor
    · cases hb : (Lookup lib s ip).queriedGeoCN
      · rfl
      · exact absurd ((Lookup_queriedGeoCN lib s ip).mp hb) hskip
    · rw [Lookup_city lib s ip (by simp [hr])]
      unfold lookupGeoCN
      rw [if_neg hskip, hcity]
  · intro rc cn hcity hdb hrc hq hp
    rw [Lookup_city lib s ip hdb, hcity]
    unfold lookupGeoCN queryGeoCNDatabase
    simp [hrc, hq, hp]

end geoip

/-! ## Lemmas about Go maps and `mergeGeoCNData` -/

theorem insertKV_lookup_self (k v : String) (l : List (String × String)) :
    (insertKV k v l).lookup k = some v := by
  induction l with
  | nil => simp [insertKV, List.lookup]
  | cons p rest ih =>
    obtain ⟨k', v'⟩ := p
    by_cases h : k' = k
    · simp [insertKV, h, List.lookup]
    · have hb : (k == k') = false := by
        simpa using fun h' => h h'.symm
      simp [insertKV, h, List.lookup, hb, ih]

theorem insertKV_lookup_ne (k v k₂ : String) (l : List (String × String)) (hne : k₂ ≠ k) :
    (insertKV k v l).lookup k₂ = l.lookup k₂ := by
  induction l with
  | nil =>
    have hb : (k₂ == k) = false := by simpa using hne
    simp [insertKV, List.lookup, hb]
  | cons p rest ih =>
    obtain ⟨k', v'⟩ := p
    by_cases h : k' = k
    · subst h
      have hb : (k₂ == k') = false := by simpa using hne
      simp [insertKV, List.lookup, hb]
    · simp only [insertKV, h, if_false, List.lookup]
      cases hb : (k₂ == k') <;> simp [ih]

theorem GoMap.okNonEmpty_iff (m : GoMap) (k : String) :
    ((m.find k).isSome ∧ (m.find k).getD "" ≠ "") ↔ m.get k ≠ "" := by
  unfold GoMap.get
  cases h : m.find k <;> simp

namespace geoip

theorem mergeGeoCNData_City (city : geoip2.City) (cnResult : GeoCNResult) :
    (mergeGeoCNData city cnResult).City =
      if cnResult.City ≠ "" then
        { city.City with Names := some (insertKV "en" cnResult.City
            (insertKV "zh-CN" cnResult.City (GoMap.entriesOrMake city.City.Names))) }
      else city.City := by
  unfold mergeGeoCNData
  simp only
  split_ifs <;> first | rfl | (split <;> rfl)

theorem mergeGeoCNData_Subdivisions_of_empty (city : geoip2.City) (cnResult : GeoCNResult)
    (h : cnResult.Province = "") :
    (mergeGeoCNData city cnResult).Subdivisions = city.Subdivisions := by
  unfold mergeGeoCNData
  simp only [h]
  split_ifs <;> first | rfl | simp_all

theorem mergeGeoCNData_IsoCode (city : geoip2.City) (cnResult : GeoCNResult) :
    (mergeGeoCNData city cnResult).Country.IsoCode = "CN" := by
  unfold mergeGeoCNData
  simp only
  split_ifs <;> first | rfl | (split <;> simp_all) | simp_all

end geoip

/-! ## Lemmas about `buildSuccessResponse` -/

namespace api

/-- The addresses on which lines 143-152 complete: IPv4, or a text form of at
least 19 bytes. -/
theorem networkInfo_isSome_iff (ip : net.IP) (resp : Response) :
    (networkInfo ip resp).isSome = true ↔ ip.To4 ≠ none ∨ 19 ≤ ip.String.length := by
  unfold networkInfo
  cases h : ip.To4 with
  | none =>
    by_cases hl : ip.String.length < 19
    · simp [hl]
    · simp [hl]
      omega
  | some p => simp

theorem networkInfo_fields (ip : net.IP) (resp r0 : Response)
    (h : networkInfo ip resp = some r0) :
    r0.City = resp.City ∧ r0.Region = resp.Region ∧ r0.ASN = resp.ASN ∧ r0.Org = resp.Org
      ∧ r0.Country = resp.Country ∧ r0.CountryCode = resp.CountryCode
      ∧ r0.CountryName = resp.CountryName ∧ r0.RegionCode = resp.RegionCode := by
  unfold networkInfo at h
  split at h
  · cases h
    simp
  · split at h
    · cases h
    · cases h
      simp

theorem buildSuccessResponse_eq (ip : net.IP) (city : Option geoip2.City)
    (asn : Option geoip2.ASN) (cnResult : Option geoip.GeoCNResult)
    (h : ip.To4 ≠ none ∨ 19 ≤ ip.String.length) :
    ∃ r0 : Response, networkInfo ip { IP := ip.String } = some r0
      ∧ r0.City = "" ∧ r0.Region = "" ∧ r0.ASN = "" ∧ r0.Org = ""
      ∧ buildSuccessResponse ip city asn cnResult
          = some (geoCNInfo (asnInfo (cityInfo r0 city) asn) cnResult) := by
  have hs := (networkInfo_isSome_iff ip { IP := ip.String }).mpr h
  obtain ⟨r0, hr0⟩ := Option.isSome_iff_exists.mp hs
  have hf := networkInfo_fields ip _ r0 hr0
  refine ⟨r0, hr0, hf.1, hf.2.1, hf.2.2.1, hf.2.2.2.1, ?_⟩
  unfold buildSuccessResponse
  simp only [hr0]

theorem buildSuccessResponse_eq_none (ip : net.IP) (city : Option geoip2.City)
    (asn : Option geoip2.ASN) (cnResult : Option geoip.GeoCNResult)
    (h : networkInfo ip { IP := ip.String } = none) :
    buildSuccessResponse ip city asn cnResult = none := by
  unfold buildSuccessResponse
  simp only [h]

theorem geoCNInfo_City (resp : Response) (cnResult : Option geoip.GeoCNResult) :
    (geoCNInfo resp cnResult).City =
      match cnResult with
      | none => resp.City
      | some r => if r.City ≠ "" then r.City else resp.City := by
  unfold geoCNInfo
  cases cnResult with
  | none => rfl
  | some r =>
    simp only
    split_ifs <;> rfl

theorem geoCNInfo_Region (resp : Response) (cnResult : Option geoip.GeoCNResult) :
    (geoCNInfo resp cnResult).Region =
      match cnResult with
      | none => resp.Region
      | some r => if r.Province ≠ "" then r.Province else resp.Region := by
  unfold geoCNInfo
  cases cnResult with
  | none => rfl
  | some r =>
    simp only
    split_ifs <;> rfl

theorem geoCNInfo_ASN (resp : Response) (cnResult : Option geoip.GeoCNResult) :
    (geoCNInfo resp cnResult).ASN = resp.ASN ∧ (geoCNInfo resp cnResult).Org = resp.Org
      ∧ (geoCNInfo resp cnResult).Country = resp.Country
      ∧ (geoCNInfo resp cnResult).CountryCode = resp.CountryCode
      ∧ (geoCNInfo resp cnResult).CountryName = resp.CountryName := by
  unfold geoCNInfo
  cases cnResult with
  | none => simp
  | some r =>
    simp only
    split_ifs <;> simp

theorem asnInfo_fields (resp : Response) (asn : Option geoip2.ASN) :
    (asnInfo resp asn).City = resp.City ∧ (asnInfo resp asn).Region = resp.Region
      ∧ (asnInfo resp asn).Country = resp.Country
      ∧ (asnInfo resp asn).CountryCode = resp.CountryCode
      ∧ (asnInfo resp asn).CountryName = resp.CountryName := by
  unfold asnInfo
  cases asn with
  | none => simp
  | some a =>
    simp only
    split_ifs <;> simp

theorem locationInfo_fields (resp : Response) (city : geoip2.City) :
    (locationInfo resp city).City = resp.City ∧ (locationInfo resp city).Region = resp.Region
      ∧ (locationInfo resp city).ASN = resp.ASN ∧ (locationInfo resp city).Org = resp.Org
      ∧ (locationInfo resp city).Country = resp.Country
      ∧ (locationInfo resp city).CountryCode = resp.CountryCode
      ∧ (locationInfo resp city).CountryName = resp.CountryName := by
  unfold locationInfo
  simp only
  split_ifs <;> simp

theorem cityFallback_fields (resp : Response) :
    (cityFallback resp).Region = resp.Region
      ∧ (cityFallback resp).ASN = resp.ASN ∧ (cityFallback resp).Org = resp.Org
      ∧ (cityFallback resp).Country = resp.Country
      ∧ (cityFallback resp).CountryCode = resp.CountryCode
      ∧ (cityFallback resp).CountryName = resp.CountryName
      ∧ (resp.City ≠ "" → (cityFallback resp).City = resp.City) := by
  unfold cityFallback
  split_ifs <;> simp_all

theorem subdivisionInfo_fields (resp : Response) (city : geoip2.City) :
    (subdivisionInfo resp city).City = resp.City
      ∧ (subdivisionInfo resp city).ASN = resp.ASN ∧ (subdivisionInfo resp city).Org = resp.Org
      ∧ (subdivisionInfo resp city).Country = resp.Country
      ∧ (subdivisionInfo resp city).CountryCode = resp.CountryCode
      ∧ (subdivisionInfo resp city).CountryName = resp.CountryName := by
  unfold subdivisionInfo
  split
  · simp
  · simp only
    split_ifs <;> simp

theorem subdivisionInfo_Region (resp : Response) (city : geoip2.City) :
    (subdivisionInfo resp city).Region =
      match city.Subdivisions with
      | [] => resp.Region
      | subdivision :: _ =>
        if subdivision.Names = none then resp.Region
        else if subdivision.Names.get "zh-CN" ≠ "" then subdivision.Names.get "zh-CN"
        else if subdivision.Names.get "en" ≠ "" then subdivision.Names.get "en"
        else resp.Region := by
  unfold subdivisionInfo
  split
  · rfl
  · rename_i sub rest hs
    simp only [GoMap.okNonEmpty_iff]
    unfold GoMap.get
    split_ifs <;> simp_all

theorem cityNameInfo_fields (resp : Response) (city : geoip2.City) :
    (cityNameInfo resp city).Region = resp.Region
      ∧ (cityNameInfo resp city).ASN = resp.ASN ∧ (cityNameInfo resp city).Org = resp.Org
      ∧ (cityNameInfo resp city).Country = resp.Country
      ∧ (cityNameInfo resp city).CountryCode = resp.CountryCode
      ∧ (cityNameInfo resp city).CountryName = resp.CountryName := by
  unfold cityNameInfo
  simp only
  split_ifs <;> simp

theorem cityNameInfo_City (resp : Response) (city : geoip2.City) :
    (cityNameInfo resp city).City =
      if city.City.Names.get "zh-CN" ≠ "" then city.City.Names.get "zh-CN"
      else if city.City.Names.get "en" ≠ "" then city.City.Names.get "en"
      else resp.City := by
  unfold cityNameInfo
  simp only [GoMap.okNonEmpty_iff]
  by_cases hn : city.City.Names = none
  · simp [hn, GoMap.get, GoMap.find]
  · unfold GoMap.get
    split_ifs <;> simp_all

theorem specialRegionInfo_fields (resp : Response) (city : geoip2.City) :
    (specialRegionInfo resp city).ASN = resp.ASN ∧ (specialRegionInfo resp city).Org = resp.Org := by
  unfold specialRegionInfo
  simp only
  split_ifs <;> simp

theorem specialRegionInfo_special (resp : Response) (city : geoip2.City)
    (h : city.Country.IsoCode = "HK" ∨ city.Country.IsoCode = "TW") :
    (specialRegionInfo resp city).Country = "CN"
      ∧ (specialRegionInfo resp city).CountryCode = "CN"
      ∧ (specialRegionInfo resp city).CountryName = "中国"
      ∧ (specialRegionInfo resp city).City
          = (if city.Country.IsoCode = "HK" then "香港" else "台湾")
      ∧ (specialRegionInfo resp city).Region
          = (if city.Country.IsoCode = "HK" then "香港" else "台湾") := by
  unfold specialRegionInfo
  simp only [h, if_true]
  rcases h with h | h <;> simp [h]

theorem specialRegionInfo_other (resp : Response) (city : geoip2.City)
    (h₁ : city.Country.IsoCode ≠ "HK") (h₂ : city.Country.IsoCode ≠ "TW") :
    (specialRegionInfo resp city).Country = resp.Country
      ∧ (specialRegionInfo resp city).CountryCode = resp.CountryCode
      ∧ (specialRegionInfo resp city).CountryName = resp.CountryName
      ∧ (specialRegionInfo resp city).City = resp.City
      ∧ (specialRegionInfo resp city).Region = resp.Region := by
  unfold specialRegionInfo
  simp [h₁, h₂]

theorem countryInfo_CountryName (resp : Response) (city : geoip2.City)
    (h : 0 < city.Country.Names.len) :
    (countryInfo resp city).CountryName =
      if city.Country.IsoCode = "CN" ∧ city.Country.Names.get "zh-CN" ≠ "" then
        city.Country.Names.get "zh-CN"
      else city.Country.Names.get "en" := by
  unfold countryInfo
  simp only [h, if_true]
  split_ifs <;> simp_all

theorem cityInfo_some (resp : Response) (c : geoip2.City) :
    cityInfo resp (some c) =
      locationInfo (cityFallback (subdivisionInfo (cityNameInfo
        (specialRegionInfo (countryInfo resp c) c) c) c)) c := rfl

theorem countryInfo_fields (resp : Response) (city : geoip2.City) :
    (countryInfo resp city).ASN = resp.ASN ∧ (countryInfo resp city).Org = resp.Org
      ∧ (countryInfo resp city).City = resp.City
      ∧ (countryInfo resp city).Region = resp.Region
      ∧ (countryInfo resp city).CountryCode = city.Country.IsoCode := by
  unfold countryInfo
  simp only
  split_ifs <;> simp

theorem cityInfo_ASN (resp : Response) (city : Option geoip2.City) :
    (cityInfo resp city).ASN = resp.ASN ∧ (cityInfo resp city).Org = resp.Org := by
  unfold cityInfo
  cases city with
  | none => simp
  | some c =>
    simp only [(locationInfo_fields _ c).2.2.1, (locationInfo_fields _ c).2.2.2.1,
      (cityFallback_fields _).2.1, (cityFallback_fields _).2.2.1,
      (subdivisionInfo_fields _ c).2.1, (subdivisionInfo_fields _ c).2.2.1,
      (cityNameInfo_fields _ c).2.1, (cityNameInfo_fields _ c).2.2.1,
      (specialRegionInfo_fields _ c).1, (specialRegionInfo_fields _ c).2,
      (countryInfo_fields _ c).1, (countryInfo_fields _ c).2.1, and_self]

end api

/-! ## Lemmas behind the claims about the merge -/

namespace api

open geoip

theorem mergeGeoCNData_city_names (city : geoip2.City) (r : GeoCNResult) (h : r.City ≠ "") :
    (mergeGeoCNData city r).City.Names.find "zh-CN" = some r.City
      ∧ (mergeGeoCNData city r).City.Names.find "en" = some r.City := by
  rw [mergeGeoCNData_City, if_pos h]
  simp only [GoMap.find]
  constructor
  · rw [insertKV_lookup_ne _ _ _ _ (by decide), insertKV_lookup_self]
  · rw [insertKV_lookup_self]

theorem cityInfo_City_of_zh (resp : Response) (c : geoip2.City)
    (h : c.City.Names.get "zh-CN" ≠ "") :
    (cityInfo resp (some c)).City = c.City.Names.get "zh-CN" := by
  have h1 : (cityNameInfo (specialRegionInfo (countryInfo resp c) c) c).City
      = c.City.Names.get "zh-CN" := by
    rw [cityNameInfo_City, if_pos h]
  have h2 := (subdivisionInfo_fields
    (cityNameInfo (specialRegionInfo (countryInfo resp c) c) c) c).1
  have h3 := (cityFallback_fields (subdivisionInfo
    (cityNameInfo (specialRegionInfo (countryInfo resp c) c) c) c)).2.2.2.2.2.2
    (by rw [h2, h1]; exact h)
  rw [cityInfo_some, (locationInfo_fields _ c).1, h3, h2, h1]

theorem cityInfo_City_of_en (resp : Response) (c : geoip2.City)
    (hz : c.City.Names.get "zh-CN" = "") (h : c.City.Names.get "en" ≠ "") :
    (cityInfo resp (some c)).City = c.City.Names.get "en" := by
  have h1 : (cityNameInfo (specialRegionInfo (countryInfo resp c) c) c).City
      = c.City.Names.get "en" := by
    rw [cityNameInfo_City, if_neg (by simp [hz]), if_pos h]
  have h2 := (subdivisionInfo_fields
    (cityNameInfo (specialRegionInfo (countryInfo resp c) c) c) c).1
  have h3 := (cityFallback_fields (subdivisionInfo
    (cityNameInfo (specialRegionInfo (countryInfo resp c) c) c) c)).2.2.2.2.2.2
    (by rw [h2, h1]; exact h)
  rw [cityInfo_some, (locationInfo_fields _ c).1, h3, h2, h1]

theorem cityInfo_Region (resp : Response) (c : geoip2.City) :
    (cityInfo resp (some c)).Region =
      (subdivisionInfo (cityNameInfo (specialRegionInfo (countryInfo resp c) c) c) c).Region := by
  rw [cityInfo_some, (locationInfo_fields _ c).2.1, (cityFallback_fields _).1]

theorem cityInfo_Country (resp : Response) (c : geoip2.City) :
    (cityInfo resp (some c)).Country = (specialRegionInfo (countryInfo resp c) c).Country
      ∧ (cityInfo resp (some c)).CountryCode
          = (specialRegionInfo (countryInfo resp c) c).CountryCode
      ∧ (cityInfo resp (some c)).CountryName
          = (specialRegionInfo (countryInfo resp c) c).CountryName := by
  rw [cityInfo_some]
  refine ⟨?_, ?_, ?_⟩
  · rw [(locationInfo_fields _ c).2.2.2.2.1, (cityFallback_fields _).2.2.2.1,
      (subdivisionInfo_fields _ c).2.2.2.1, (cityNameInfo_fields _ c).2.2.2.1]
  · rw [(locationInfo_fields _ c).2.2.2.2.2.1, (cityFallback_fields _).2.2.2.2.1,
      (subdivisionInfo_fields _ c).2.2.2.2.1, (cityNameInfo_fields _ c).2.2.2.2.1]
  · rw [(locationInfo_fields _ c).2.2.2.2.2.2, (cityFallback_fields _).2.2.2.2.2.1,
      (subdivisionInfo_fields _ c).2.2.2.2.2, (cityNameInfo_fields _ c).2.2.2.2.2]

/-- Merge precedence on the addresses for which lines 143-152 complete: the
response built from the merged record has the override's city, with the
override record passed along or not. -/
theorem buildSuccessResponse_City_of_merged (ip : net.IP) (city : geoip2.City)
    (asn : Option geoip2.ASN) (r : GeoCNResult)
    (hip : ip.To4 ≠ none ∨ 19 ≤ ip.String.length) (h : r.City ≠ "") :
    (∃ resp, buildSuccessResponse ip (some (mergeGeoCNData city r)) asn none = some resp
        ∧ resp.City = r.City)
    ∧ (∃ resp, buildSuccessResponse ip (some (mergeGeoCNData city r)) asn (some r) = some resp
        ∧ resp.City = r.City) := by
  have hz : (mergeGeoCNData city r).City.Names.get "zh-CN" = r.City := by
    unfold GoMap.get
    rw [(mergeGeoCNData_city_names city r h).1]
    rfl
  constructor
  · obtain ⟨r0, -, -, -, -, -, hb⟩ :=
      buildSuccessResponse_eq ip (some (mergeGeoCNData city r)) asn none hip
    refine ⟨_, hb, ?_⟩
    rw [geoCNInfo_City, (asnInfo_fields _ asn).1, cityInfo_City_of_zh _ _ (by rw [hz]; exact h), hz]
  · obtain ⟨r0, -, -, -, -, -, hb⟩ :=
      buildSuccessResponse_eq ip (some (mergeGeoCNData city r)) asn (some r) hip
    refine ⟨_, hb, ?_⟩
    rw [geoCNInfo_City]
    simp only [h, ne_eq, not_false_eq_true, if_true]

/-- The ASN fields on the addresses for which lines 143-152 complete. -/
theorem buildSuccessResponse_ASN (ip : net.IP) (city : Option geoip2.City)
    (asn : Option geoip2.ASN) (cnResult : Option GeoCNResult)
    (hip : ip.To4 ≠ none ∨ 19 ≤ ip.String.length) :
    ∃ resp, buildSuccessResponse ip city asn cnResult = some resp
      ∧ (∀ a, asn = some a → 0 < a.AutonomousSystemNumber →
          resp.ASN = "AS" ++ toString a.AutonomousSystemNumber
            ∧ resp.Org = a.AutonomousSystemOrganization)
      ∧ ((asn = none ∨ ∃ a, asn = some a ∧ a.AutonomousSystemNumber = 0) →
          resp.ASN = "" ∧ resp.Org = "") := by
  obtain ⟨r0, -, -, -, hA, hO, hb⟩ := buildSuccessResponse_eq ip city asn cnResult hip
  refine ⟨_, hb, ?_, ?_⟩
  · intro a ha hpos
    rw [(geoCNInfo_ASN _ cnResult).1, (geoCNInfo_ASN _ cnResult).2.1, ha]
    unfold asnInfo
    simp [hpos]
  · intro hno
    rw [(geoCNInfo_ASN _ cnResult).1, (geoCNInfo_ASN _ cnResult).2.1]
    rcases hno with hno | ⟨a, ha, h0⟩
    · rw [hno]
      unfold asnInfo
      simp only [(cityInfo_ASN r0 city).1, (cityInfo_ASN r0 city).2, hA, hO, and_self]
    · rw [ha]
      unfold asnInfo
      simp only [h0, lt_self_iff_false, if_false, (cityInfo_ASN r0 city).1,
        (cityInfo_ASN r0 city).2, hA, hO, and_self]

end api

/-! ## Claims about `mergeGeoCNData` and `buildSuccessResponse` -/

namespace api

open geoip

/-- C5, evaluated on the code: the General record has country code "CN" and no
city names, the override record has city "上海", and `mergeGeoCNData` gives the
record city names "zh-CN" and "en" equal to "上海"; for the address 1.2.3.4
`buildSuccessResponse` on the merged record yields City "上海", but for the
address 240e::1 it yields no response at all: the text "240e::1" has 7 bytes
and the slice `ip.String()[:19]` of line 151 panics. -/
theorem buildSuccessResponse_merged_record_short_IPv6 :
    cnRecord.Country.IsoCode = "CN" ∧ cnRecord.City.Names = none ∧ shanghai.City = "上海"
    ∧ (mergeGeoCNData cnRecord shanghai).City.Names.find "zh-CN" = some "上海"
    ∧ (mergeGeoCNData cnRecord shanghai).City.Names.find "en" = some "上海"
    ∧ (buildSuccessResponse ipv4Sample (some (mergeGeoCNData cnRecord shanghai)) none
        none).map (·.City) = some "上海"
    ∧ ipv6Short.To4 = none ∧ ipv6Short.String = "240e::1"
    ∧ buildSuccessResponse ipv6Short (some (mergeGeoCNData cnRecord shanghai)) none none = none
    ∧ buildSuccessResponse ipv6Short (some (mergeGeoCNData cnRecord shanghai)) none
        (some shanghai) = none := by
  decide

/-- C6: an empty override field never blanks a populated field. An override
record with an empty city leaves the city names of the record unchanged in
`mergeGeoCNData`, one with an empty province leaves its subdivisions unchanged;
and in `buildSuccessResponse` an override record with an empty city (province)
gives the same City (Region) as no override record at all. -/
theorem override_never_blanks (city : geoip2.City) (r : GeoCNResult) :
    (r.City = "" → (mergeGeoCNData city r).City.Names = city.City.Names)
    ∧ (r.Province = "" → (mergeGeoCNData city r).Subdivisions = city.Subdivisions)
    ∧ (∀ (ip : net.IP) (c : Option geoip2.City) (asn : Option geoip2.ASN), r.City = "" →
        (buildSuccessResponse ip c asn (some r)).map (·.City)
          = (buildSuccessResponse ip c asn none).map (·.City))
    ∧ (∀ (ip : net.IP) (c : Option geoip2.City) (asn : Option geoip2.ASN), r.Province = "" →
        (buildSuccessResponse ip c asn (some r)).map (·.Region)
          = (buildSuccessResponse ip c asn none).map (·.Region)) := by
  refine ⟨?_, ?_, ?_, ?_⟩
  · intro h
    rw [mergeGeoCNData_City, if_neg (by simp [h])]
  · intro h
    exact mergeGeoCNData_Subdivisions_of_empty city r h
  · intro ip c asn h
    unfold buildSuccessResponse
    simp only
    split
    · rfl
    · simp only [Option.map_some', geoCNInfo_City, h, ne_eq, not_true_eq_false, if_false]
  · intro ip c asn h
    unfold buildSuccessResponse
    simp only
    split
    · rfl
    · simp only [Option.map_some', geoCNInfo_Region, h, ne_eq, not_true_eq_false, if_false]

/-- C7, evaluated on the code: for the address 1.2.3.4 an ASN record with
number 4134 gives ASN "AS4134" and its organization, but for the address
240e::1 `buildSuccessResponse` panics on line 151 before it reaches the ASN
block, with or without a General record, so no ASN is set. -/
theorem buildSuccessResponse_ASN_short_IPv6 :
    chinanet.AutonomousSystemNumber = 4134
    ∧ (buildSuccessResponse ipv4Sample none (some chinanet) none).map (·.ASN) = some "AS4134"
    ∧ (buildSuccessResponse ipv4Sample none (some chinanet) none).map (·.Org)
        = some "Chinanet"
    ∧ ipv6Short.To4 = none ∧ ipv6Short.String.length = 7
    ∧ buildSuccessResponse ipv6Short none (some chinanet) none = none
    ∧ buildSuccessResponse ipv6Short (some cnRecord) (some chinanet) none = none := by
  decide

/-- C8, as stated, fails: a General record of country "HK" that carries the
English city name "Kowloon" and a first subdivision named "Kowloon City" gets
country code "CN", but City "Kowloon" and Region "Kowloon City", not "香港". -/
theorem buildSuccessResponse_HK_keeps_record_names :
    kowloon.Country.IsoCode = "HK"
    ∧ (buildSuccessResponse ipv4Sample (some kowloon) none none).map (·.CountryCode)
        = some "CN"
    ∧ (buildSuccessResponse ipv4Sample (some kowloon) none none).map (·.City)
        = some "Kowloon"
    ∧ (buildSuccessResponse ipv4Sample (some kowloon) none none).map (·.Region)
        = some "Kowloon City" := by
  decide

/-- C8, amended: for every address on which lines 143-152 complete and every
General record of country "HK" (respectively "TW"), `buildSuccessResponse`
yields Country and CountryCode "CN" and CountryName "中国"; City (Region) is
that code's own name, "香港" (respectively "台湾"), when the record carries no
non-empty "zh-CN" or "en" city name (first-subdivision name) and the override
record supplies no city (province); a non-empty "zh-CN" city name of the record
replaces the default. -/
theorem buildSuccessResponse_HK_TW (ip : net.IP) (city : geoip2.City)
    (asn : Option geoip2.ASN) (cnResult : Option GeoCNResult)
    (hip : ip.To4 ≠ none ∨ 19 ≤ ip.String.length)
    (hcode : city.Country.IsoCode = "HK" ∨ city.Country.IsoCode = "TW") :
    ∃ resp, buildSuccessResponse ip (some city) asn cnResult = some resp
      ∧ resp.Country = "CN" ∧ resp.CountryCode = "CN" ∧ resp.CountryName = "中国"
      ∧ (city.City.Names.get "zh-CN" = "" → city.City.Names.get "en" = "" →
          (∀ r, cnResult = some r → r.City = "") →
          resp.City = (if city.Country.IsoCode = "HK" then "香港" else "台湾"))
      ∧ ((∀ sub rest, city.Subdivisions = sub :: rest →
            sub.Names.get "zh-CN" = "" ∧ sub.Names.get "en" = "") →
          (∀ r, cnResult = some r → r.Province = "") →
          resp.Region = (if city.Country.IsoCode = "HK" then "香港" else "台湾"))
      ∧ (city.City.Names.get "zh-CN" ≠ "" → (∀ r, cnResult = some r → r.City = "") →
          resp.City = city.City.Names.get "zh-CN") := by
  obtain ⟨r0, -, -, -, -, -, hb⟩ := buildSuccessResponse_eq ip (some city) asn cnResult hip
  have hsp := specialRegionInfo_special (countryInfo r0 city) city hcode
  have hown : (if city.Country.IsoCode = "HK" then "香港" else "台湾") ≠ "" := by
    split_ifs <;> decide
  have hcnCity : (∀ r, cnResult = some r → r.City = "") → ∀ resp : Response,
      (geoCNInfo resp cnResult).City = resp.City := by
    intro h resp
    rw [geoCNInfo_City]
    cases cnResult with
    | none => rfl
    | some r => simp [h r rfl]
  have hcnRegion : (∀ r, cnResult = some r → r.Province = "") → ∀ resp : Response,
      (geoCNInfo resp cnResult).Region = resp.Region := by
    intro h resp
    rw [geoCNInfo_Region]
    cases cnResult with
    | none => rfl
    | some r => simp [h r rfl]
  refine ⟨_, hb, ?_, ?_, ?_, ?_, ?_, ?_⟩
  · rw [(geoCNInfo_ASN _ cnResult).2.2.1, (asnInfo_fields _ asn).2.2.1,
      (cityInfo_Country r0 city).1, hsp.1]
  · rw [(geoCNInfo_ASN _ cnResult).2.2.2.1, (asnInfo_fields _ asn).2.2.2.1,
      (cityInfo_Country r0 city).2.1, hsp.2.1]
  · rw [(geoCNInfo_ASN _ cnResult).2.2.2.2, (asnInfo_fields _ asn).2.2.2.2,
      (cityInfo_Country r0 city).2.2, hsp.2.2.1]
  · intro hz he hcn
    have h1 : (cityNameInfo (specialRegionInfo (countryInfo r0 city) city) city).City
        = (if city.Country.IsoCode = "HK" then "香港" else "台湾") := by
      rw [cityNameInfo_City, if_neg (by simp [hz]), if_neg (by simp [he]), hsp.2.2.2.1]
    have h2 := (subdivisionInfo_fields
      (cityNameInfo (specialRegionInfo (countryInfo r0 city) city) city) city).1
    have h3 := (cityFallback_fields (subdivisionInfo
      (cityNameInfo (specialRegionInfo (countryInfo r0 city) city) city) city)).2.2.2.2.2.2
      (by rw [h2, h1]; exact hown)
    rw [hcnCity hcn, (asnInfo_fields _ asn).1, cityInfo_some, (locationInfo_fields _ city).1,
      h3, h2, h1]
  · intro hsub hcn
    rw [hcnRegion hcn, (asnInfo_fields _ asn).2.1, cityInfo_Region, subdivisionInfo_Region]
    cases hs : city.Subdivisions with
    | nil =>
      simp only
      rw [(cityNameInfo_fields _ city).1, hsp.2.2.2.2]
    | cons sub rest =>
      obtain ⟨hz, he⟩ := hsub sub rest hs
      simp only [hz, he, ne_eq, not_true_eq_false, if_false, ite_self]
      rw [(cityNameInfo_fields _ city).1, hsp.2.2.2.2]
  · intro hz hcn
    rw [hcnCity hcn, (asnInfo_fields _ asn).1, cityInfo_City_of_zh _ _ hz]

/-- Witness of `buildSuccessResponse_HK_TW` at 1.2.3.4 and a bare "HK" record. -/
theorem buildSuccessResponse_HK_TW_witness :
    ∃ resp, buildSuccessResponse geoip.ipv4Sample
        (some { Country := { IsoCode := "HK" } }) none none = some resp
      ∧ resp.CountryCode = "CN" ∧ resp.City = "香港" ∧ resp.Region = "香港" := by
  obtain ⟨resp, hb, -, hc, -, hcity, hregion, -⟩ :=
    buildSuccessResponse_HK_TW geoip.ipv4Sample { Country := { IsoCode := "HK" } } none none
      (Or.inl (by decide)) (Or.inl rfl)
  exact ⟨resp, hb, hc, hcity (by decide) (by decide) (by simp),
    hregion (by simp) (by simp)⟩

/-- C10, as stated, fails: a General record of country "US" whose city and
first subdivision carry an English and a "zh-CN" name gets the "zh-CN" names
as City and Region, not the English ones. -/
theorem buildSuccessResponse_prefers_zhCN_outside_CN :
    newYork.Country.IsoCode = "US"
    ∧ newYork.City.Names.get "en" = "New York"
    ∧ (buildSuccessResponse ipv4Sample (some newYork) none none).map (·.CountryCode)
        = some "US"
    ∧ (buildSuccessResponse ipv4Sample (some newYork) none none).map (·.City)
        = some "纽约"
    ∧ (buildSuccessResponse ipv4Sample (some newYork) none none).map (·.Region)
        = some "纽约州"
    ∧ (buildSuccessResponse ipv4Sample (some newYork) none none).map (·.CountryName)
        = some "United States" := by
  decide

/-- C10, amended: City and Region do not depend on the resolved country. For
every address on which lines 143-152 complete, every General record and every
override record that supplies no city (province), `buildSuccessResponse` sets
City (Region) to the non-empty "zh-CN" name of the city (first subdivision)
whenever there is one, and to the non-empty English name only when there is no
non-empty "zh-CN" name. Only CountryName is chosen by country: for a record
other than "HK"/"TW" with a non-empty names map it is the "zh-CN" name when the
country code is "CN" and that name is non-empty, and the English name otherwise. -/
theorem buildSuccessResponse_locale (ip : net.IP) (city : geoip2.City)
    (asn : Option geoip2.ASN) (cnResult : Option GeoCNResult)
    (hip : ip.To4 ≠ none ∨ 19 ≤ ip.String.length)
    (hcity : ∀ r, cnResult = some r → r.City = "")
    (hprov : ∀ r, cnResult = some r → r.Province = "") :
    ∃ resp, buildSuccessResponse ip (some city) asn cnResult = some resp
      ∧ (city.City.Names.get "zh-CN" ≠ "" → resp.City = city.City.Names.get "zh-CN")
      ∧ (city.City.Names.get "zh-CN" = "" → city.City.Names.get "en" ≠ "" →
          resp.City = city.City.Names.get "en")
      ∧ (∀ sub rest, city.Subdivisions = sub :: rest →
          (sub.Names.get "zh-CN" ≠ "" → resp.Region = sub.Names.get "zh-CN")
          ∧ (sub.Names.get "zh-CN" = "" → sub.Names.get "en" ≠ "" →
              resp.Region = sub.Names.get "en"))
      ∧ (city.Country.IsoCode ≠ "HK" → city.Country.IsoCode ≠ "TW" →
          0 < city.Country.Names.len →
          resp.CountryName =
            if city.Country.IsoCode = "CN" ∧ city.Country.Names.get "zh-CN" ≠ "" then
              city.Country.Names.get "zh-CN"
            else city.Country.Names.get "en") := by
  obtain ⟨r0, -, -, -, -, -, hb⟩ := buildSuccessResponse_eq ip (some city) asn cnResult hip
  have hcnCity : ∀ resp : Response, (geoCNInfo resp cnResult).City = resp.City := by
    intro resp
    rw [geoCNInfo_City]
    cases cnResult with
    | none => rfl
    | some r => simp [hcity r rfl]
  have hcnRegion : ∀ resp : Response, (geoCNInfo resp cnResult).Region = resp.Region := by
    intro resp
    rw [geoCNInfo_Region]
    cases cnResult with
    | none => rfl
    | some r => simp [hprov r rfl]
  refine ⟨_, hb, ?_, ?_, ?_, ?_⟩
  · intro hz
    rw [hcnCity, (asnInfo_fields _ asn).1, cityInfo_City_of_zh _ _ hz]
  · intro hz he
    rw [hcnCity, (asnInfo_fields _ asn).1, cityInfo_City_of_en _ _ hz he]
  · intro sub rest hs
    have hne : ∀ k, sub.Names.get k ≠ "" → sub.Names ≠ none := by
      intro k hk hn
      rw [hn] at hk
      exact hk rfl
    constructor
    · intro hz
      rw [hcnRegion, (asnInfo_fields _ asn).2.1, cityInfo_Region, subdivisionInfo_Region, hs]
      simp only [hne _ hz, hz, ne_eq, not_false_eq_true, if_true, if_false]
    · intro hz he
      rw [hcnRegion, (asnInfo_fields _ asn).2.1, cityInfo_Region, subdivisionInfo_Region, hs]
      simp only [hne _ he, hz, he, ne_eq, not_false_eq_true, not_true_eq_false, if_true,
        if_false]
  · intro h1 h2 hlen
    rw [(geoCNInfo_ASN _ cnResult).2.2.2.2, (asnInfo_fields _ asn).2.2.2.2,
      (cityInfo_Country r0 city).2.2, (specialRegionInfo_other _ city h1 h2).2.2.1,
      countryInfo_CountryName _ city hlen]

/-- Witness of `buildSuccessResponse_locale` at 1.2.3.4 and the "US" record
`newYork`, with no override record. -/
theorem buildSuccessResponse_locale_witness :
    ∃ resp, buildSuccessResponse geoip.ipv4Sample (some newYork) none none = some resp
      ∧ resp.City = "纽约" ∧ resp.CountryName = "United States" := by
  obtain ⟨resp, hb, hz, -, -, hname⟩ :=
    buildSuccessResponse_locale geoip.ipv4Sample newYork none none (Or.inl (by decide))
      (by simp) (by simp)
  exact ⟨resp, hb, hz (by decide), hname (by decide) (by decide) (by decide)⟩

end api

/-! ## Claims about `convertGeoCNToGeoLite2` and `OpenDBs` -/

namespace geoip

/-- C11: the baseline `convertGeoCNToGeoLite2` synthesizes from an override
record has country code "CN" with names en "China" and zh-CN "中国" and time
zone "Asia/Shanghai"; its city names are "zh-CN" and "en", both the override's
city, exactly when that city is non-empty, and nil otherwise; it has exactly
one subdivision, named the override's province, exactly when that province is
non-empty, and none otherwise. -/
theorem convertGeoCNToGeoLite2_baseline (r : GeoCNResult) :
    (convertGeoCNToGeoLite2 r).Country.IsoCode = "CN"
    ∧ (convertGeoCNToGeoLite2 r).Country.Names = some [("en", "China"), ("zh-CN", "中国")]
    ∧ (convertGeoCNToGeoLite2 r).Location.TimeZone = "Asia/Shanghai"
    ∧ (convertGeoCNToGeoLite2 r).City.Names
        = (if r.City ≠ "" then some [("zh-CN", r.City), ("en", r.City)] else none)
    ∧ (convertGeoCNToGeoLite2 r).Subdivisions
        = (if r.Province ≠ "" then
            [{ Names := some [("zh-CN", r.Province)], IsoCode := "", GeoNameID := 0 }]
          else []) := by
  unfold convertGeoCNToGeoLite2
  simp only
  split_ifs <;> simp

/-- C12, as stated, fails: the General file cannot be opened and the ASN file
can; `OpenDBs` returns the error of the General open, and the ASN file is not
even opened (`asnDB` stays nil). -/
theorem OpenDBs_fails_when_only_General_fails :
    (missingCityLib.geoip2Open "missing-City.mmdb").2 ≠ none
    ∧ missingCityLib.geoip2Open "GeoLite2-ASN.mmdb" = (true, none)
    ∧ (OpenDBs missingCityLib {} "missing-City.mmdb" "GeoLite2-ASN.mmdb" "GeoCN.mmdb").2
        = some "open missing-City.mmdb: no such file"
    ∧ (OpenDBs missingCityLib {} "missing-City.mmdb" "GeoLite2-ASN.mmdb" "GeoCN.mmdb").1.asnDB
        = none := by
  decide

/-- C12, amended: both General and ASN are mandatory at open. `OpenDBs` returns
nil exactly when the General open and the ASN open both return a nil error;
otherwise it returns the error of the first open that failed, General before
ASN. When the General open fails, ASN and the override are not opened: `asnDB`
and `cnRawDB` keep their prior values. When General opens and ASN fails, the
override is not opened. Only the override's open error is ignored. -/
theorem OpenDBs_fails_iff (lib : Library) (s : DBState)
    (cityDBPath asnDBPath cnDBPath : String) :
    ((OpenDBs lib s cityDBPath asnDBPath cnDBPath).2 = none ↔
      (lib.geoip2Open cityDBPath).2 = none ∧ (lib.geoip2Open asnDBPath).2 = none)
    ∧ (OpenDBs lib s cityDBPath asnDBPath cnDBPath).2 =
        (if (lib.geoip2Open cityDBPath).2 ≠ none then (lib.geoip2Open cityDBPath).2
         else (lib.geoip2Open asnDBPath).2)
    ∧ ((lib.geoip2Open cityDBPath).2 ≠ none →
        (OpenDBs lib s cityDBPath asnDBPath cnDBPath).1.asnDB = s.asnDB
        ∧ (OpenDBs lib s cityDBPath asnDBPath cnDBPath).1.cnRawDB = s.cnRawDB)
    ∧ ((lib.geoip2Open cityDBPath).2 = none → (lib.geoip2Open asnDBPath).2 ≠ none →
        (OpenDBs lib s cityDBPath asnDBPath cnDBPath).1.cnRawDB = s.cnRawDB) := by
  obtain ⟨cityDB, asnDB, cnRawDB, closed, nextId⟩ := s
  rcases hc : lib.geoip2Open cityDBPath with ⟨okc, ec⟩
  rcases ha : lib.geoip2Open asnDBPath with ⟨oka, ea⟩
  cases ec <;> cases ea <;> cases okc <;> cases oka <;>
    simp [OpenDBs, openDBs, newReader, hc, ha]

/-- C13: when General and ASN open, `OpenDBs` returns nil whether or not the
override file opens; when the override open fails (returning no reader),
`cnRawDB` is nil afterwards, and every later `Lookup` sends no query to the
override, returns a nil error, and returns what the General and the ASN
dataset answered. -/
theorem OpenDBs_override_optional (lib : Library) (s : DBState)
    (cityDBPath asnDBPath cnDBPath : String)
    (hcity : lib.geoip2Open cityDBPath = (true, none))
    (hasn : lib.geoip2Open asnDBPath = (true, none)) :
    (OpenDBs lib s cityDBPath asnDBPath cnDBPath).2 = none
    ∧ (OpenDBs lib s cityDBPath asnDBPath cnDBPath).1.cityDB ≠ none
    ∧ (OpenDBs lib s cityDBPath asnDBPath cnDBPath).1.asnDB ≠ none
    ∧ (∀ e, lib.maxminddbOpen cnDBPath = (false, some e) →
        (OpenDBs lib s cityDBPath asnDBPath cnDBPath).1.cnRawDB = none
        ∧ ∀ ip : net.IP,
          (Lookup lib (OpenDBs lib s cityDBPath asnDBPath cnDBPath).1 ip).queriedGeoCN = false
          ∧ (Lookup lib (OpenDBs lib s cityDBPath asnDBPath cnDBPath).1 ip).err = none
          ∧ (Lookup lib (OpenDBs lib s cityDBPath asnDBPath cnDBPath).1 ip).city
              = (lookupCity lib (OpenDBs lib s cityDBPath asnDBPath cnDBPath).1 ip).1
          ∧ (Lookup lib (OpenDBs lib s cityDBPath asnDBPath cnDBPath).1 ip).asn
              = (lookupASN lib (OpenDBs lib s cityDBPath asnDBPath cnDBPath).1 ip).1) := by
  have h2 : (OpenDBs lib s cityDBPath asnDBPath cnDBPath).2 = none := by
    simp [OpenDBs, openDBs, newReader, hcity, hasn]
  have hc : (OpenDBs lib s cityDBPath asnDBPath cnDBPath).1.cityDB ≠ none := by
    cases h : (lib.maxminddbOpen cnDBPath).1 <;>
      simp [OpenDBs, openDBs, newReader, hcity, hasn, h]
  have ha : (OpenDBs lib s cityDBPath asnDBPath cnDBPath).1.asnDB ≠ none := by
    cases h : (lib.maxminddbOpen cnDBPath).1 <;>
      simp [OpenDBs, openDBs, newReader, hcity, hasn, h]
  refine ⟨h2, hc, ha, ?_⟩
  intro e he
  have hn : (OpenDBs lib s cityDBPath asnDBPath cnDBPath).1.cnRawDB = none := by
    simp [OpenDBs, openDBs, newReader, hcity, hasn, he]
  refine ⟨hn, ?_⟩
  intro ip
  generalize (OpenDBs lib s cityDBPath asnDBPath cnDBPath).1 = s' at hc ha hn
  have hskip : ¬ (s'.cnRawDB ≠ none ∧ ((lookupCity lib s' ip).1 = none
      ∨ (lookupCity lib s' ip).1.map (·.Country.IsoCode) = some "CN")) := by
    simp [hn]
  have hdb : ¬ (s'.cityDB = none ∧ s'.asnDB = none) := fun h => hc h.1
  refine ⟨?_, ?_, ?_, ?_⟩
  · cases hb : (Lookup lib s' ip).queriedGeoCN
    · rfl
    · exact absurd ((Lookup_queriedGeoCN lib s' ip).mp hb) hskip
  · unfold Lookup
    simp only
    rw [if_neg hdb]
  · rw [Lookup_city lib s' ip hdb]
    unfold lookupGeoCN
    rw [if_neg hskip]
  · unfold Lookup
    simp only
    rw [if_neg hdb]

/-- Witness of `OpenDBs_override_optional`: General and ASN open, the override
file is missing; `cnRawDB` is nil and a lookup returns the General record. -/
theorem OpenDBs_override_optional_witness :
    (OpenDBs missingOverrideLib {} "GeoLite2-City.mmdb" "GeoLite2-ASN.mmdb" "GeoCN.mmdb").2
      = none
    ∧ (OpenDBs missingOverrideLib {} "GeoLite2-City.mmdb" "GeoLite2-ASN.mmdb"
        "GeoCN.mmdb").1.cnRawDB = none
    ∧ (Lookup missingOverrideLib (OpenDBs missingOverrideLib {} "GeoLite2-City.mmdb"
        "GeoLite2-ASN.mmdb" "GeoCN.mmdb").1 ipv4Sample).err = none :=
  have h := OpenDBs_override_optional missingOverrideLib {} "GeoLite2-City.mmdb"
    "GeoLite2-ASN.mmdb" "GeoCN.mmdb" rfl rfl
  have h' := h.2.2.2 "open GeoCN.mmdb: no such file" rfl
  ⟨h.1, h'.1, (h'.2 ipv4Sample).2.1⟩

end geoip

/-! ## Lemmas about paths and the file system -/

theorem append_ne_self (s t : String) (ht : t ≠ "") : s ++ t ≠ s := by
  intro h
  have hl := congrArg String.length h
  rw [String.length_append] at hl
  have h0 : t.data.length = 0 := by
    have : t.length = 0 := by omega
    exact this
  exact ht (String.ext (List.length_eq_zero.mp h0))

theorem data_getLast_append (s t : String) (c : Char) (ht : t.data.getLast? = some c) :
    (s ++ t).data.getLast? = some c := by
  rw [String.data_append]
  have hd : t.data ≠ [] := by
    intro h
    rw [h] at ht
    cases ht
  rw [List.getLast?_append_of_ne_nil _ hd, ht]

theorem append_ne_append_of_last (a b x y : String) (c d : Char)
    (hx : x.data.getLast? = some c) (hy : y.data.getLast? = some d) (hcd : c ≠ d) :
    a ++ x ≠ b ++ y := by
  intro h
  have h1 := data_getLast_append a x c hx
  have h2 := data_getLast_append b y d hy
  rw [h, h2] at h1
  exact hcd (Option.some.inj h1).symm

namespace updater

theorem tmpDownload_ne (filePath : String) : filePath ≠ filePath ++ ".tmp_download" :=
  fun h => append_ne_self filePath ".tmp_download" (by decide) h.symm

theorem tmpFinal_ne (filePath : String) : filePath ≠ filePath ++ ".tmp_final" :=
  fun h => append_ne_self filePath ".tmp_final" (by decide) h.symm

theorem tmpFinalTmp_ne (filePath : String) : filePath ≠ filePath ++ ".tmp_final" ++ ".tmp" := by
  intro h
  rw [String.append_assoc] at h
  exact append_ne_self filePath (".tmp_final" ++ ".tmp") (by decide) h.symm

theorem etag_ne_tmpDownload (dir name filePath : String) :
    filepathJoin dir (name ++ ".etag") ≠ filePath ++ ".tmp_download" := by
  unfold filepathJoin
  rw [← String.append_assoc]
  exact append_ne_append_of_last _ _ _ _ 'g' 'd' (by decide) (by decide) (by decide)

theorem etag_ne_tmpFinal (dir name filePath : String) :
    filepathJoin dir (name ++ ".etag") ≠ filePath ++ ".tmp_final" := by
  unfold filepathJoin
  rw [← String.append_assoc]
  exact append_ne_append_of_last _ _ _ _ 'g' 'l' (by decide) (by decide) (by decide)

theorem etag_ne_tmpFinalTmp (dir name filePath : String) :
    filepathJoin dir (name ++ ".etag") ≠ filePath ++ ".tmp_final" ++ ".tmp" := by
  unfold filepathJoin
  rw [← String.append_assoc]
  exact append_ne_append_of_last _ _ _ _ 'g' 'p' (by decide) (by decide) (by decide)

theorem FS.touching_record (fs : FS) (op : FsOp) (q : String) :
    (fs.record op).touching q =
      fs.touching q ++ (if q ∈ op.targets then [op] else []) := by
  unfold FS.touching FS.record
  simp only [List.filter_append, List.filter_cons, List.filter_nil]
  by_cases h : q ∈ op.targets <;> simp [h]

theorem osCreate_frame (f : Faults) (fs : FS) (p q : String) (h : q ≠ p) :
    (osCreate f fs p).1.files q = fs.files q
      ∧ (osCreate f fs p).1.touching q = fs.touching q := by
  unfold osCreate
  simp only
  split <;>
    simp [FS.put, FS.record, FS.touching, FsOp.targets, h]

theorem writeTo_frame (f : Faults) (fs : FS) (p q : String) (data : Bytes)
    (readErr : Option String) (h : q ≠ p) :
    (writeTo f fs p data readErr).1.files q = fs.files q
      ∧ (writeTo f fs p data readErr).1.touching q = fs.touching q := by
  unfold writeTo
  simp only
  split <;>
    simp [FS.put, FS.record, FS.touching, FsOp.targets, h]

theorem osRemove_frame (f : Faults) (fs : FS) (p q : String) (h : q ≠ p) :
    (osRemove f fs p).files q = fs.files q
      ∧ (osRemove f fs p).touching q = fs.touching q := by
  unfold osRemove
  simp only
  split <;>
    simp [FS.del, FS.record, FS.touching, FsOp.targets, h]

theorem osRename_frame (f : Faults) (fs : FS) (src dst q : String) (h₁ : q ≠ src)
    (h₂ : q ≠ dst) :
    (osRename f fs src dst).1.files q = fs.files q
      ∧ (osRename f fs src dst).1.touching q = fs.touching q := by
  unfold osRename
  simp only
  split
  · simp [FS.record, FS.touching, FsOp.targets, h₁, h₂]
  · split <;>
      simp [FS.put, FS.del, FS.record, FS.touching, FsOp.targets, h₁, h₂]

theorem osRename_files_of_error (f : Faults) (fs : FS) (src dst : String)
    (h : (osRename f fs src dst).2 ≠ none) :
    (osRename f fs src dst).1.files = fs.files := by
  unfold osRename at h ⊢
  cases hr : f.rename src dst with
  | some e => simp [FS.record]
  | none =>
    cases hc : fs.files src with
    | none => simp [hc, FS.record]
    | some c =>
      have hc' : (fs.record (FsOp.rename src dst)).files src = some c := hc
      simp [hr, hc'] at h

theorem osRename_ops (f : Faults) (fs : FS) (src dst : String) :
    (osRename f fs src dst).1.ops = fs.ops ++ [FsOp.rename src dst] := by
  unfold osRename
  simp only
  split
  · rfl
  · split <;> rfl

theorem writeETag_frame (f : Faults) (fs : FS) (p q : String) (etag : Bytes) (h : q ≠ p) :
    (writeETag f fs p etag).1.files q = fs.files q
      ∧ (writeETag f fs p etag).1.touching q = fs.touching q := by
  unfold writeETag
  simp only
  split <;>
    simp [FS.put, FS.record, FS.touching, FsOp.targets, h]

theorem extractLoop_frame (f : Faults) (destPath : String) (endErr : Option String)
    (q : String) (h₁ : q ≠ destPath ++ ".tmp") (h₂ : q ≠ destPath) (fs : FS)
    (entries : List TarEntry) :
    (extractLoop f destPath endErr fs entries).1.files q = fs.files q
      ∧ (extractLoop f destPath endErr fs entries).1.touching q = fs.touching q := by
  induction entries generalizing fs with
  | nil =>
    unfold extractLoop
    split <;> exact ⟨rfl, rfl⟩
  | cons header rest ih =>
    unfold extractLoop
    split
    · simp only
      have hc := osCreate_frame f fs (destPath ++ ".tmp") q h₁
      split
      · rename_i fs1 e he
        rw [he] at hc
        exact hc
      · rename_i fs1 he
        rw [he] at hc
        have hw := writeTo_frame f fs1 (destPath ++ ".tmp") q header.Data header.DataErr h₁
        split
        · rename_i fs2 e hwe
          rw [hwe] at hw
          have hr := osRemove_frame f fs2 (destPath ++ ".tmp") q h₁
          exact ⟨hr.1.trans (hw.1.trans hc.1), hr.2.trans (hw.2.trans hc.2)⟩
        · rename_i fs2 hwe
          rw [hwe] at hw
          have hr := osRename_frame f fs2 (destPath ++ ".tmp") destPath q h₁ h₂
          split
          · rename_i fs3 e hre
            rw [hre] at hr
            exact ⟨hr.1.trans (hw.1.trans hc.1), hr.2.trans (hw.2.trans hc.2)⟩
          · rename_i fs3 hre
            rw [hre] at hr
            exact ⟨hr.1.trans (hw.1.trans hc.1), hr.2.trans (hw.2.trans hc.2)⟩
    · exact ih fs

theorem extractMmdbFromTarGz_frame (w : World) (fs : FS) (tarGzPath destPath q : String)
    (h₁ : q ≠ destPath ++ ".tmp") (h₂ : q ≠ destPath) :
    (extractMmdbFromTarGz w fs tarGzPath destPath).1.files q = fs.files q
      ∧ (extractMmdbFromTarGz w fs tarGzPath destPath).1.touching q = fs.touching q := by
  unfold extractMmdbFromTarGz
  split
  · exact ⟨rfl, rfl⟩
  · split
    · exact ⟨rfl, rfl⟩
    · exact extractLoop_frame w.faults destPath _ q h₁ h₂ fs _

theorem copyFile_frame (f : Faults) (fs : FS) (src dst q : String) (h : q ≠ dst) :
    (copyFile f fs src dst).1.files q = fs.files q
      ∧ (copyFile f fs src dst).1.touching q = fs.touching q := by
  unfold copyFile
  cases ho : osOpen f fs src with
  | error e => exact ⟨rfl, rfl⟩
  | ok r =>
    obtain ⟨content, readErr⟩ := r
    have hc := osCreate_frame f fs dst q h
    simp only
    cases hcr : osCreate f fs dst with
    | mk fs1 err =>
      rw [hcr] at hc
      cases err with
      | some e => exact hc
      | none =>
        have hw := writeTo_frame f fs1 dst q content readErr h
        exact ⟨hw.1.trans hc.1, hw.2.trans hc.2⟩

end updater

/-! ## Lemmas about the canonical path in `downloadAndExtract` -/

namespace updater

theorem stageFile_frame (w : World) (fs : FS) (url tempFilePath finalTempPath q : String)
    (h₁ : q ≠ finalTempPath ++ ".tmp") (h₂ : q ≠ finalTempPath) :
    (stageFile w fs url tempFilePath finalTempPath).1.files q = fs.files q
      ∧ (stageFile w fs url tempFilePath finalTempPath).1.touching q = fs.touching q := by
  unfold stageFile
  split
  · have h := extractMmdbFromTarGz_frame w fs tempFilePath finalTempPath q h₁ h₂
    cases he : extractMmdbFromTarGz w fs tempFilePath finalTempPath with
    | mk fs1 err =>
      rw [he] at h
      cases err <;> exact h
  · have h := copyFile_frame w.faults fs tempFilePath finalTempPath q h₂
    cases he : copyFile w.faults fs tempFilePath finalTempPath with
    | mk fs1 err =>
      rw [he] at h
      cases err <;> exact h

theorem osRename_touching_dst (f : Faults) (fs : FS) (src dst : String) :
    (osRename f fs src dst).1.touching dst = fs.touching dst ++ [FsOp.rename src dst] := by
  unfold FS.touching
  rw [osRename_ops]
  simp [FsOp.targets]

theorem installStage_canonical (w : World) (fs : FS)
    (url filePath etagFilePath tempFilePath finalTempPath : String) (resp : HTTPResponse)
    (h₁ : filePath ≠ finalTempPath ++ ".tmp") (h₂ : filePath ≠ finalTempPath) :
    ((installStage w fs url filePath etagFilePath tempFilePath finalTempPath resp).2 ≠ none →
      (installStage w fs url filePath etagFilePath tempFilePath finalTempPath resp).1.files
        filePath = fs.files filePath)
    ∧ (filePath ≠ etagFilePath →
      (installStage w fs url filePath etagFilePath tempFilePath finalTempPath resp).1.touching
          filePath = fs.touching filePath
      ∨ (installStage w fs url filePath etagFilePath tempFilePath finalTempPath resp).1.touching
          filePath = fs.touching filePath ++ [FsOp.rename finalTempPath filePath]) := by
  have hs := stageFile_frame w fs url tempFilePath finalTempPath filePath h₁ h₂
  unfold installStage
  cases hst : stageFile w fs url tempFilePath finalTempPath with
  | mk fs1 err1 =>
    rw [hst] at hs
    cases err1 with
    | some e => exact ⟨fun _ => hs.1, fun _ => Or.inl hs.2⟩
    | none =>
      simp only
      cases hv : validateMmdbFile w fs1 finalTempPath with
      | some e => exact ⟨fun _ => hs.1, fun _ => Or.inl hs.2⟩
      | none =>
        simp only
        have hrf := osRename_files_of_error w.faults fs1 finalTempPath filePath
        have hrt := osRename_touching_dst w.faults fs1 finalTempPath filePath
        cases hr : osRename w.faults fs1 finalTempPath filePath with
        | mk fs2 err2 =>
          rw [hr] at hrf hrt
          cases err2 with
          | some e =>
            refine ⟨fun _ => ?_, fun _ => Or.inr ?_⟩
            · have := hrf (by simp)
              simp only at this
              rw [this, hs.1]
            · simp only at hrt
              rw [hrt, hs.2]
          | none =>
            simp only
            split
            · refine ⟨fun h => absurd rfl h, fun hne => Or.inr ?_⟩
              simp only at hrt
              rw [(writeETag_frame w.faults fs2 etagFilePath filePath resp.ETag hne).2, hrt,
                hs.2]
            · refine ⟨fun h => absurd rfl h, fun _ => Or.inr ?_⟩
              simp only at hrt
              rw [hrt, hs.2]

theorem bodyStage_canonical (w : World) (fs : FS)
    (url filePath etagFilePath tempFilePath : String) (resp : HTTPResponse)
    (ht : filePath ≠ tempFilePath) :
    ((bodyStage w fs url filePath etagFilePath tempFilePath resp).2 ≠ none →
      (bodyStage w fs url filePath etagFilePath tempFilePath resp).1.files filePath
        = fs.files filePath)
    ∧ (filePath ≠ etagFilePath →
      (bodyStage w fs url filePath etagFilePath tempFilePath resp).1.touching filePath
          = fs.touching filePath
      ∨ (bodyStage w fs url filePath etagFilePath tempFilePath resp).1.touching filePath
          = fs.touching filePath ++ [FsOp.rename (filePath ++ ".tmp_final") filePath]) := by
  unfold bodyStage
  cases resp.BodyErr with
  | some e => exact ⟨fun _ => rfl, fun _ => Or.inl rfl⟩
  | none =>
    simp only
    split
    · exact ⟨fun _ => rfl, fun _ => Or.inl rfl⟩
    · cases validateFileFormat resp.Body url with
      | some e => exact ⟨fun _ => rfl, fun _ => Or.inl rfl⟩
      | none =>
        simp only
        have hw := writeTo_frame w.faults fs tempFilePath filePath resp.Body none ht
        cases hwr : writeTo w.faults fs tempFilePath resp.Body none with
        | mk fs1 err1 =>
          rw [hwr] at hw
          cases err1 with
          | some e => exact ⟨fun _ => hw.1, fun _ => Or.inl hw.2⟩
          | none =>
            simp only
            have hi := installStage_canonical w fs1 url filePath etagFilePath tempFilePath
              (filePath ++ ".tmp_final") resp (tmpFinalTmp_ne filePath) (tmpFinal_ne filePath)
            have hrm := fun fs' => osRemove_frame w.faults fs' (filePath ++ ".tmp_final")
              filePath (tmpFinal_ne filePath)
            cases hin : installStage w fs1 url filePath etagFilePath tempFilePath
                (filePath ++ ".tmp_final") resp with
            | mk fs2 err2 =>
              rw [hin] at hi
              simp only at hi ⊢
              refine ⟨fun h => ?_, fun hne => ?_⟩
              · rw [(hrm fs2).1, hi.1 h, hw.1]
              · rcases hi.2 hne with h | h
                · left
                  rw [(hrm fs2).2, h, hw.2]
                · right
                  rw [(hrm fs2).2, h, hw.2]

theorem downloadAndExtract_canonical (w : World) (fs : FS)
    (url filePath etagFileName : String) :
    ((downloadAndExtract w fs url filePath etagFileName).2 ≠ none →
      (downloadAndExtract w fs url filePath etagFileName).1.files filePath = fs.files filePath)
    ∧ (filePath ≠ filepathJoin w.App.DataDir (etagFileName ++ ".etag") →
      (downloadAndExtract w fs url filePath etagFileName).1.touching filePath
          = fs.touching filePath
      ∨ (downloadAndExtract w fs url filePath etagFileName).1.touching filePath
          = fs.touching filePath ++ [FsOp.rename (filePath ++ ".tmp_final") filePath]) := by
  unfold downloadAndExtract
  cases w.newRequest url with
  | some e => exact ⟨fun _ => rfl, fun _ => Or.inl rfl⟩
  | none =>
    simp only
    cases w.httpDo url (requestHeader w fs (filepathJoin w.App.DataDir
        (etagFileName ++ ".etag"))) with
    | error e => exact ⟨fun _ => rfl, fun _ => Or.inl rfl⟩
    | ok resp =>
      simp only
      split
      · exact ⟨fun _ => rfl, fun _ => Or.inl rfl⟩
      · split
        · exact ⟨fun _ => rfl, fun _ => Or.inl rfl⟩
        · split
          · exact ⟨fun _ => rfl, fun _ => Or.inl rfl⟩
          · have hc := osCreate_frame w.faults fs (filePath ++ ".tmp_download") filePath
              (tmpDownload_ne filePath)
            cases hcr : osCreate w.faults fs (filePath ++ ".tmp_download") with
            | mk fs1 err1 =>
              rw [hcr] at hc
              cases err1 with
              | some e => exact ⟨fun _ => hc.1, fun _ => Or.inl hc.2⟩
              | none =>
                simp only
                have hb := bodyStage_canonical w fs1 url filePath
                  (filepathJoin w.App.DataDir (etagFileName ++ ".etag"))
                  (filePath ++ ".tmp_download") resp (tmpDownload_ne filePath)
                have hrm := fun fs' => osRemove_frame w.faults fs' (filePath ++ ".tmp_download")
                  filePath (tmpDownload_ne filePath)
                cases hbr : bodyStage w fs1 url filePath
                    (filepathJoin w.App.DataDir (etagFileName ++ ".etag"))
                    (filePath ++ ".tmp_download") resp with
                | mk fs2 err2 =>
                  rw [hbr] at hb
                  simp only at hb ⊢
                  refine ⟨fun h => ?_, fun hne => ?_⟩
                  · rw [(hrm fs2).1, hb.1 h, hc.1]
                  · rcases hb.2 hne with h | h
                    · left
                      rw [(hrm fs2).2, h, hc.2]
                    · right
                      rw [(hrm fs2).2, h, hc.2]

end updater

/-! ## Claims about `downloadAndExtract` -/

namespace updater

theorem join_ne_etag (dir fileName : String) :
    filepathJoin dir fileName ≠ filepathJoin dir (fileName ++ ".etag") := by
  unfold filepathJoin
  rw [← String.append_assoc]
  exact fun h => append_ne_self _ ".etag" (by decide) h.symm

/-- C14: whenever `downloadAndExtract` returns an error (`errNotModified`
included), and whichever file-system calls fail, the file at the canonical
path `filePath` has the content it had before the call. Unless the ETag path
is the canonical path itself, the only file-system call of the run that
targets the canonical path is one rename of `filePath + ".tmp_final"` onto it;
for `downloadFromURL` the ETag path is never the canonical path. -/
theorem downloadAndExtract_error_keeps_canonical_file (w : World) (fs : FS)
    (url filePath etagFileName : String) :
    ((downloadAndExtract w fs url filePath etagFileName).2 ≠ none →
      (downloadAndExtract w fs url filePath etagFileName).1.files filePath = fs.files filePath)
    ∧ (filePath ≠ filepathJoin w.App.DataDir (etagFileName ++ ".etag") →
      (downloadAndExtract w fs url filePath etagFileName).1.touching filePath
          = fs.touching filePath
      ∨ (downloadAndExtract w fs url filePath etagFileName).1.touching filePath
          = fs.touching filePath ++ [FsOp.rename (filePath ++ ".tmp_final") filePath])
    ∧ (∀ fileName : String,
      ((downloadFromURL w fs url fileName).2 ≠ none →
        (downloadFromURL w fs url fileName).1.files (filepathJoin w.App.DataDir fileName)
          = fs.files (filepathJoin w.App.DataDir fileName))
      ∧ ((downloadFromURL w fs url fileName).1.touching (filepathJoin w.App.DataDir fileName)
            = fs.touching (filepathJoin w.App.DataDir fileName)
        ∨ (downloadFromURL w fs url fileName).1.touching (filepathJoin w.App.DataDir fileName)
            = fs.touching (filepathJoin w.App.DataDir fileName)
              ++ [FsOp.rename (filepathJoin w.App.DataDir fileName ++ ".tmp_final")
                    (filepathJoin w.App.DataDir fileName)])) := by
  refine ⟨(downloadAndExtract_canonical w fs url filePath etagFileName).1,
    (downloadAndExtract_canonical w fs url filePath etagFileName).2, ?_⟩
  intro fileName
  unfold downloadFromURL
  exact ⟨(downloadAndExtract_canonical w fs url _ fileName).1,
    (downloadAndExtract_canonical w fs url _ fileName).2 (join_ne_etag _ _)⟩

theorem stageFile_not_tooSmall (w : World) (fs : FS) (url tempFilePath finalTempPath : String)
    (n : Nat) :
    (stageFile w fs url tempFilePath finalTempPath).2 ≠ some (UpdateError.tooSmall n) := by
  unfold stageFile
  split
  · cases extractMmdbFromTarGz w fs tempFilePath finalTempPath with
    | mk fs1 err => cases err <;> simp
  · cases copyFile w.faults fs tempFilePath finalTempPath with
    | mk fs1 err => cases err <;> simp

theorem installStage_not_tooSmall (w : World) (fs : FS)
    (url filePath etagFilePath tempFilePath finalTempPath : String) (resp : HTTPResponse)
    (n : Nat) :
    (installStage w fs url filePath etagFilePath tempFilePath finalTempPath resp).2
      ≠ some (UpdateError.tooSmall n) := by
  have hs := stageFile_not_tooSmall w fs url tempFilePath finalTempPath n
  unfold installStage
  cases hst : stageFile w fs url tempFilePath finalTempPath with
  | mk fs1 err1 =>
    rw [hst] at hs
    cases err1 with
    | some e => exact hs
    | none =>
      simp only
      cases validateMmdbFile w fs1 finalTempPath with
      | some e => simp
      | none =>
        simp only
        cases osRename w.faults fs1 finalTempPath filePath with
        | mk fs2 err2 =>
          cases err2 with
          | some e => simp
          | none =>
            simp only
            split <;> simp

theorem bodyStage_not_tooSmall (w : World) (fs : FS)
    (url filePath etagFilePath tempFilePath : String) (resp : HTTPResponse) (n : Nat)
    (h : minFileSize ≤ resp.Body.length) :
    (bodyStage w fs url filePath etagFilePath tempFilePath resp).2
      ≠ some (UpdateError.tooSmall n) := by
  unfold bodyStage
  cases resp.BodyErr with
  | some e => simp
  | none =>
    simp only
    rw [if_neg (by omega)]
    cases validateFileFormat resp.Body url with
    | some e => simp
    | none =>
      simp only
      cases writeTo w.faults fs tempFilePath resp.Body none with
      | mk fs1 err1 =>
        cases err1 with
        | some e => simp
        | none =>
          simp only
          exact installStage_not_tooSmall w fs1 url filePath etagFilePath tempFilePath _ resp n

theorem bodyStage_of_small (w : World) (fs : FS)
    (url filePath etagFilePath tempFilePath : String) (resp : HTTPResponse)
    (h : resp.Body.length < minFileSize) :
    (bodyStage w fs url filePath etagFilePath tempFilePath resp).1 = fs
      ∧ (bodyStage w fs url filePath etagFilePath tempFilePath resp).2 ≠ none := by
  unfold bodyStage
  cases resp.BodyErr with
  | some e => simp
  | none =>
    simp only
    rw [if_pos h]
    simp

theorem downloadAndExtract_of_200 (w : World) (fs : FS)
    (url filePath etagFileName : String) (resp : HTTPResponse)
    (hreq : w.newRequest url = none)
    (hdo : w.httpDo url (requestHeader w fs (filepathJoin w.App.DataDir
      (etagFileName ++ ".etag"))) = Except.ok resp)
    (hstatus : resp.StatusCode = 200) :
    downloadAndExtract w fs url filePath etagFileName =
      if resp.ContentType ≠ ""
          ∧ hasSub (resp.ContentType.data.map Char.toLower) "text/html".data = true then
        (fs, some (UpdateError.htmlContentType resp.ContentType))
      else
        match osCreate w.faults fs (filePath ++ ".tmp_download") with
        | (fs, some e) => (fs, some (UpdateError.createTemp e))
        | (fs, none) =>
          match bodyStage w fs url filePath
              (filepathJoin w.App.DataDir (etagFileName ++ ".etag"))
              (filePath ++ ".tmp_download") resp with
          | (fs, err) => (osRemove w.faults fs (filePath ++ ".tmp_download"), err) := by
  have h304 : ¬ resp.StatusCode = 304 := by omega
  have h200 : ¬ resp.StatusCode ≠ 200 := by simp [hstatus]
  unfold downloadAndExtract
  simp only [hreq, hdo]
  rw [if_neg h304, if_neg h200]

/-- C15: for every response with status 200 whose body is shorter than
2097152 bytes `downloadAndExtract` returns an error, and neither the canonical
file nor the ETag sidecar is changed or even targeted by a file-system call of
the run; a body of exactly 2097152 bytes is not rejected by the size check. -/
theorem downloadAndExtract_minimum_size (w : World) (fs : FS)
    (url filePath etagFileName : String) (resp : HTTPResponse)
    (hreq : w.newRequest url = none)
    (hdo : w.httpDo url (requestHeader w fs (filepathJoin w.App.DataDir
      (etagFileName ++ ".etag"))) = Except.ok resp)
    (hstatus : resp.StatusCode = 200) :
    (resp.Body.length < 2097152 →
      (downloadAndExtract w fs url filePath etagFileName).2 ≠ none
      ∧ (downloadAndExtract w fs url filePath etagFileName).1.files filePath
          = fs.files filePath
      ∧ (downloadAndExtract w fs url filePath etagFileName).1.touching filePath
          = fs.touching filePath
      ∧ (downloadAndExtract w fs url filePath etagFileName).1.files
          (filepathJoin w.App.DataDir (etagFileName ++ ".etag"))
          = fs.files (filepathJoin w.App.DataDir (etagFileName ++ ".etag"))
      ∧ (downloadAndExtract w fs url filePath etagFileName).1.touching
          (filepathJoin w.App.DataDir (etagFileName ++ ".etag"))
          = fs.touching (filepathJoin w.App.DataDir (etagFileName ++ ".etag")))
    ∧ (resp.Body.length = 2097152 → ∀ n : Nat,
        (downloadAndExtract w fs url filePath etagFileName).2
          ≠ some (UpdateError.tooSmall n)) := by
  have hmin : minFileSize = 2097152 := by decide
  rw [downloadAndExtract_of_200 w fs url filePath etagFileName resp hreq hdo hstatus]
  by_cases hct : resp.ContentType ≠ ""
      ∧ hasSub (resp.ContentType.data.map Char.toLower) "text/html".data = true
  · rw [if_pos hct]
    constructor
    · intro _
      exact ⟨by simp, rfl, rfl, rfl, rfl⟩
    · intro _ n
      simp
  · rw [if_neg hct]
    have hc1 := osCreate_frame w.faults fs (filePath ++ ".tmp_download") filePath
      (tmpDownload_ne filePath)
    have hc2 := osCreate_frame w.faults fs (filePath ++ ".tmp_download")
      (filepathJoin w.App.DataDir (etagFileName ++ ".etag"))
      (etag_ne_tmpDownload _ _ _)
    cases hcr : osCreate w.faults fs (filePath ++ ".tmp_download") with
    | mk fs1 err1 =>
      rw [hcr] at hc1 hc2
      cases err1 with
      | some e =>
        constructor
        · intro _
          exact ⟨by simp, hc1.1, hc1.2, hc2.1, hc2.2⟩
        · intro _ n
          simp
      | none =>
        simp only
        constructor
        · intro hlt
          have hb := bodyStage_of_small w fs1 url filePath
            (filepathJoin w.App.DataDir (etagFileName ++ ".etag"))
            (filePath ++ ".tmp_download") resp (by omega)
          have hr1 := osRemove_frame w.faults fs1 (filePath ++ ".tmp_download") filePath
            (tmpDownload_ne filePath)
          have hr2 := osRemove_frame w.faults fs1 (filePath ++ ".tmp_download")
            (filepathJoin w.App.DataDir (etagFileName ++ ".etag"))
            (etag_ne_tmpDownload _ _ _)
          cases hbr : bodyStage w fs1 url filePath
              (filepathJoin w.App.DataDir (etagFileName ++ ".etag"))
              (filePath ++ ".tmp_download") resp with
          | mk fs2 err2 =>
            rw [hbr] at hb
            simp only at hb ⊢
            rw [hb.1]
            exact ⟨hb.2, hr1.1.trans hc1.1, hr1.2.trans hc1.2, hr2.1.trans hc2.1,
              hr2.2.trans hc2.2⟩
        · intro heq n
          have hb := bodyStage_not_tooSmall w fs1 url filePath
            (filepathJoin w.App.DataDir (etagFileName ++ ".etag"))
            (filePath ++ ".tmp_download") resp n (by omega)
          cases hbr : bodyStage w fs1 url filePath
              (filepathJoin w.App.DataDir (etagFileName ++ ".etag"))
              (filePath ++ ".tmp_download") resp with
          | mk fs2 err2 =>
            rw [hbr] at hb
            exact hb

/-- Witness of `downloadAndExtract_minimum_size`: a 14-byte HTML page answered
with status 200 is rejected, and the installed file and its sidecar stay. -/
theorem downloadAndExtract_minimum_size_witness :
    (downloadAndExtract errorPageWorld installedFS geoCNSource.2.URL "data/GeoCN.mmdb"
        "GeoCN.mmdb").2 ≠ none
    ∧ (downloadAndExtract errorPageWorld installedFS geoCNSource.2.URL "data/GeoCN.mmdb"
        "GeoCN.mmdb").1.files "data/GeoCN.mmdb" = some [1, 2, 3] :=
  have h := (downloadAndExtract_minimum_size errorPageWorld installedFS geoCNSource.2.URL
    "data/GeoCN.mmdb" "GeoCN.mmdb" _ rfl rfl rfl).1 (by decide)
  ⟨h.1, h.2.1.trans (by decide)⟩

/-- C16: for every response with status 304 `downloadAndExtract` returns
`errNotModified` and leaves the file system as it was, with no file-system
call recorded; and when the download of an entry returns `errNotModified`,
`update` logs the entry as up to date, keeps the open readers and does not
call `ReloadDBs`. -/
theorem downloadAndExtract_not_modified (w : World) (fs : FS)
    (url filePath etagFileName : String) (resp : HTTPResponse)
    (hreq : w.newRequest url = none)
    (hdo : w.httpDo url (requestHeader w fs (filepathJoin w.App.DataDir
      (etagFileName ++ ".etag"))) = Except.ok resp)
    (hstatus : resp.StatusCode = 304) :
    downloadAndExtract w fs url filePath etagFileName = (fs, some UpdateError.notModified)
    ∧ (∀ (st : UpdateState) (fileName : String) (source : Source),
        downloadSource w st.fs fileName source = (st.fs, some UpdateError.notModified) →
        updateOne w st (fileName, source)
          = { st with events := st.events ++ [UpdateEvent.upToDate fileName] }) := by
  constructor
  · unfold downloadAndExtract
    simp only [hreq, hdo, hstatus, if_true]
  · intro st fileName source hd
    unfold updateOne
    simp only [hd, if_true]

/-- Witness of `downloadAndExtract_not_modified`: the server answers 304 for
GeoCN.mmdb; `update` logs "up to date" and keeps the readers. -/
theorem downloadAndExtract_not_modified_witness :
    (downloadAndExtract notModifiedWorld installedFS geoCNSource.2.URL "data/GeoCN.mmdb"
        "GeoCN.mmdb").2 = some UpdateError.notModified
    ∧ (updateOne notModifiedWorld installedState geoCNSource).events
        = [UpdateEvent.upToDate "GeoCN.mmdb"]
    ∧ (updateOne notModifiedWorld installedState geoCNSource).db = geoip.liveState :=
  have h := downloadAndExtract_not_modified notModifiedWorld installedFS geoCNSource.2.URL
    "data/GeoCN.mmdb" "GeoCN.mmdb" _ rfl rfl rfl
  have h' := h.2 installedState "GeoCN.mmdb" geoCNSource.2 h.1
  ⟨congrArg Prod.snd h.1, congrArg UpdateState.events h', congrArg UpdateState.db h'⟩

end updater

/-! ## Claims about `validateFileFormat` -/

namespace updater

theorem isPrefixOf_iff_append {α : Type} [BEq α] [LawfulBEq α] (sub s : List α) :
    sub.isPrefixOf s = true ↔ ∃ t, s = sub ++ t := by
  induction sub generalizing s with
  | nil => simp
  | cons a sub ih =>
    cases s with
    | nil => simp
    | cons b s =>
      simp only [List.isPrefixOf, Bool.and_eq_true, beq_iff_eq, ih, List.cons_append,
        List.cons.injEq]
      constructor
      · rintro ⟨rfl, t, rfl⟩
        exact ⟨t, rfl, rfl⟩
      · rintro ⟨t, rfl, rfl⟩
        exact ⟨rfl, t, rfl⟩

theorem hasSub_iff {α : Type} [BEq α] [LawfulBEq α] (s sub : List α) :
    hasSub s sub = true ↔ ∃ pre post, s = pre ++ sub ++ post := by
  induction s with
  | nil =>
    unfold hasSub
    constructor
    · intro h
      have : sub = [] := by simpa using h
      exact ⟨[], [], by simp [this]⟩
    · rintro ⟨pre, post, h⟩
      have h' := congrArg List.length h
      simp only [List.length_nil, List.length_append] at h'
      have : sub = [] := List.length_eq_zero.mp (by omega)
      simp [this]
  | cons a s ih =>
    unfold hasSub
    rw [Bool.or_eq_true, isPrefixOf_iff_append, ih]
    constructor
    · rintro (⟨t, h⟩ | ⟨pre, post, h⟩)
      · exact ⟨[], t, by simpa using h⟩
      · exact ⟨a :: pre, post, by simp [h]⟩
    · rintro ⟨pre, post, h⟩
      cases pre with
      | nil => exact Or.inl ⟨post, by simpa using h⟩
      | cons b pre =>
        simp only [List.cons_append, List.cons.injEq] at h
        exact Or.inr ⟨pre, post, h.2⟩

theorem hasSub_map_iff (f : Nat → Nat) (l sub : List Nat) :
    hasSub (l.map f) sub = true ↔
      ∃ pre mid post, l = pre ++ mid ++ post ∧ mid.map f = sub := by
  rw [hasSub_iff]
  constructor
  · rintro ⟨pre, post, h⟩
    obtain ⟨l₁, post', h₁, h₂, -⟩ := List.map_eq_append_iff.mp h
    obtain ⟨pre', mid, h₃, -, h₄⟩ := List.map_eq_append_iff.mp h₂
    exact ⟨pre', mid, post', by rw [h₁, h₃], h₄⟩
  · rintro ⟨pre, mid, post, rfl, rfl⟩
    exact ⟨pre.map f, post.map f, by simp⟩

theorem hasSub_head_mem {α : Type} [BEq α] [LawfulBEq α] (s : List α) (a : α) (t : List α)
    (h : hasSub s (a :: t) = true) : a ∈ s := by
  obtain ⟨pre, post, rfl⟩ := (hasSub_iff s (a :: t)).mp h
  simp

/-- The HTML sniff of lines 318-319, in terms of the occurrences of the two
signatures in the first `min(512, len(data))` bytes. -/
theorem sniff_iff (data : Bytes) :
    (hasSub (sniffWindow data) (asciiBytes "<html")
        || hasSub (sniffWindow data) (asciiBytes "<!doctype")) = true ↔
      ∃ pre mid post, data.take (min 512 data.length) = pre ++ mid ++ post
        ∧ (mid.map lowerByte = asciiBytes "<html"
          ∨ mid.map lowerByte = asciiBytes "<!doctype") := by
  unfold sniffWindow
  rw [Bool.or_eq_true, hasSub_map_iff, hasSub_map_iff]
  constructor
  · rintro (⟨pre, mid, post, h, hm⟩ | ⟨pre, mid, post, h, hm⟩)
    · exact ⟨pre, mid, post, h, Or.inl hm⟩
    · exact ⟨pre, mid, post, h, Or.inr hm⟩
  · rintro ⟨pre, mid, post, h, hm | hm⟩
    · exact Or.inl ⟨pre, mid, post, h, hm⟩
    · exact Or.inr ⟨pre, mid, post, h, hm⟩

/-- C17: for data of at least 16 bytes, `validateFileFormat` returns the HTML
error when the first `min(512, len(data))` bytes contain a run of bytes that
lowercases to "<html" or to "<!doctype", whatever the URL; when they contain
no such run, the HTML error is not returned, whatever follows byte 512. -/
theorem validateFileFormat_html_sniffing (data : Bytes) (url : String)
    (hlen : 16 ≤ data.length) :
    ((∃ pre mid post, data.take (min 512 data.length) = pre ++ mid ++ post
        ∧ (mid.map lowerByte = asciiBytes "<html"
          ∨ mid.map lowerByte = asciiBytes "<!doctype")) →
      validateFileFormat data url = some FormatError.html)
    ∧ ((¬ ∃ pre mid post, data.take (min 512 data.length) = pre ++ mid ++ post
        ∧ (mid.map lowerByte = asciiBytes "<html"
          ∨ mid.map lowerByte = asciiBytes "<!doctype")) →
      validateFileFormat data url ≠ some FormatError.html) := by
  have hsmall : ¬ data.length < 16 := by omega
  constructor
  · intro h
    unfold validateFileFormat
    rw [if_neg hsmall, if_pos ((sniff_iff data).mpr h)]
  · intro h
    have hno : ¬ (hasSub (sniffWindow data) (asciiBytes "<html")
        || hasSub (sniffWindow data) (asciiBytes "<!doctype")) = true :=
      fun hs => h ((sniff_iff data).mp hs)
    unfold validateFileFormat
    rw [if_neg hsmall, if_neg hno]
    split
    · split <;> simp
    · simp

set_option maxRecDepth 100000 in
/-- Witness of `validateFileFormat_html_sniffing`: sixteen bytes that start
with "<HTML>" in capitals are rejected as HTML, and a page whose "<html>"
starts at byte 512 is accepted. -/
theorem validateFileFormat_html_sniffing_witness :
    validateFileFormat capitalHtmlPage "https://example.com/GeoCN.mmdb"
      = some FormatError.html
    ∧ validateFileFormat lateHtmlPage "https://example.com/GeoCN.mmdb" = none :=
  ⟨(validateFileFormat_html_sniffing capitalHtmlPage "https://example.com/GeoCN.mmdb"
    (by decide)).1
    ⟨[], [60, 72, 84, 77, 76], [62, 32, 32, 32, 32, 32, 32, 32, 32, 32, 32],
      by decide, Or.inl (by decide)⟩, by decide⟩

/-- C18: data shorter than 16 bytes is always rejected. For data of at least
16 bytes with no HTML signature in its first 512 bytes, `validateFileFormat`
returns an error exactly when the URL is an archive source and the first two
bytes are not 0x1f 0x8b; for any other URL it returns nil, whether or not the
header heuristic of lines 331-345 finds its three zero bytes. -/
theorem validateFileFormat_by_source_kind (data : Bytes) (url : String) :
    (data.length < 16 → validateFileFormat data url = some FormatError.tooSmall)
    ∧ (16 ≤ data.length →
        (¬ ∃ pre mid post, data.take (min 512 data.length) = pre ++ mid ++ post
          ∧ (mid.map lowerByte = asciiBytes "<html"
            ∨ mid.map lowerByte = asciiBytes "<!doctype")) →
        (validateFileFormat data url ≠ none ↔
          isTarGzURL url = true ∧ (data.getD 0 0 ≠ 0x1f ∨ data.getD 1 0 ≠ 0x8b))
        ∧ (validateFileFormat data url ≠ none →
            validateFileFormat data url = some FormatError.gzipMagic)
        ∧ (isTarGzURL url = false → validateFileFormat data url = none)) := by
  constructor
  · intro h
    unfold validateFileFormat
    rw [if_pos h]
  · intro hlen h
    have hsmall : ¬ data.length < 16 := by omega
    have hno : ¬ (hasSub (sniffWindow data) (asciiBytes "<html")
        || hasSub (sniffWindow data) (asciiBytes "<!doctype")) = true :=
      fun hs => h ((sniff_iff data).mp hs)
    have h2 : data.length ≥ 2 := by omega
    unfold validateFileFormat
    rw [if_neg hsmall, if_neg hno]
    by_cases hu : isTarGzURL url = true
    · rw [if_pos hu]
      by_cases hm : data.getD 0 0 ≠ 0x1f ∨ data.getD 1 0 ≠ 0x8b
      · rw [if_pos ⟨h2, hm⟩]
        exact ⟨⟨fun _ => ⟨hu, hm⟩, fun _ => by simp⟩, fun _ => rfl,
          fun hf => absurd hu (by simp [hf])⟩
      · rw [if_neg (fun hh => hm hh.2)]
        exact ⟨⟨fun hh => absurd rfl hh, fun hh => absurd hh.2 hm⟩, fun hh => absurd rfl hh,
          fun hf => absurd hu (by simp [hf])⟩
    · rw [if_neg hu]
      exact ⟨⟨fun hh => absurd rfl hh, fun hh => absurd hh.1 hu⟩, fun hh => absurd rfl hh,
        fun _ => rfl⟩

end updater

/-! ## Claims about `extractMmdbFromTarGz` and the temporary files -/

namespace updater

theorem extractLoop_skip (f : Faults) (destPath : String) (endErr : Option String) (fs : FS)
    (pre rest : List TarEntry) (h : ∀ e ∈ pre, isMmdbEntry e = false) :
    extractLoop f destPath endErr fs (pre ++ rest) = extractLoop f destPath endErr fs rest := by
  induction pre with
  | nil => rfl
  | cons a pre ih =>
    have ha : isMmdbEntry a = false := h a (List.mem_cons_self a pre)
    have hstep : extractLoop f destPath endErr fs (a :: (pre ++ rest))
        = extractLoop f destPath endErr fs (pre ++ rest) := by
      simp only [extractLoop, ha, Bool.false_eq_true, if_false]
    rw [List.cons_append, hstep]
    exact ih fun e he => h e (List.mem_cons_of_mem a he)

theorem extractLoop_no_match (f : Faults) (destPath : String) (fs : FS)
    (entries : List TarEntry) (h : ∀ e ∈ entries, isMmdbEntry e = false) :
    extractLoop f destPath none fs entries = (fs, some ExtractError.notFound) := by
  have := extractLoop_skip f destPath none fs entries [] h
  rw [List.append_nil] at this
  rw [this]
  rfl

theorem extractLoop_match (f : Faults) (destPath : String) (endErr : Option String) (fs : FS)
    (h : TarEntry) (post : List TarEntry) (hm : isMmdbEntry h = true) (hd : h.DataErr = none)
    (hc : f.create (destPath ++ ".tmp") = none)
    (hw : f.write (destPath ++ ".tmp") h.Data = none)
    (hr : f.rename (destPath ++ ".tmp") destPath = none) :
    (extractLoop f destPath endErr fs (h :: post)).2 = none
      ∧ (extractLoop f destPath endErr fs (h :: post)).1.files destPath = some h.Data
      ∧ (extractLoop f destPath endErr fs (h :: post)).1.files (destPath ++ ".tmp") = none := by
  have hne : destPath ++ ".tmp" ≠ destPath := append_ne_self destPath ".tmp" (by decide)
  unfold extractLoop
  simp [hm, osCreate, writeTo, osRename, hc, hw, hr, hd, FS.put, FS.del, FS.record, hne]

/-- C19: on an archive that the gzip and tar readers decode into a sequence of
entries ending in `io.EOF`, with no failing file-system call,
`extractMmdbFromTarGz` writes to `destPath` exactly the data of the first
entry that is a regular file with a name ending in ".mmdb", whatever entries
follow it, and leaves no `destPath + ".tmp"` behind; when no entry matches it
returns ".mmdb file not found in archive" and leaves the file system as it was. -/
theorem extractMmdbFromTarGz_first_match (w : World) (fs : FS) (tarGzPath destPath : String)
    (content : Bytes) (entries : List TarEntry)
    (hfile : fs.files tarGzPath = some content)
    (hopen : w.faults.openFile tarGzPath = none)
    (hread : w.faults.read tarGzPath = none)
    (hgzip : w.gzipNewReader content = none)
    (htar : w.tarEntries content = { entries := entries, endErr := none }) :
    (∀ (pre : List TarEntry) (h : TarEntry) (post : List TarEntry),
        entries = pre ++ h :: post → (∀ e ∈ pre, isMmdbEntry e = false) →
        isMmdbEntry h = true → h.DataErr = none →
        w.faults.create (destPath ++ ".tmp") = none →
        w.faults.write (destPath ++ ".tmp") h.Data = none →
        w.faults.rename (destPath ++ ".tmp") destPath = none →
        (extractMmdbFromTarGz w fs tarGzPath destPath).2 = none
        ∧ (extractMmdbFromTarGz w fs tarGzPath destPath).1.files destPath = some h.Data
        ∧ (extractMmdbFromTarGz w fs tarGzPath destPath).1.files (destPath ++ ".tmp") = none)
    ∧ ((∀ e ∈ entries, isMmdbEntry e = false) →
        extractMmdbFromTarGz w fs tarGzPath destPath = (fs, some ExtractError.notFound)) := by
  have heq : extractMmdbFromTarGz w fs tarGzPath destPath
      = extractLoop w.faults destPath none fs entries := by
    unfold extractMmdbFromTarGz osOpen
    simp [hfile, hopen, hread, hgzip, htar]
  rw [heq]
  constructor
  · intro pre h post he hpre hm hd hc hw hr
    rw [he, extractLoop_skip w.faults destPath none fs pre (h :: post) hpre]
    exact extractLoop_match w.faults destPath none fs h post hm hd hc hw hr
  · intro hno
    exact extractLoop_no_match w.faults destPath fs entries hno

/-- Witness of `extractMmdbFromTarGz_first_match`: of a text file and two
datasets, the first dataset is extracted. -/
theorem extractMmdbFromTarGz_first_match_witness :
    (extractMmdbFromTarGz sampleArchiveWorld archiveFS "data/GeoLite2-City.mmdb.tmp_download"
        "data/GeoLite2-City.mmdb.tmp_final").2 = none
    ∧ (extractMmdbFromTarGz sampleArchiveWorld archiveFS "data/GeoLite2-City.mmdb.tmp_download"
        "data/GeoLite2-City.mmdb.tmp_final").1.files "data/GeoLite2-City.mmdb.tmp_final"
        = some [1, 2, 3] :=
  have h := (extractMmdbFromTarGz_first_match sampleArchiveWorld archiveFS
    "data/GeoLite2-City.mmdb.tmp_download" "data/GeoLite2-City.mmdb.tmp_final" [31, 139]
    sampleEntries (by decide) rfl rfl rfl rfl).1
    [{ Typeflag := tarTypeReg, Name := "GeoLite2-City_20240101/LICENSE.txt", Data := [76] }]
    { Typeflag := tarTypeReg, Name := "GeoLite2-City_20240101/GeoLite2-City.mmdb",
      Data := [1, 2, 3] }
    [{ Typeflag := tarTypeReg, Name := "GeoLite2-City_20240101/other.mmdb", Data := [9] }]
    rfl (by decide) (by decide) rfl rfl rfl rfl
  ⟨h.1, h.2.1⟩

theorem gzipBody_length : gzipBody.length = 2097152 := by
  rw [gzipBody, List.length_cons, List.length_cons, List.length_replicate]

theorem gzipBody_mem (b : Nat) (h : b ∈ gzipBody) : b = 0x1f ∨ b = 0x8b ∨ b = 0 := by
  rw [gzipBody, List.mem_cons, List.mem_cons] at h
  rcases h with h | h | h
  · exact Or.inl h
  · exact Or.inr (Or.inl h)
  · exact Or.inr (Or.inr (List.eq_of_mem_replicate h))

theorem gzipBody_magic : gzipBody.getD 0 0 = 0x1f ∧ gzipBody.getD 1 0 = 0x8b := by
  constructor
  · rw [gzipBody, List.getD_cons_zero]
  · rw [gzipBody, List.getD_cons_succ, List.getD_cons_zero]

theorem sniffWindow_gzipBody (sig : Bytes) :
    hasSub (sniffWindow gzipBody) (60 :: sig) = false := by
  cases hs : hasSub (sniffWindow gzipBody) (60 :: sig) with
  | false => rfl
  | true =>
    have hmem := hasSub_head_mem _ _ _ hs
    unfold sniffWindow at hmem
    obtain ⟨b, hb, hlow⟩ := List.mem_map.mp hmem
    have hb' := gzipBody_mem b (List.mem_of_mem_take hb)
    rcases hb' with h | h | h <;> rw [h] at hlow <;> revert hlow <;> decide

theorem validateFileFormat_gzipBody (url : String) :
    validateFileFormat gzipBody url = none := by
  have h1 : hasSub (sniffWindow gzipBody) (asciiBytes "<html") = false :=
    sniffWindow_gzipBody _
  have h2 : hasSub (sniffWindow gzipBody) (asciiBytes "<!doctype") = false :=
    sniffWindow_gzipBody _
  have h0 : gzipBody.getD 0 0 = 0x1f := gzipBody_magic.1
  have h3 : gzipBody.getD 1 0 = 0x8b := gzipBody_magic.2
  unfold validateFileFormat
  rw [if_neg (by rw [gzipBody_length]; omega), h1, h2]
  simp only [Bool.or_self, Bool.false_eq_true, if_false, h0, h3, ne_eq, not_true_eq_false,
    or_self, and_false, ite_self]

end updater

namespace updater

theorem isTarGzURL_archiveURL : isTarGzURL archiveURL = true := by decide

theorem osRemove_same (f : Faults) (fs : FS) (p : String) (h : f.remove p = none) :
    (osRemove f fs p).files p = none := by
  unfold osRemove
  simp [h, FS.del, FS.record]

theorem extractLoop_rename_fault (f : Faults) (destPath : String) (endErr : Option String)
    (fs : FS) (h : TarEntry) (post : List TarEntry) (e : String)
    (hm : isMmdbEntry h = true) (hd : h.DataErr = none)
    (hc : f.create (destPath ++ ".tmp") = none)
    (hw : f.write (destPath ++ ".tmp") h.Data = none)
    (hr : f.rename (destPath ++ ".tmp") destPath = some e) :
    (extractLoop f destPath endErr fs (h :: post)).2 = some (ExtractError.lib e)
      ∧ (extractLoop f destPath endErr fs (h :: post)).1.files (destPath ++ ".tmp")
          = some h.Data := by
  simp [extractLoop, hm, osCreate, writeTo, osRename, hc, hw, hr, hd, FS.put, FS.record]

theorem bodyStage_extract_error (w : World) (fs : FS)
    (url filePath etagFilePath tempFilePath : String) (resp : HTTPResponse) (e : ExtractError)
    (hb : resp.BodyErr = none) (hl : minFileSize ≤ resp.Body.length)
    (hv : validateFileFormat resp.Body url = none)
    (hw : w.faults.write tempFilePath resp.Body = none)
    (hu : isTarGzURL url = true)
    (he : (extractMmdbFromTarGz w
        ((fs.record (FsOp.write tempFilePath)).put tempFilePath resp.Body) tempFilePath
        (filePath ++ ".tmp_final")).2 = some e) :
    bodyStage w fs url filePath etagFilePath tempFilePath resp =
      (osRemove w.faults (extractMmdbFromTarGz w
        ((fs.record (FsOp.write tempFilePath)).put tempFilePath resp.Body) tempFilePath
        (filePath ++ ".tmp_final")).1 (filePath ++ ".tmp_final"),
       some (UpdateError.extract e)) := by
  have hlen : ¬ resp.Body.length < minFileSize := by omega
  unfold bodyStage
  simp only [hb, hv, if_neg hlen]
  unfold writeTo
  simp only [hw]
  unfold installStage stageFile
  rw [if_pos hu]
  cases hx : extractMmdbFromTarGz w
      ((fs.record (FsOp.write tempFilePath)).put tempFilePath resp.Body) tempFilePath
      (filePath ++ ".tmp_final") with
  | mk fs3 e3 =>
    rw [hx] at he
    simp only at he
    rw [he]

theorem extract_renameFaultWorld (fs : FS) :
    (extractMmdbFromTarGz renameFaultWorld
      ((fs.record (FsOp.write "data/GeoLite2-City.mmdb.tmp_download")).put
        "data/GeoLite2-City.mmdb.tmp_download" gzipBody)
      "data/GeoLite2-City.mmdb.tmp_download" "data/GeoLite2-City.mmdb.tmp_final").2
      = some (ExtractError.lib "rename: permission denied")
    ∧ (extractMmdbFromTarGz renameFaultWorld
      ((fs.record (FsOp.write "data/GeoLite2-City.mmdb.tmp_download")).put
        "data/GeoLite2-City.mmdb.tmp_download" gzipBody)
      "data/GeoLite2-City.mmdb.tmp_download" "data/GeoLite2-City.mmdb.tmp_final").1.files
        "data/GeoLite2-City.mmdb.tmp_final.tmp" = some [1, 2, 3] := by
  have hp3 : "data/GeoLite2-City.mmdb.tmp_final" ++ ".tmp"
      = "data/GeoLite2-City.mmdb.tmp_final.tmp" := by decide
  have hopen : osOpen renameFaultWorld.faults
      ((fs.record (FsOp.write "data/GeoLite2-City.mmdb.tmp_download")).put
        "data/GeoLite2-City.mmdb.tmp_download" gzipBody)
      "data/GeoLite2-City.mmdb.tmp_download" = Except.ok (gzipBody, none) := by
    unfold osOpen
    have h1 : renameFaultWorld.faults.openFile "data/GeoLite2-City.mmdb.tmp_download" = none :=
      rfl
    have h2 : renameFaultWorld.faults.read "data/GeoLite2-City.mmdb.tmp_download" = none := rfl
    have h3 : ((fs.record (FsOp.write "data/GeoLite2-City.mmdb.tmp_download")).put
        "data/GeoLite2-City.mmdb.tmp_download" gzipBody).files
        "data/GeoLite2-City.mmdb.tmp_download" = some gzipBody := by
      unfold FS.put
      simp only [if_true]
    simp only [h1, h2, h3]
  have hg : renameFaultWorld.gzipNewReader gzipBody = none := rfl
  have ht : renameFaultWorld.tarEntries gzipBody
      = { entries :=
          [{ Typeflag := tarTypeReg, Name := "GeoLite2-City_20240101/LICENSE.txt",
              Data := [76] }] ++
           { Typeflag := tarTypeReg, Name := "GeoLite2-City_20240101/GeoLite2-City.mmdb",
             Data := [1, 2, 3] } ::
           [{ Typeflag := tarTypeReg, Name := "GeoLite2-City_20240101/other.mmdb",
              Data := [9] }] } := rfl
  unfold extractMmdbFromTarGz
  simp only [hopen, hg, ht]
  rw [extractLoop_skip _ _ _ _ _ _ (by decide)]
  have h := extractLoop_rename_fault renameFaultWorld.faults
    "data/GeoLite2-City.mmdb.tmp_final" none
    ((fs.record (FsOp.write "data/GeoLite2-City.mmdb.tmp_download")).put
      "data/GeoLite2-City.mmdb.tmp_download" gzipBody)
    { Typeflag := tarTypeReg, Name := "GeoLite2-City_20240101/GeoLite2-City.mmdb",
      Data := [1, 2, 3] }
    [{ Typeflag := tarTypeReg, Name := "GeoLite2-City_20240101/other.mmdb", Data := [9] }]
    "rename: permission denied" (by decide) rfl rfl rfl (by decide)
  rw [hp3] at h
  exact h

theorem bodyStage_renameFaultWorld (fs : FS) (etagFilePath : String) :
    bodyStage renameFaultWorld fs archiveURL "data/GeoLite2-City.mmdb" etagFilePath
        "data/GeoLite2-City.mmdb.tmp_download"
        { StatusCode := 200, Status := "200 OK", Body := gzipBody }
      = (osRemove renameFaultWorld.faults (extractMmdbFromTarGz renameFaultWorld
          ((fs.record (FsOp.write "data/GeoLite2-City.mmdb.tmp_download")).put
            "data/GeoLite2-City.mmdb.tmp_download" gzipBody)
          "data/GeoLite2-City.mmdb.tmp_download" "data/GeoLite2-City.mmdb.tmp_final").1
          "data/GeoLite2-City.mmdb.tmp_final",
        some (UpdateError.extract (ExtractError.lib "rename: permission denied"))) := by
  have hp2 : "data/GeoLite2-City.mmdb" ++ ".tmp_final"
      = "data/GeoLite2-City.mmdb.tmp_final" := by decide
  have hmin : minFileSize ≤ gzipBody.length := by
    rw [gzipBody_length]
    decide
  have hbody := bodyStage_extract_error renameFaultWorld fs
    archiveURL "data/GeoLite2-City.mmdb" etagFilePath
    "data/GeoLite2-City.mmdb.tmp_download"
    { StatusCode := 200, Status := "200 OK", Body := gzipBody }
    (ExtractError.lib "rename: permission denied") rfl hmin
    (validateFileFormat_gzipBody _) rfl isTarGzURL_archiveURL
  rw [hp2] at hbody
  exact hbody (extract_renameFaultWorld fs).1

theorem downloadAndExtract_of_created (w : World) (fs : FS)
    (url filePath etagFileName : String) (resp : HTTPResponse) (fs1 fs2 : FS)
    (err : Option UpdateError)
    (hreq : w.newRequest url = none)
    (hdo : w.httpDo url (requestHeader w fs (filepathJoin w.App.DataDir
      (etagFileName ++ ".etag"))) = Except.ok resp)
    (hstatus : resp.StatusCode = 200) (hct : resp.ContentType = "")
    (hcr : osCreate w.faults fs (filePath ++ ".tmp_download") = (fs1, none))
    (hb : bodyStage w fs1 url filePath (filepathJoin w.App.DataDir (etagFileName ++ ".etag"))
      (filePath ++ ".tmp_download") resp = (fs2, err)) :
    downloadAndExtract w fs url filePath etagFileName
      = (osRemove w.faults fs2 (filePath ++ ".tmp_download"), err) := by
  rw [downloadAndExtract_of_200 w fs url filePath etagFileName resp hreq hdo hstatus,
    if_neg (fun h => h.1 hct), hcr]
  simp only
  rw [hb]

theorem downloadAndExtract_renameFaultWorld :
    downloadAndExtract renameFaultWorld emptyFS archiveURL
      "data/GeoLite2-City.mmdb" "GeoLite2-City.mmdb"
      = (osRemove renameFaultWorld.faults
          (osRemove renameFaultWorld.faults (extractMmdbFromTarGz renameFaultWorld
            ((((emptyFS.record (FsOp.create "data/GeoLite2-City.mmdb.tmp_download")).put
                "data/GeoLite2-City.mmdb.tmp_download" []).record
              (FsOp.write "data/GeoLite2-City.mmdb.tmp_download")).put
              "data/GeoLite2-City.mmdb.tmp_download" gzipBody)
            "data/GeoLite2-City.mmdb.tmp_download" "data/GeoLite2-City.mmdb.tmp_final").1
            "data/GeoLite2-City.mmdb.tmp_final")
          "data/GeoLite2-City.mmdb.tmp_download",
        some (UpdateError.extract (ExtractError.lib "rename: permission denied"))) :=
  downloadAndExtract_of_created renameFaultWorld emptyFS archiveURL
    "data/GeoLite2-City.mmdb" "GeoLite2-City.mmdb"
    (HTTPResponse.mk 200 "200 OK" "" [] gzipBody none) _ _ _ rfl rfl rfl rfl rfl
    (bodyStage_renameFaultWorld _ _)

/-- C20, evaluated on the code: the server answers the archive URL with a
2 MiB gzip body whose archive holds a dataset, and the rename of the
extractor's temp file onto "data/GeoLite2-City.mmdb.tmp_final" fails.
`downloadAndExtract` returns the error, removes ".tmp_download" and
".tmp_final", and leaves "data/GeoLite2-City.mmdb.tmp_final.tmp" on disk with
the extracted data: line 289 returns without the `os.Remove(tempDestPath)`
that line 282 has. -/
theorem downloadAndExtract_leaves_extractor_temp_file :
    emptyFS.files "data/GeoLite2-City.mmdb.tmp_final.tmp" = none
    ∧ (downloadAndExtract renameFaultWorld emptyFS archiveURL "data/GeoLite2-City.mmdb"
        "GeoLite2-City.mmdb").2
        = some (UpdateError.extract (ExtractError.lib "rename: permission denied"))
    ∧ (downloadAndExtract renameFaultWorld emptyFS archiveURL "data/GeoLite2-City.mmdb"
        "GeoLite2-City.mmdb").1.files "data/GeoLite2-City.mmdb.tmp_download" = none
    ∧ (downloadAndExtract renameFaultWorld emptyFS archiveURL "data/GeoLite2-City.mmdb"
        "GeoLite2-City.mmdb").1.files "data/GeoLite2-City.mmdb.tmp_final" = none
    ∧ (downloadAndExtract renameFaultWorld emptyFS archiveURL "data/GeoLite2-City.mmdb"
        "GeoLite2-City.mmdb").1.files "data/GeoLite2-City.mmdb.tmp_final.tmp"
        = some [1, 2, 3] := by
  have hrm : ∀ p, renameFaultWorld.faults.remove p = none := fun _ => rfl
  rw [downloadAndExtract_renameFaultWorld]
  refine ⟨rfl, rfl, ?_, ?_, ?_⟩
  · exact osRemove_same _ _ _ (hrm _)
  · rw [(osRemove_frame _ _ "data/GeoLite2-City.mmdb.tmp_download"
      "data/GeoLite2-City.mmdb.tmp_final" (by decide)).1]
    exact osRemove_same _ _ _ (hrm _)
  · rw [(osRemove_frame _ _ "data/GeoLite2-City.mmdb.tmp_download"
      "data/GeoLite2-City.mmdb.tmp_final.tmp" (by decide)).1,
      (osRemove_frame _ _ "data/GeoLite2-City.mmdb.tmp_final"
      "data/GeoLite2-City.mmdb.tmp_final.tmp" (by decide)).1]
    exact (extract_renameFaultWorld _).2

end updater

/-! ## Claims about superseded handles and the validation opener -/

namespace geoip

/-- C22, evaluated on the code: with live readers 0 (General), 1 (ASN) and
2 (override) and three files that open, `ReloadDBs` returns nil and installs
the new readers 3, 4 and 5; `Close` has been called on readers 0 and 1 only,
so the superseded override reader 2 is still open. `CloseDBs` on the same
state does call `Close` on reader 2. -/
theorem ReloadDBs_leaves_override_reader_open :
    liveState.cnRawDB = some ⟨2, "GeoCN.mmdb"⟩
    ∧ (ReloadDBs chinaLib liveState "data/GeoLite2-City.mmdb" "data/GeoLite2-ASN.mmdb"
        "data/GeoCN.mmdb").2 = none
    ∧ (ReloadDBs chinaLib liveState "data/GeoLite2-City.mmdb" "data/GeoLite2-ASN.mmdb"
        "data/GeoCN.mmdb").1.cityDB = some ⟨3, "data/GeoLite2-City.mmdb"⟩
    ∧ (ReloadDBs chinaLib liveState "data/GeoLite2-City.mmdb" "data/GeoLite2-ASN.mmdb"
        "data/GeoCN.mmdb").1.asnDB = some ⟨4, "data/GeoLite2-ASN.mmdb"⟩
    ∧ (ReloadDBs chinaLib liveState "data/GeoLite2-City.mmdb" "data/GeoLite2-ASN.mmdb"
        "data/GeoCN.mmdb").1.cnRawDB = some ⟨5, "data/GeoCN.mmdb"⟩
    ∧ (ReloadDBs chinaLib liveState "data/GeoLite2-City.mmdb" "data/GeoLite2-ASN.mmdb"
        "data/GeoCN.mmdb").1.closed = [1, 0]
    ∧ (ReloadDBs chinaLib liveState "data/GeoLite2-City.mmdb" "data/GeoLite2-ASN.mmdb"
        "data/GeoCN.mmdb").1.isClosed ⟨2, "GeoCN.mmdb"⟩ = false
    ∧ (CloseDBs liveState).isClosed ⟨2, "GeoCN.mmdb"⟩ = true := by
  decide

/-- C24, evaluated on the code, for the interleaving in which a `ReloadDBs`
call returns before the `Lookup` call starts. When the new General file cannot
be opened, `ReloadDBs` returns the error and leaves `asnDB` pointing at reader
1, on which it has called `Close`; the `Lookup` that follows sends its ASN
query to reader 1. When the new ASN file cannot be opened, `ReloadDBs` leaves
the new General reader 3 next to the override reader 2 of the generation
before; the `Lookup` that follows queries both. -/
theorem Lookup_after_failed_ReloadDBs :
    (ReloadDBs missingCityLib liveState "missing-City.mmdb" "GeoLite2-ASN.mmdb"
        "GeoCN.mmdb").2 ≠ none
    ∧ (ReloadDBs missingCityLib liveState "missing-City.mmdb" "GeoLite2-ASN.mmdb"
        "GeoCN.mmdb").1.closed = [1, 0]
    ∧ (Lookup missingCityLib (ReloadDBs missingCityLib liveState "missing-City.mmdb"
        "GeoLite2-ASN.mmdb" "GeoCN.mmdb").1 ipv4Sample).queries
        = [DBQuery.geocn 2, DBQuery.asn 1]
    ∧ (Lookup missingCityLib (ReloadDBs missingCityLib liveState "missing-City.mmdb"
        "GeoLite2-ASN.mmdb" "GeoCN.mmdb").1 ipv4Sample).err = none
    ∧ (ReloadDBs missingASNLib liveState "GeoLite2-City.mmdb" "missing-ASN.mmdb"
        "GeoCN.mmdb").2 ≠ none
    ∧ (ReloadDBs missingASNLib liveState "GeoLite2-City.mmdb" "missing-ASN.mmdb"
        "GeoCN.mmdb").1.cityDB = some ⟨3, "GeoLite2-City.mmdb"⟩
    ∧ (ReloadDBs missingASNLib liveState "GeoLite2-City.mmdb" "missing-ASN.mmdb"
        "GeoCN.mmdb").1.cnRawDB = some ⟨2, "GeoCN.mmdb"⟩
    ∧ (Lookup missingASNLib (ReloadDBs missingASNLib liveState "GeoLite2-City.mmdb"
        "missing-ASN.mmdb" "GeoCN.mmdb").1 ipv4Sample).queries
        = [DBQuery.city 3, DBQuery.geocn 2] := by
  decide

end geoip

namespace updater

/-- C23, evaluated on the code: for a candidate override file of database type
"GeoCN", `validateMmdbFile` returns the error of `geoip2.Open`, while
`openDBs` opens the same file with `maxminddb.Open` and installs it as
`cnRawDB`. -/
theorem validateMmdbFile_rejects_file_openDBs_opens :
    validateMmdbFile geoCNTypeWorld emptyFS "data/GeoCN.mmdb"
      = some "geoip2: reader does not support the GeoCN database type"
    ∧ validateMmdbFile geoCNTypeWorld emptyFS "data/GeoCN.mmdb.tmp_final"
      = some "geoip2: reader does not support the GeoCN database type"
    ∧ (geoip.openDBs geoip.geoCNTypeLib {} "data/GeoLite2-City.mmdb" "data/GeoLite2-ASN.mmdb"
        "data/GeoCN.mmdb").2 = none
    ∧ (geoip.openDBs geoip.geoCNTypeLib {} "data/GeoLite2-City.mmdb" "data/GeoLite2-ASN.mmdb"
        "data/GeoCN.mmdb").1.cnRawDB = some ⟨2, "data/GeoCN.mmdb"⟩ := by
  decide

end updater

namespace api

/-- C26, evaluated on the code: the address 240e::1 is not IPv4 and its text
"240e::1" has 7 bytes, so the slice `ip.String()[:19]` of line 151 is out of
bounds and `buildSuccessResponse` panics, whatever the records. For the
address 2001:db8:1:2:3:4:5:6, whose text has 20 bytes, the slice is in bounds
and Network is the first 19 bytes of the text followed by "/64", not the /64
network 2001:db8:1:2::/64. -/
theorem buildSuccessResponse_IPv6_slice :
    ipv6Short.To4 = none ∧ ipv6Short.String = "240e::1"
    ∧ (∀ (city : Option geoip2.City) (asn : Option geoip2.ASN)
        (cnResult : Option geoip.GeoCNResult),
        buildSuccessResponse ipv6Short city asn cnResult = none)
    ∧ ipv6Long.To4 = none ∧ ipv6Long.String = "2001:db8:1:2:3:4:5:6"
    ∧ (buildSuccessResponse ipv6Long none none none).map (·.Version) = some "IPv6"
    ∧ (buildSuccessResponse ipv6Long none none none).map (·.Network)
        = some "2001:db8:1:2:3:4:5:/64" := by
  refine ⟨by decide, by decide, ?_, by decide, by decide, by decide, by decide⟩
  intro city asn cnResult
  exact buildSuccessResponse_eq_none ipv6Short city asn cnResult (by decide)

end api

/-! ## What holds next to the defect of `ReloadDBs` -/

namespace geoip

theorem openDBs_closed (lib : Library) (s : DBState) (cityDBPath asnDBPath cnDBPath : String) :
    (openDBs lib s cityDBPath asnDBPath cnDBPath).1.closed = s.closed := by
  unfold openDBs newReader
  rcases lib.geoip2Open cityDBPath with ⟨okc, ec⟩
  rcases lib.geoip2Open asnDBPath with ⟨oka, ea⟩
  rcases lib.maxminddbOpen cnDBPath with ⟨okn, en⟩
  cases ec <;> cases ea <;> cases okc <;> cases oka <;> cases okn <;> rfl

/-- The readers `openDBs` installs when it returns nil are new allocations. -/
theorem openDBs_fresh (lib : Library) (s : DBState) (cityDBPath asnDBPath cnDBPath : String)
    (hok : (openDBs lib s cityDBPath asnDBPath cnDBPath).2 = none) (r : Reader)
    (hr : (openDBs lib s cityDBPath asnDBPath cnDBPath).1.cityDB = some r
      ∨ (openDBs lib s cityDBPath asnDBPath cnDBPath).1.asnDB = some r
      ∨ (openDBs lib s cityDBPath asnDBPath cnDBPath).1.cnRawDB = some r) :
    s.nextId ≤ r.id := by
  rcases hc : lib.geoip2Open cityDBPath with ⟨okc, ec⟩
  rcases ha : lib.geoip2Open asnDBPath with ⟨oka, ea⟩
  rcases hn : lib.maxminddbOpen cnDBPath with ⟨okn, en⟩
  cases ec with
  | some e => simp [openDBs, hc] at hok
  | none =>
    cases ea with
    | some e => simp [openDBs, hc, ha] at hok
    | none =>
      cases okc <;> cases oka <;> cases okn <;>
        simp only [openDBs, newReader, hc, ha, hn, if_true, Bool.false_eq_true, if_false,
          Option.some.injEq, false_or, or_false] at hr
      all_goals
        rcases hr with hr | hr | hr <;> cases hr <;> simp only [] <;> omega

/-- After a `ReloadDBs` that returns nil, from a state whose closed readers
and installed General and ASN readers were allocated before, none of the
installed readers has been closed. -/
theorem ReloadDBs_installed_readers_open (lib : Library) (s : DBState)
    (cityDBPath asnDBPath cnDBPath : String)
    (hclosed : ∀ id ∈ s.closed, id < s.nextId)
    (hcity : ∀ r, s.cityDB = some r → r.id < s.nextId)
    (hasn : ∀ r, s.asnDB = some r → r.id < s.nextId)
    (hok : (ReloadDBs lib s cityDBPath asnDBPath cnDBPath).2 = none) (r : Reader)
    (hr : (ReloadDBs lib s cityDBPath asnDBPath cnDBPath).1.cityDB = some r
      ∨ (ReloadDBs lib s cityDBPath asnDBPath cnDBPath).1.asnDB = some r
      ∨ (ReloadDBs lib s cityDBPath asnDBPath cnDBPath).1.cnRawDB = some r) :
    (ReloadDBs lib s cityDBPath asnDBPath cnDBPath).1.isClosed r = false := by
  obtain ⟨cityDB, asnDB, cnRawDB, closed, nextId⟩ := s
  have hred : ∀ s' : DBState, ReloadDBs lib ⟨cityDB, asnDB, cnRawDB, closed, nextId⟩
      cityDBPath asnDBPath cnDBPath =
        openDBs lib s' cityDBPath asnDBPath cnDBPath →
      s'.nextId = nextId → (∀ id ∈ s'.closed, id < nextId) →
      (ReloadDBs lib ⟨cityDB, asnDB, cnRawDB, closed, nextId⟩ cityDBPath asnDBPath
        cnDBPath).1.isClosed r = false := by
    intro s' heq hn hc
    rw [heq] at hok hr ⊢
    have hfresh := openDBs_fresh lib s' cityDBPath asnDBPath cnDBPath hok r hr
    unfold DBState.isClosed
    rw [openDBs_closed]
    cases hmem : s'.closed.contains r.id with
    | false => rfl
    | true =>
      have := hc r.id (by simpa using hmem)
      omega
  have hrel : ∀ s' : DBState, (match openDBs lib s' cityDBPath asnDBPath cnDBPath with
      | (s, some err) => (s, some err)
      | (s, none) => (s, none)) = openDBs lib s' cityDBPath asnDBPath cnDBPath := by
    intro s'
    rcases openDBs lib s' cityDBPath asnDBPath cnDBPath with ⟨s₂, e⟩
    cases e <;> rfl
  cases cityDB with
  | none =>
    cases asnDB with
    | none => exact hred _ (hrel _) rfl hclosed
    | some a =>
      refine hred _ (hrel _) rfl ?_
      intro id hid
      simp only [closeReader, List.mem_cons] at hid
      rcases hid with rfl | hid
      · exact hasn a rfl
      · exact hclosed id hid
  | some c =>
    cases asnDB with
    | none =>
      refine hred _ (hrel _) rfl ?_
      intro id hid
      simp only [closeReader, List.mem_cons] at hid
      rcases hid with rfl | hid
      · exact hcity c rfl
      · exact hclosed id hid
    | some a =>
      refine hred _ (hrel _) rfl ?_
      intro id hid
      simp only [closeReader, List.mem_cons] at hid
      rcases hid with rfl | rfl | hid
      · exact hasn a rfl
      · exact hcity c rfl
      · exact hclosed id hid

end geoip

/-! ## Claims about `mergeGeoCNData` as a function of the record -/

theorem insertKV_eq_self (k v : String) (l : List (String × String))
    (h : l.lookup k = some v) : insertKV k v l = l := by
  induction l with
  | nil => simp [List.lookup] at h
  | cons p rest ih =>
    obtain ⟨k', v'⟩ := p
    by_cases hk : k' = k
    · subst hk
      simp [List.lookup] at h
      simp [insertKV, h]
    · have hb : (k == k') = false := by
        simpa using fun h' => hk h'.symm
      simp only [List.lookup, hb] at h
      simp [insertKV, hk, ih h]

/-- Assigning the same two keys a second time leaves the entries as they are. -/
theorem insertKV_twice (k₁ k₂ v : String) (l : List (String × String)) :
    insertKV k₂ v (insertKV k₁ v (insertKV k₂ v (insertKV k₁ v l)))
      = insertKV k₂ v (insertKV k₁ v l) := by
  have h₂ : (insertKV k₂ v (insertKV k₁ v l)).lookup k₂ = some v := insertKV_lookup_self _ _ _
  have h₁ : (insertKV k₂ v (insertKV k₁ v l)).lookup k₁ = some v := by
    by_cases h : k₁ = k₂
    · subst h
      exact insertKV_lookup_self _ _ _
    · rw [insertKV_lookup_ne k₂ v k₁ _ h]
      exact insertKV_lookup_self _ _ _
  rw [insertKV_eq_self k₁ v _ h₁, insertKV_eq_self k₂ v _ h₂]

namespace geoip

theorem mergeGeoCNData_eq (c : geoip2.City) (r : GeoCNResult) :
    mergeGeoCNData c r =
      { City := if r.City ≠ "" then
            { Names := some (insertKV "en" r.City
                (insertKV "zh-CN" r.City (GoMap.entriesOrMake c.City.Names))) }
          else c.City,
        Continent := c.Continent,
        Country := if c.Country.IsoCode ≠ "CN" then
            { IsoCode := "CN", Names := some [("en", "China"), ("zh-CN", "中国")] }
          else c.Country,
        Location := { c.Location with
          TimeZone := if c.Location.TimeZone = "" then "Asia/Shanghai"
            else c.Location.TimeZone },
        Postal := c.Postal,
        Subdivisions := if r.Province ≠ "" then
            match c.Subdivisions with
            | [] => [{ Names := some (insertKV "en" r.Province
                  (insertKV "zh-CN" r.Province [])), IsoCode := "", GeoNameID := 0 }]
            | first :: rest =>
              { first with Names := some (insertKV "en" r.Province
                  (insertKV "zh-CN" r.Province (GoMap.entriesOrMake first.Names))) } :: rest
          else c.Subdivisions } := by
  obtain ⟨⟨cn⟩, cont, ⟨iso, cnames⟩, ⟨lat, lon, tz⟩, post, subs⟩ := c
  unfold mergeGeoCNData
  by_cases h₁ : r.City = "" <;> by_cases h₂ : r.Province = "" <;> by_cases h₃ : iso = "CN"
    <;> by_cases h₄ : tz = "" <;> cases subs <;>
    simp [h₁, h₂, h₃, h₄, GoMap.entriesOrMake]

end geoip

namespace geoip

/-- C28: `mergeGeoCNData` is idempotent, and one application keeps the
continent, the postal code, the coordinates, a non-empty time zone, the
country of a record whose country code is "CN", every city name under a key
other than "zh-CN" and "en", every subdivision after the first, and of the
first subdivision the ISO code, the GeoName id and every name under a key
other than "zh-CN" and "en". -/
theorem mergeGeoCNData_idempotent (c : geoip2.City) (r : GeoCNResult) :
    mergeGeoCNData (mergeGeoCNData c r) r = mergeGeoCNData c r
    ∧ (mergeGeoCNData c r).Continent = c.Continent
    ∧ (mergeGeoCNData c r).Postal = c.Postal
    ∧ (mergeGeoCNData c r).Location.Latitude = c.Location.Latitude
    ∧ (mergeGeoCNData c r).Location.Longitude = c.Location.Longitude
    ∧ (c.Location.TimeZone ≠ "" →
        (mergeGeoCNData c r).Location.TimeZone = c.Location.TimeZone)
    ∧ (c.Country.IsoCode = "CN" → (mergeGeoCNData c r).Country = c.Country)
    ∧ (∀ k : String, k ≠ "zh-CN" → k ≠ "en" →
        (mergeGeoCNData c r).City.Names.find k = c.City.Names.find k)
    ∧ (mergeGeoCNData c r).Subdivisions.drop 1 = c.Subdivisions.drop 1
    ∧ (∀ (first : geoip2.Subdivision) (rest : List geoip2.Subdivision),
        c.Subdivisions = first :: rest →
        ∃ first' : geoip2.Subdivision, (mergeGeoCNData c r).Subdivisions = first' :: rest
          ∧ first'.IsoCode = first.IsoCode ∧ first'.GeoNameID = first.GeoNameID
          ∧ ∀ k : String, k ≠ "zh-CN" → k ≠ "en" → first'.Names.find k = first.Names.find k) := by
  have hfind : ∀ (v k : String) (m : GoMap), k ≠ "zh-CN" → k ≠ "en" →
      GoMap.find (some (insertKV "en" v (insertKV "zh-CN" v (GoMap.entriesOrMake m)))) k
        = GoMap.find m k := by
    intro v k m h₁ h₂
    show (insertKV "en" v (insertKV "zh-CN" v (GoMap.entriesOrMake m))).lookup k = GoMap.find m k
    rw [insertKV_lookup_ne "en" v k _ h₂, insertKV_lookup_ne "zh-CN" v k _ h₁]
    cases m <;> rfl
  refine ⟨?_, ?_, ?_, ?_, ?_, ?_, ?_, ?_, ?_, ?_⟩
  · rw [mergeGeoCNData_eq (mergeGeoCNData c r) r, mergeGeoCNData_eq c r]
    obtain ⟨⟨cn⟩, cont, ⟨iso, cnames⟩, ⟨lat, lon, tz⟩, post, subs⟩ := c
    by_cases h₁ : r.City = "" <;> by_cases h₂ : r.Province = "" <;> by_cases h₃ : iso = "CN"
      <;> by_cases h₄ : tz = "" <;> cases subs <;>
      simp [h₁, h₂, h₃, h₄, GoMap.entriesOrMake, insertKV_twice]
  · rw [mergeGeoCNData_eq]
  · rw [mergeGeoCNData_eq]
  · rw [mergeGeoCNData_eq]
  · rw [mergeGeoCNData_eq]
  · intro h
    rw [mergeGeoCNData_eq]
    simp [h]
  · intro h
    rw [mergeGeoCNData_eq]
    simp [h]
  · intro k hk₁ hk₂
    rw [mergeGeoCNData_eq]
    by_cases h : r.City = ""
    · simp [h]
    · simp only [ne_eq, h, not_false_eq_true, if_true]
      exact hfind r.City k c.City.Names hk₁ hk₂
  · rw [mergeGeoCNData_eq]
    by_cases h : r.Province = ""
    · simp [h]
    · cases hs : c.Subdivisions <;> simp [h]
  · intro first rest hs
    rw [mergeGeoCNData_eq]
    by_cases h : r.Province = ""
    · exact ⟨first, by simp [h, hs], rfl, rfl, fun _ _ _ => rfl⟩
    · exact ⟨{ first with Names := some (insertKV "en" r.Province
          (insertKV "zh-CN" r.Province (GoMap.entriesOrMake first.Names))) },
        by simp [h, hs], rfl, rfl, fun k hk₁ hk₂ => hfind r.Province k first.Names hk₁ hk₂⟩

end geoip

/-! ## Claims about `filterResponse` -/

namespace api

theorem setKey_lookup_self (k : String) (v : Value) (l : List (String × Value)) :
    (setKey k v l).lookup k = some v := by
  induction l with
  | nil => simp [setKey, List.lookup]
  | cons p rest ih =>
    obtain ⟨k', v'⟩ := p
    by_cases h : k' = k
    · simp [setKey, h, List.lookup]
    · have hb : (k == k') = false := by
        simpa using fun h' => h h'.symm
      simp [setKey, h, List.lookup, hb, ih]

theorem setKey_lookup_ne (k : String) (v : Value) (k₂ : String) (l : List (String × Value))
    (hne : k₂ ≠ k) : (setKey k v l).lookup k₂ = l.lookup k₂ := by
  induction l with
  | nil =>
    have hb : (k₂ == k) = false := by simpa using hne
    simp [setKey, List.lookup, hb]
  | cons p rest ih =>
    obtain ⟨k', v'⟩ := p
    by_cases h : k' = k
    · subst h
      have hb : (k₂ == k') = false := by simpa using hne
      simp [setKey, List.lookup, hb]
    · simp only [setKey, h, if_false, List.lookup]
      cases hb : (k₂ == k') <;> simp [ih]

theorem filterField_lookup_self (requested : List String) (m : List (String × Value))
    (field : StructField) :
    (filterField requested m field).lookup field.jsonTag =
      if field.jsonTag ∈ requested ∧ field.kept = true then some field.Value
      else m.lookup field.jsonTag := by
  unfold filterField
  by_cases h₁ : field.jsonTag ∈ requested <;> by_cases h₂ : field.kept = true <;>
    simp [h₁, h₂, setKey_lookup_self]

theorem filterField_lookup_ne (requested : List String) (m : List (String × Value))
    (field : StructField) (k : String) (hne : k ≠ field.jsonTag) :
    (filterField requested m field).lookup k = m.lookup k := by
  unfold filterField
  split_ifs
  · exact setKey_lookup_ne _ _ _ _ hne
  · rfl
  · rfl

/-- What the loop leaves under a key that no field has as its tag. -/
theorem foldl_filterField_lookup_of_not_mem (requested : List String) (fields : List StructField)
    (m : List (String × Value)) (k : String) (h : ∀ f ∈ fields, f.jsonTag ≠ k) :
    (fields.foldl (filterField requested) m).lookup k = m.lookup k := by
  induction fields generalizing m with
  | nil => rfl
  | cons f rest ih =>
    rw [List.foldl_cons, ih _ (fun g hg => h g (List.mem_cons_of_mem f hg)),
      filterField_lookup_ne requested m f k (h f (List.mem_cons_self f rest)).symm]

/-- What the loop leaves under the tag of one of the fields, the tags being
pairwise different. -/
theorem foldl_filterField_lookup (requested : List String) (fields : List StructField)
    (m : List (String × Value)) (hnd : (fields.map StructField.jsonTag).Nodup)
    (field : StructField) (hf : field ∈ fields) :
    (fields.foldl (filterField requested) m).lookup field.jsonTag =
      if field.jsonTag ∈ requested ∧ field.kept = true then some field.Value
      else m.lookup field.jsonTag := by
  induction fields generalizing m with
  | nil => cases hf
  | cons f rest ih =>
    rw [List.map_cons, List.nodup_cons] at hnd
    rw [List.foldl_cons]
    rcases List.mem_cons.mp hf with rfl | hmem
    · rw [foldl_filterField_lookup_of_not_mem requested rest _ _
        (fun g hg heq => hnd.1 (by
          rw [← heq]
          exact List.mem_map_of_mem StructField.jsonTag hg))]
      exact filterField_lookup_self requested m field
    · have hne : field.jsonTag ≠ f.jsonTag := fun heq =>
        hnd.1 (by
          rw [← heq]
          exact List.mem_map_of_mem StructField.jsonTag hmem)
      rw [ih _ hnd.2 hmem, filterField_lookup_ne requested m f _ hne]

theorem structFields_tags (resp : Response) :
    resp.structFields.map StructField.jsonTag =
      ["ip", "network", "version", "city", "city_code", "region", "region_code",
       "province_code", "districts", "districts_code", "country", "country_name",
       "country_code", "country_code_iso3", "country_capital", "country_tld",
       "continent_code", "in_eu", "postal", "latitude", "longitude", "timezone",
       "utc_offset", "country_calling_code", "currency", "currency_name", "languages",
       "country_area", "country_population", "asn", "org", "isp", "message"] := by
  simp only [Response.structFields, List.map_cons, List.map_nil, List.cons.injEq, and_true]
  and_intros
  all_goals rfl

theorem structFields_nodup (resp : Response) :
    (resp.structFields.map StructField.jsonTag).Nodup := by
  rw [structFields_tags]
  decide

end api

namespace api

theorem lookup_ip_singleton (v : Value) (k : String) (hne : k ≠ "ip") :
    ([("ip", v)] : List (String × Value)).lookup k = none := by
  have hb : (k == "ip") = false := by simpa using hne
  simp [List.lookup, hb]

/-- The field whose tag is "ip" is the field `IP`, and it is always kept. -/
theorem structFields_ip (resp : Response) (field : StructField)
    (hf : field ∈ resp.structFields) (ht : field.jsonTag = "ip") :
    field = ⟨"ip", Value.str resp.IP⟩ :=
  List.inj_on_of_nodup_map (structFields_nodup resp) hf
    (List.mem_cons_self _ _) (ht.trans rfl)

/-- A key of the map other than "ip" is the tag of a requested field and holds
that field's value. -/
theorem filterResponse_lookup_of_ne (resp : Response) (fieldsStr : String) (k : String)
    (v : Value) (hk : k ≠ "ip") (hl : (filterResponse resp fieldsStr).lookup k = some v) :
    ∃ field ∈ resp.structFields, field.jsonTag = k ∧ field.Value = v
      ∧ k ∈ requestFields fieldsStr := by
  unfold filterResponse at hl
  by_cases hex : ∃ f ∈ resp.structFields, f.jsonTag = k
  · obtain ⟨f, hf, rfl⟩ := hex
    rw [foldl_filterField_lookup (requestFields fieldsStr) resp.structFields _
      (structFields_nodup resp) f hf] at hl
    split_ifs at hl with hc
    · exact ⟨f, hf, rfl, (Option.some.inj hl), hc.1⟩
    · rw [lookup_ip_singleton _ _ hk] at hl
      cases hl
  · rw [foldl_filterField_lookup_of_not_mem (requestFields fieldsStr) resp.structFields _ k
      (fun f hf heq => hex ⟨f, hf, heq⟩), lookup_ip_singleton _ _ hk] at hl
    cases hl

/-- An example: of the requested fields `city`, `city_code`, `region` and
`bogus`, the zero `city_code` (tag with omitempty) and the unknown `bogus` are
left out, the empty `region` (tag without omitempty) is kept. -/
theorem filterResponse_sample :
    filterResponse sampleResponse " city , city_code,region,bogus"
      = [("ip", Value.str "1.2.3.4"), ("city", Value.str "深圳"), ("region", Value.str "")] := by
  decide

/-- C25: the map `filterResponse` returns has the key "ip" with value
`resp.IP`; every other key of the map is the tag of a field of `Response`,
holds that field's value, and is one of the comma-separated parts of `fields`
after trimming white space; and the field of a requested tag is in the map
exactly when its value is not zero or its tag has no "omitempty". -/
theorem filterResponse_fields (resp : Response) (fieldsStr : String) :
    (filterResponse resp fieldsStr).lookup "ip" = some (Value.str resp.IP)
    ∧ (∀ (k : String) (v : Value), k ≠ "ip" →
        (filterResponse resp fieldsStr).lookup k = some v →
        ∃ field ∈ resp.structFields, field.jsonTag = k ∧ field.Value = v
          ∧ k ∈ (splitOnChar ',' fieldsStr.data).map fun f => TrimSpace (String.mk f))
    ∧ (∀ field ∈ resp.structFields, field.jsonTag ∈ requestFields fieldsStr →
        ((filterResponse resp fieldsStr).lookup field.jsonTag ≠ none ↔
          field.Value.IsZero = false
            ∨ updater.hasSub field.Tag.data "omitempty".data = false)
        ∧ ((filterResponse resp fieldsStr).lookup field.jsonTag ≠ none →
          (filterResponse resp fieldsStr).lookup field.jsonTag = some field.Value)) := by
  have hip : (⟨"ip", Value.str resp.IP⟩ : StructField) ∈ resp.structFields :=
    List.mem_cons_self _ _
  refine ⟨?_, ?_, ?_⟩
  · have h := foldl_filterField_lookup (requestFields fieldsStr) resp.structFields
      [("ip", Value.str resp.IP)] (structFields_nodup resp) _ hip
    have ht : (⟨"ip", Value.str resp.IP⟩ : StructField).jsonTag = "ip" := rfl
    rw [ht] at h
    unfold filterResponse
    rw [h]
    split_ifs
    · rfl
    · rfl
  · intro k v hk hl
    exact filterResponse_lookup_of_ne resp fieldsStr k v hk hl
  · intro field hf hreq
    have hl := foldl_filterField_lookup (requestFields fieldsStr) resp.structFields
      [("ip", Value.str resp.IP)] (structFields_nodup resp) field hf
    have hkept : field.kept = true ↔ (field.Value.IsZero = false
        ∨ updater.hasSub field.Tag.data "omitempty".data = false) := by
      unfold StructField.kept
      cases field.Value.IsZero <;> cases updater.hasSub field.Tag.data "omitempty".data <;> simp
    unfold filterResponse
    rw [hl]
    by_cases hk : field.kept = true
    · rw [if_pos ⟨hreq, hk⟩]
      exact ⟨⟨fun _ => hkept.mp hk, fun _ => by simp⟩, fun _ => rfl⟩
    · rw [if_neg (fun h => hk h.2)]
      have hne : field.jsonTag ≠ "ip" := by
        intro ht
        have := structFields_ip resp field hf ht
        subst this
        have h₂ : updater.hasSub "ip".data "omitempty".data = false := by decide
        exact hk (by simp [StructField.kept, h₂])
      rw [lookup_ip_singleton _ _ hne]
      exact ⟨⟨fun h => absurd rfl h, fun h => absurd (hkept.mpr h) hk⟩, fun h => absurd rfl h⟩

end api

/-! ## Claims about `IPHandler` -/

namespace geoip

theorem Lookup_err (lib : Library) (s : DBState) (ip : net.IP) :
    (Lookup lib s ip).err =
      if s.cityDB = none ∧ s.asnDB = none then some "no GeoIP databases are available"
      else none := by
  unfold Lookup
  simp only
  split_ifs <;> rfl

end geoip

namespace api

theorem networkInfo_Message (ip : net.IP) (resp r0 : Response)
    (h : networkInfo ip resp = some r0) : r0.Message = resp.Message := by
  unfold networkInfo at h
  split at h
  · cases h
    rfl
  · split at h
    · cases h
    · cases h
      rfl

theorem countryInfo_Message (resp : Response) (city : geoip2.City) :
    (countryInfo resp city).Message = resp.Message := by
  unfold countryInfo
  simp only
  split_ifs <;> rfl

theorem specialRegionInfo_Message (resp : Response) (city : geoip2.City) :
    (specialRegionInfo resp city).Message = resp.Message := by
  unfold specialRegionInfo
  simp only
  split_ifs <;> rfl

theorem cityNameInfo_Message (resp : Response) (city : geoip2.City) :
    (cityNameInfo resp city).Message = resp.Message := by
  unfold cityNameInfo
  simp only
  split_ifs <;> rfl

theorem subdivisionInfo_Message (resp : Response) (city : geoip2.City) :
    (subdivisionInfo resp city).Message = resp.Message := by
  unfold subdivisionInfo
  split
  · rfl
  · simp only
    split_ifs <;> rfl

theorem cityFallback_Message (resp : Response) :
    (cityFallback resp).Message = resp.Message := by
  unfold cityFallback
  split_ifs <;> rfl

theorem locationInfo_Message (resp : Response) (city : geoip2.City) :
    (locationInfo resp city).Message = resp.Message := by
  unfold locationInfo
  simp only
  split_ifs <;> rfl

theorem cityInfo_Message (resp : Response) (city : Option geoip2.City) :
    (cityInfo resp city).Message = resp.Message := by
  cases city with
  | none => rfl
  | some c =>
    rw [cityInfo_some, locationInfo_Message, cityFallback_Message, subdivisionInfo_Message,
      cityNameInfo_Message, specialRegionInfo_Message, countryInfo_Message]

theorem asnInfo_Message (resp : Response) (asn : Option geoip2.ASN) :
    (asnInfo resp asn).Message = resp.Message := by
  unfold asnInfo
  cases asn with
  | none => rfl
  | some a =>
    simp only
    split_ifs <;> rfl

theorem geoCNInfo_Message (resp : Response) (cnResult : Option geoip.GeoCNResult) :
    (geoCNInfo resp cnResult).Message = resp.Message := by
  unfold geoCNInfo
  cases cnResult with
  | none => rfl
  | some cn =>
    simp only
    split_ifs <;> rfl

/-- A response of `buildSuccessResponse` has an empty Message. -/
theorem buildSuccessResponse_Message (ip : net.IP) (city : Option geoip2.City)
    (asn : Option geoip2.ASN) (cnResult : Option geoip.GeoCNResult) (resp : Response)
    (h : buildSuccessResponse ip city asn cnResult = some resp) : resp.Message = "" := by
  unfold buildSuccessResponse at h
  cases hn : networkInfo ip { IP := ip.String } with
  | none => simp [hn] at h
  | some r0 =>
    simp only [hn, Option.some.injEq] at h
    rw [← h, geoCNInfo_Message, asnInfo_Message, cityInfo_Message,
      networkInfo_Message ip _ r0 hn]

/-- The map `filterResponse` makes of a response with an empty Message has no
text under "message". -/
theorem filterResponse_Message (resp : Response) (fieldsStr : String)
    (h : resp.Message = "") : (Encoded.filtered (filterResponse resp fieldsStr)).Message = "" := by
  cases hl : (filterResponse resp fieldsStr).lookup "message" with
  | none => simp only [Encoded.Message, hl]
  | some v =>
    obtain ⟨field, hf, ht, hv, _⟩ :=
      filterResponse_lookup_of_ne resp fieldsStr "message" v (by decide) hl
    have hm : (⟨"message,omitempty", Value.str resp.Message⟩ : StructField) ∈ resp.structFields := by
      simp [Response.structFields]
    have heq := List.inj_on_of_nodup_map (structFields_nodup resp) hf hm (ht.trans rfl)
    rw [heq] at hv
    simp only [Encoded.Message, hl, ← hv, h]

end api

namespace api

/-- One call of the handler on a clean cache: the encoded value carries none
of the three messages and the cache stays clean. -/
theorem IPHandler_clean (env : NetLib) (lib : geoip.Library) (db : geoip.DBState)
    (cache : Cache) (r : Request) (out : Served) (hc : cache.clean)
    (h : IPHandler env lib db cache r = some out) :
    out.Body.Message ∉ clientMessages ∧ out.cache.clean := by
  unfold IPHandler at h
  simp only at h
  cases hp : env.ParseIP (getIPFromRequest env r) with
  | none =>
    simp only [hp, Option.some.injEq] at h
    subst h
    exact ⟨by simp [Encoded.Message, clientMessages], hc⟩
  | some ip =>
    simp only [hp] at h
    cases hg : cache (ip.String ++ "?fields=" ++ r.fields) with
    | some cached =>
      simp only [hg, Option.some.injEq] at h
      subst h
      exact ⟨hc _ _ hg, hc⟩
    | none =>
      simp only [hg] at h
      have herr := geoip.Lookup_err lib db ip
      by_cases hdb : db.cityDB = none ∧ db.asnDB = none
      · rw [if_pos hdb] at herr
        have hsub : updater.hasSub "no GeoIP databases are available".data
            "is not in the database".data = false := by decide
        simp only [herr, hsub, Bool.false_eq_true, not_false_eq_true, if_true,
          Option.some.injEq] at h
        subst h
        exact ⟨by simp [Encoded.Message, clientMessages], hc⟩
      · rw [if_neg hdb] at herr
        simp only [herr] at h
        cases hb : buildSuccessResponse ip (geoip.Lookup lib db ip).city
            (geoip.Lookup lib db ip).asn (geoip.Lookup lib db ip).cnResult with
        | none => simp [hb] at h
        | some fullResp =>
          have hm := buildSuccessResponse_Message _ _ _ _ _ hb
          have hset : ∀ (final : Encoded), final.Message = "" →
              Cache.clean (cache.set (ip.String ++ "?fields=" ++ r.fields) final) := by
            intro final hfm k e hk
            unfold Cache.set at hk
            by_cases hkey : k = ip.String ++ "?fields=" ++ r.fields
            · rw [if_pos hkey] at hk
              rw [← Option.some.inj hk, hfm]
              simp [clientMessages]
            · rw [if_neg hkey] at hk
              exact hc k e hk
          by_cases hfld : r.fields = ""
          · simp only [hb, hfld, ne_eq, not_true_eq_false, if_false, Option.some.injEq] at h
            subst h
            refine ⟨by simp [Encoded.Message, hm, clientMessages], ?_⟩
            have := hset (Encoded.response fullResp) hm
            rw [hfld] at this
            exact this
          · simp only [hb, hfld, ne_eq, not_false_eq_true, if_true, Option.some.injEq] at h
            subst h
            have hfm := filterResponse_Message fullResp r.fields hm
            exact ⟨by simp [hfm, clientMessages], hset _ hfm⟩

theorem serveAll_clean (env : NetLib) (arrivals : List Arrival) (cache : Cache)
    (hc : cache.clean) (out : Served) (h : some out ∈ serveAll env cache arrivals) :
    out.Body.Message ∉ clientMessages := by
  induction arrivals generalizing cache with
  | nil => simp [serveAll] at h
  | cons a rest ih =>
    have hlive : Cache.clean (a.live cache) := by
      intro k e hk
      unfold Arrival.live at hk
      split_ifs at hk
      cases hi : a.images k with
      | some data =>
        simp only [hi, Option.some.injEq] at hk
        rw [← hk]
        simp [Encoded.Message, clientMessages]
      | none =>
        simp only [hi] at hk
        exact hc k e hk
    unfold serveAll at h
    cases hh : IPHandler env a.lib a.db (a.live cache) a.r with
    | none =>
      simp only [hh, List.mem_cons] at h
      rcases h with h | h
      · cases h
      · exact ih _ hlive h
    | some o =>
      simp only [hh, List.mem_cons, Option.some.injEq] at h
      have ho := IPHandler_clean env a.lib a.db _ a.r o hlive hh
      rcases h with h | h
      · rw [h]
        exact ho.1
      · exact ih _ ho.2 h

/-- An example: with no reader open the handler answers 500 "internal error";
with the readers open it answers 200 and no message. -/
theorem IPHandler_sample :
    (IPHandler sampleNet geoip.chinaLib {} (fun _ => none) { Path := "/json/1.2.3.4" }).map
        (fun out => (out.StatusCode, out.Body.Message)) = some (500, "internal error")
    ∧ (IPHandler sampleNet geoip.chinaLib geoip.liveState (fun _ => none)
        { Path := "/json/1.2.3.4", fields := "city,message" }).map
        (fun out => (out.StatusCode, out.Body))
        = some (200, Encoded.filtered [("ip", Value.str "1.2.3.4"), ("city", Value.str "深圳")]) := by
  decide

/-- C27: the only error `Lookup` returns is "no GeoIP databases are
available"; this text does not contain "is not in the database"; on every
request for which the handler calls `Lookup` (the address parses and the cache
has no item for it) and `Lookup` fails, the handler answers status 500 with
the message "internal error"; and on every sequence of requests, starting
from the empty cache, whichever items expire and whichever images
`StaticMapHandler` stores in between, no answer carries the message
"private range", "reserved range" or "not in database". -/
theorem IPHandler_Lookup_error (env : NetLib) :
    (∀ (lib : geoip.Library) (db : geoip.DBState) (ip : net.IP) (e : String),
        (geoip.Lookup lib db ip).err = some e → e = "no GeoIP databases are available")
    ∧ updater.hasSub "no GeoIP databases are available".data "is not in the database".data
        = false
    ∧ (∀ (lib : geoip.Library) (db : geoip.DBState) (cache : Cache) (r : Request) (ip : net.IP),
        env.ParseIP (getIPFromRequest env r) = some ip →
        cache (ip.String ++ "?fields=" ++ r.fields) = none →
        (geoip.Lookup lib db ip).err ≠ none →
        ∃ out : Served, IPHandler env lib db cache r = some out ∧ out.StatusCode = 500
          ∧ out.Body = Encoded.response
              { IP := getIPFromRequest env r, Message := "internal error" })
    ∧ (∀ (arrivals : List Arrival) (out : Served),
        some out ∈ serveAll env (fun _ => none) arrivals →
        out.Body.Message ≠ "private range" ∧ out.Body.Message ≠ "reserved range"
          ∧ out.Body.Message ≠ "not in database") := by
  refine ⟨?_, by decide, ?_, ?_⟩
  · intro lib db ip e he
    rw [geoip.Lookup_err] at he
    split_ifs at he
    exact (Option.some.inj he).symm
  · intro lib db cache r ip hp hg he
    have herr := geoip.Lookup_err lib db ip
    by_cases hdb : db.cityDB = none ∧ db.asnDB = none
    · rw [if_pos hdb] at herr
      have hsub : updater.hasSub "no GeoIP databases are available".data
          "is not in the database".data = false := by decide
      have h₁ : IPHandler env lib db cache r = some (Served.mk 500 false
          (Encoded.response { IP := getIPFromRequest env r, Message := "internal error" })
          cache) := by
        unfold IPHandler
        simp only [hp, hg, herr, hsub, Bool.false_eq_true, not_false_eq_true, if_true]
      exact ⟨_, h₁, rfl, rfl⟩
    · rw [if_neg hdb] at herr
      exact absurd herr he
  · intro arrivals out h
    have hclean : Cache.clean (fun _ => none) := by
      intro k e hk
      cases hk
    have hm := serveAll_clean env arrivals _ hclean out h
    simp only [clientMessages, List.mem_cons, List.mem_singleton, not_or, List.mem_nil_iff,
      or_false] at hm
    exact hm

end api

/-! ## Lemmas about a run of `downloadAndExtract` that returns nil -/

namespace updater

theorem installStage_ok (w : World) (fs : FS)
    (url filePath etagFilePath tempFilePath finalTempPath : String) (resp : HTTPResponse)
    (fs' : FS)
    (h : installStage w fs url filePath etagFilePath tempFilePath finalTempPath resp
      = (fs', none)) :
    ∃ fs1 fs2 : FS, stageFile w fs url tempFilePath finalTempPath = (fs1, none)
      ∧ validateMmdbFile w fs1 finalTempPath = none
      ∧ osRename w.faults fs1 finalTempPath filePath = (fs2, none)
      ∧ fs' = (if resp.ETag ≠ [] then (writeETag w.faults fs2 etagFilePath resp.ETag).1
          else fs2) := by
  unfold installStage at h
  cases hst : stageFile w fs url tempFilePath finalTempPath with
  | mk fs1 err1 =>
    rw [hst] at h
    cases err1 with
    | some e => simp at h
    | none =>
      simp only at h
      cases hv : validateMmdbFile w fs1 finalTempPath with
      | some e => simp [hv] at h
      | none =>
        simp only [hv] at h
        cases hr : osRename w.faults fs1 finalTempPath filePath with
        | mk fs2 err2 =>
          rw [hr] at h
          cases err2 with
          | some e => simp at h
          | none =>
            simp only at h
            refine ⟨fs1, fs2, rfl, hv, hr, ?_⟩
            split_ifs at h ⊢ with he
            · exact (Prod.mk.inj h).1.symm
            · exact (Prod.mk.inj h).1.symm

theorem bodyStage_ok (w : World) (fs : FS) (url filePath etagFilePath tempFilePath : String)
    (resp : HTTPResponse) (fs' : FS)
    (h : bodyStage w fs url filePath etagFilePath tempFilePath resp = (fs', none)) :
    resp.BodyErr = none ∧ minFileSize ≤ resp.Body.length
      ∧ validateFileFormat resp.Body url = none
      ∧ ∃ fs0 fs3 : FS, writeTo w.faults fs tempFilePath resp.Body none = (fs0, none)
        ∧ installStage w fs0 url filePath etagFilePath tempFilePath (filePath ++ ".tmp_final")
            resp = (fs3, none)
        ∧ fs' = osRemove w.faults fs3 (filePath ++ ".tmp_final") := by
  unfold bodyStage at h
  cases hb : resp.BodyErr with
  | some e => simp [hb] at h
  | none =>
    simp only [hb] at h
    by_cases hlen : resp.Body.length < minFileSize
    · simp [hlen] at h
    · rw [if_neg hlen] at h
      cases hv : validateFileFormat resp.Body url with
      | some e => simp [hv] at h
      | none =>
        simp only [hv] at h
        cases hw : writeTo w.faults fs tempFilePath resp.Body none with
        | mk fs0 err0 =>
          rw [hw] at h
          cases err0 with
          | some e => simp at h
          | none =>
            simp only at h
            cases hi : installStage w fs0 url filePath etagFilePath tempFilePath
                (filePath ++ ".tmp_final") resp with
            | mk fs3 err3 =>
              rw [hi] at h
              simp only [Prod.mk.injEq] at h
              obtain ⟨h₁, h₂⟩ := h
              subst h₂
              exact ⟨rfl, by omega, rfl, fs0, fs3, rfl, hi, h₁.symm⟩

theorem downloadAndExtract_ok (w : World) (fs : FS) (url filePath etagFileName : String)
    (fs' : FS) (h : downloadAndExtract w fs url filePath etagFileName = (fs', none)) :
    ∃ (resp : HTTPResponse) (fsc fsb : FS),
      w.httpDo url (requestHeader w fs (filepathJoin w.App.DataDir (etagFileName ++ ".etag")))
        = Except.ok resp
      ∧ resp.StatusCode = 200
      ∧ osCreate w.faults fs (filePath ++ ".tmp_download") = (fsc, none)
      ∧ bodyStage w fsc url filePath (filepathJoin w.App.DataDir (etagFileName ++ ".etag"))
          (filePath ++ ".tmp_download") resp = (fsb, none)
      ∧ fs' = osRemove w.faults fsb (filePath ++ ".tmp_download") := by
  unfold downloadAndExtract at h
  cases hn : w.newRequest url with
  | some e => simp [hn] at h
  | none =>
    simp only [hn] at h
    cases hd : w.httpDo url (requestHeader w fs (filepathJoin w.App.DataDir
        (etagFileName ++ ".etag"))) with
    | error e => simp [hd] at h
    | ok resp =>
      simp only [hd] at h
      by_cases h304 : resp.StatusCode = 304
      · simp [h304] at h
      · rw [if_neg h304] at h
        by_cases h200 : resp.StatusCode ≠ 200
        · simp [h200] at h
        · rw [if_neg h200] at h
          split_ifs at h with hct
          · simp at h
          · cases hc : osCreate w.faults fs (filePath ++ ".tmp_download") with
            | mk fsc errc =>
              rw [hc] at h
              cases errc with
              | some e => simp at h
              | none =>
                simp only at h
                cases hb : bodyStage w fsc url filePath
                    (filepathJoin w.App.DataDir (etagFileName ++ ".etag"))
                    (filePath ++ ".tmp_download") resp with
                | mk fsb errb =>
                  rw [hb] at h
                  simp only [Prod.mk.injEq] at h
                  obtain ⟨h₁, h₂⟩ := h
                  subst h₂
                  exact ⟨resp, fsc, fsb, rfl, not_not.mp h200, rfl, hb, h₁.symm⟩

end updater

namespace updater

theorem writeTo_ok (f : Faults) (fs : FS) (p : String) (data : Bytes) (readErr : Option String)
    (fs' : FS) (h : writeTo f fs p data readErr = (fs', none)) :
    fs'.files p = some data ∧ readErr = none := by
  unfold writeTo at h
  cases hw : f.write p data with
  | some ke => simp [hw] at h
  | none =>
    simp only [hw, Prod.mk.injEq] at h
    obtain ⟨h₁, h₂⟩ := h
    subst h₁
    exact ⟨by simp [FS.put], h₂⟩

theorem osCreate_ok (f : Faults) (fs : FS) (p : String) (fs' : FS)
    (h : osCreate f fs p = (fs', none)) : fs'.files p = some [] := by
  unfold osCreate at h
  cases hc : f.create p with
  | some e => simp [hc] at h
  | none =>
    simp only [hc, Prod.mk.injEq, and_true] at h
    subst h
    simp [FS.put]

theorem osRename_ok (f : Faults) (fs : FS) (src dst : String) (fs' : FS)
    (h : osRename f fs src dst = (fs', none)) :
    ∃ c : Bytes, fs.files src = some c ∧ fs'.files dst = some c := by
  unfold osRename at h
  cases hr : f.rename src dst with
  | some e => simp [hr] at h
  | none =>
    simp only [hr] at h
    cases hc : fs.files src with
    | none =>
      have hc' : (fs.record (FsOp.rename src dst)).files src = none := hc
      simp [hc'] at h
    | some c =>
      have hc' : (fs.record (FsOp.rename src dst)).files src = some c := hc
      simp only [hc', Prod.mk.injEq, and_true] at h
      subst h
      exact ⟨c, rfl, by simp [FS.put]⟩

theorem osOpen_ok (f : Faults) (fs : FS) (p : String) (content : Bytes)
    (readErr : Option String) (h : osOpen f fs p = Except.ok (content, readErr)) :
    ∃ c : Bytes, fs.files p = some c
      ∧ content = (match f.read p with
          | some (k, _) => c.take k
          | none => c)
      ∧ (readErr = none → f.read p = none) := by
  unfold osOpen at h
  cases ho : f.openFile p with
  | some e => simp [ho] at h
  | none =>
    simp only [ho] at h
    cases hc : fs.files p with
    | none => simp [hc] at h
    | some c =>
      simp only [hc] at h
      cases hr : f.read p with
      | some ke =>
        obtain ⟨k, e⟩ := ke
        simp only [hr, Except.ok.injEq, Prod.mk.injEq] at h
        exact ⟨c, rfl, h.1.symm, fun hn => by simp [hn] at h⟩
      | none =>
        simp only [hr, Except.ok.injEq, Prod.mk.injEq] at h
        exact ⟨c, rfl, h.1.symm, fun _ => rfl⟩

theorem copyFile_ok (f : Faults) (fs : FS) (src dst : String) (fs' : FS)
    (h : copyFile f fs src dst = (fs', none)) :
    ∃ c : Bytes, fs.files src = some c ∧ fs'.files dst = some c := by
  unfold copyFile at h
  cases ho : osOpen f fs src with
  | error e => simp [ho] at h
  | ok r =>
    obtain ⟨content, readErr⟩ := r
    simp only [ho] at h
    cases hc : osCreate f fs dst with
    | mk fs1 err1 =>
      rw [hc] at h
      cases err1 with
      | some e => simp at h
      | none =>
        simp only at h
        obtain ⟨hw, hre⟩ := writeTo_ok f fs1 dst content readErr fs' h
        obtain ⟨c, hfc, hcontent, hread⟩ := osOpen_ok f fs src content readErr ho
        rw [hread hre] at hcontent
        simp only at hcontent
        exact ⟨c, hfc, by rw [hw, hcontent]⟩

theorem extractLoop_ok (f : Faults) (destPath : String) (endErr : Option String) (fs : FS)
    (entries : List TarEntry) (fs' : FS)
    (h : extractLoop f destPath endErr fs entries = (fs', none)) :
    ∃ (pre : List TarEntry) (hd : TarEntry) (post : List TarEntry),
      entries = pre ++ hd :: post ∧ (∀ e ∈ pre, isMmdbEntry e = false)
        ∧ isMmdbEntry hd = true ∧ fs'.files destPath = some hd.Data := by
  induction entries with
  | nil =>
    unfold extractLoop at h
    cases endErr <;> simp at h
  | cons header rest ih =>
    unfold extractLoop at h
    by_cases hm : isMmdbEntry header = true
    · rw [if_pos hm] at h
      simp only at h
      cases hc : osCreate f fs (destPath ++ ".tmp") with
      | mk fs1 err1 =>
        rw [hc] at h
        cases err1 with
        | some e => simp at h
        | none =>
          simp only at h
          cases hw : writeTo f fs1 (destPath ++ ".tmp") header.Data header.DataErr with
          | mk fs2 err2 =>
            rw [hw] at h
            cases err2 with
            | some e => simp at h
            | none =>
              simp only at h
              cases hr : osRename f fs2 (destPath ++ ".tmp") destPath with
              | mk fs3 err3 =>
                rw [hr] at h
                cases err3 with
                | some e => simp at h
                | none =>
                  simp only [Prod.mk.injEq, and_true] at h
                  subst h
                  obtain ⟨c, hsrc, hdst⟩ := osRename_ok f fs2 _ _ fs3 hr
                  rw [(writeTo_ok f fs1 _ _ _ fs2 hw).1] at hsrc
                  exact ⟨[], header, rest, rfl, fun e he => absurd he (List.not_mem_nil e), hm,
                    hdst.trans hsrc.symm⟩
    · rw [if_neg hm] at h
      obtain ⟨pre, hd, post, he, hpre, hhd, hf⟩ := ih h
      refine ⟨header :: pre, hd, post, by rw [he]; rfl, ?_, hhd, hf⟩
      intro e hmem
      rcases List.mem_cons.mp hmem with rfl | hmem
      · simpa using hm
      · exact hpre e hmem

theorem extractMmdbFromTarGz_ok (w : World) (fs : FS) (tarGzPath destPath : String) (fs' : FS)
    (h : extractMmdbFromTarGz w fs tarGzPath destPath = (fs', none)) :
    ∃ (c : Bytes) (pre : List TarEntry) (hd : TarEntry) (post : List TarEntry),
      fs.files tarGzPath = some c
      ∧ (w.tarEntries (match w.faults.read tarGzPath with
          | some (k, _) => c.take k
          | none => c)).entries = pre ++ hd :: post
      ∧ (∀ e ∈ pre, isMmdbEntry e = false) ∧ isMmdbEntry hd = true
      ∧ fs'.files destPath = some hd.Data := by
  unfold extractMmdbFromTarGz at h
  cases ho : osOpen w.faults fs tarGzPath with
  | error e => simp [ho] at h
  | ok r =>
    obtain ⟨content, readErr⟩ := r
    simp only [ho] at h
    cases hg : w.gzipNewReader content with
    | some e => simp [hg] at h
    | none =>
      simp only [hg] at h
      obtain ⟨c, hfc, hcontent, _⟩ := osOpen_ok w.faults fs tarGzPath content readErr ho
      obtain ⟨pre, hd, post, he, hpre, hhd, hf⟩ := extractLoop_ok _ _ _ _ _ fs' h
      rw [hcontent] at he
      exact ⟨c, pre, hd, post, hfc, he, hpre, hhd, hf⟩

/-- What a successful `stageFile` leaves at the final temp path: a copy of the
download, or the data of the first entry of the archive that `isMmdbEntry`
accepts. -/
theorem stageFile_ok (w : World) (fs : FS) (url tempFilePath finalTempPath : String)
    (fs' : FS) (h : stageFile w fs url tempFilePath finalTempPath = (fs', none)) :
    ∃ c : Bytes, fs.files tempFilePath = some c
      ∧ (isTarGzURL url = false → fs'.files finalTempPath = some c)
      ∧ (isTarGzURL url = true →
          ∃ (pre : List TarEntry) (hd : TarEntry) (post : List TarEntry),
            (w.tarEntries (match w.faults.read tempFilePath with
              | some (k, _) => c.take k
              | none => c)).entries = pre ++ hd :: post
            ∧ (∀ e ∈ pre, isMmdbEntry e = false) ∧ isMmdbEntry hd = true
            ∧ fs'.files finalTempPath = some hd.Data) := by
  unfold stageFile at h
  by_cases hu : isTarGzURL url = true
  · rw [if_pos hu] at h
    cases he : extractMmdbFromTarGz w fs tempFilePath finalTempPath with
    | mk fs1 err1 =>
      rw [he] at h
      cases err1 with
      | some e => simp at h
      | none =>
        simp only [Prod.mk.injEq, and_true] at h
        subst h
        obtain ⟨c, pre, hd, post, hfc, hent, hpre, hhd, hf⟩ :=
          extractMmdbFromTarGz_ok w fs _ _ fs1 he
        exact ⟨c, hfc, fun hn => by simp [hu] at hn, fun _ => ⟨pre, hd, post, hent, hpre, hhd, hf⟩⟩
  · rw [if_neg hu] at h
    cases he : copyFile w.faults fs tempFilePath finalTempPath with
    | mk fs1 err1 =>
      rw [he] at h
      cases err1 with
      | some e => simp at h
      | none =>
        simp only [Prod.mk.injEq, and_true] at h
        subst h
        obtain ⟨c, hfc, hf⟩ := copyFile_ok w.faults fs _ _ fs1 he
        exact ⟨c, hfc, fun _ => hf, fun ht => absurd ht hu⟩

end updater

namespace updater

/-- A path other than the canonical path and the temp paths is left alone by
an `installStage` that returns an error. -/
theorem installStage_sidecar (w : World) (fs : FS)
    (url filePath etagFilePath tempFilePath finalTempPath q : String) (resp : HTTPResponse)
    (h₁ : q ≠ finalTempPath ++ ".tmp") (h₂ : q ≠ finalTempPath) (h₃ : q ≠ filePath) :
    (installStage w fs url filePath etagFilePath tempFilePath finalTempPath resp).2 = none
    ∨ ((installStage w fs url filePath etagFilePath tempFilePath finalTempPath resp).1.files q
        = fs.files q
      ∧ (installStage w fs url filePath etagFilePath tempFilePath finalTempPath resp).1.touching
          q = fs.touching q) := by
  have hs := stageFile_frame w fs url tempFilePath finalTempPath q h₁ h₂
  unfold installStage
  cases hst : stageFile w fs url tempFilePath finalTempPath with
  | mk fs1 err1 =>
    rw [hst] at hs
    cases err1 with
    | some e => exact Or.inr hs
    | none =>
      simp only
      cases hv : validateMmdbFile w fs1 finalTempPath with
      | some e => exact Or.inr hs
      | none =>
        simp only
        have hr := osRename_frame w.faults fs1 finalTempPath filePath q h₂ h₃
        cases hrn : osRename w.faults fs1 finalTempPath filePath with
        | mk fs2 err2 =>
          rw [hrn] at hr
          cases err2 with
          | some e => exact Or.inr ⟨hr.1.trans hs.1, hr.2.trans hs.2⟩
          | none =>
            simp only
            split_ifs <;> exact Or.inl rfl

theorem bodyStage_sidecar (w : World) (fs : FS)
    (url filePath etagFilePath tempFilePath q : String) (resp : HTTPResponse)
    (h₀ : q ≠ tempFilePath) (h₁ : q ≠ filePath ++ ".tmp_final" ++ ".tmp")
    (h₂ : q ≠ filePath ++ ".tmp_final") (h₃ : q ≠ filePath) :
    (bodyStage w fs url filePath etagFilePath tempFilePath resp).2 = none
    ∨ ((bodyStage w fs url filePath etagFilePath tempFilePath resp).1.files q = fs.files q
      ∧ (bodyStage w fs url filePath etagFilePath tempFilePath resp).1.touching q
          = fs.touching q) := by
  unfold bodyStage
  cases resp.BodyErr with
  | some e => exact Or.inr ⟨rfl, rfl⟩
  | none =>
    simp only
    split
    · exact Or.inr ⟨rfl, rfl⟩
    · cases hv : validateFileFormat resp.Body url with
      | some e => exact Or.inr ⟨rfl, rfl⟩
      | none =>
        simp only
        have hw := writeTo_frame w.faults fs tempFilePath q resp.Body none h₀
        cases hwr : writeTo w.faults fs tempFilePath resp.Body none with
        | mk fs1 err1 =>
          rw [hwr] at hw
          cases err1 with
          | some e => exact Or.inr hw
          | none =>
            simp only
            have hi := installStage_sidecar w fs1 url filePath etagFilePath tempFilePath
              (filePath ++ ".tmp_final") q resp h₁ h₂ h₃
            have hrm := fun fs' => osRemove_frame w.faults fs' (filePath ++ ".tmp_final") q h₂
            cases hin : installStage w fs1 url filePath etagFilePath tempFilePath
                (filePath ++ ".tmp_final") resp with
            | mk fs2 err2 =>
              rw [hin] at hi
              simp only at hi ⊢
              rcases hi with hi | hi
              · exact Or.inl hi
              · exact Or.inr ⟨(hrm fs2).1.trans (hi.1.trans hw.1),
                  (hrm fs2).2.trans (hi.2.trans hw.2)⟩

theorem downloadAndExtract_sidecar (w : World) (fs : FS)
    (url filePath etagFileName q : String)
    (h₀ : q ≠ filePath ++ ".tmp_download") (h₁ : q ≠ filePath ++ ".tmp_final" ++ ".tmp")
    (h₂ : q ≠ filePath ++ ".tmp_final") (h₃ : q ≠ filePath) :
    (downloadAndExtract w fs url filePath etagFileName).2 = none
    ∨ ((downloadAndExtract w fs url filePath etagFileName).1.files q = fs.files q
      ∧ (downloadAndExtract w fs url filePath etagFileName).1.touching q = fs.touching q) := by
  unfold downloadAndExtract
  cases w.newRequest url with
  | some e => exact Or.inr ⟨rfl, rfl⟩
  | none =>
    simp only
    cases w.httpDo url (requestHeader w fs (filepathJoin w.App.DataDir
        (etagFileName ++ ".etag"))) with
    | error e => exact Or.inr ⟨rfl, rfl⟩
    | ok resp =>
      simp only
      split
      · exact Or.inr ⟨rfl, rfl⟩
      · split
        · exact Or.inr ⟨rfl, rfl⟩
        · split
          · exact Or.inr ⟨rfl, rfl⟩
          · have hc := osCreate_frame w.faults fs (filePath ++ ".tmp_download") q h₀
            cases hcr : osCreate w.faults fs (filePath ++ ".tmp_download") with
            | mk fs1 err1 =>
              rw [hcr] at hc
              cases err1 with
              | some e => exact Or.inr hc
              | none =>
                simp only
                have hb := bodyStage_sidecar w fs1 url filePath
                  (filepathJoin w.App.DataDir (etagFileName ++ ".etag"))
                  (filePath ++ ".tmp_download") q resp h₀ h₁ h₂ h₃
                have hrm := fun fs' => osRemove_frame w.faults fs' (filePath ++ ".tmp_download")
                  q h₀
                cases hbr : bodyStage w fs1 url filePath
                    (filepathJoin w.App.DataDir (etagFileName ++ ".etag"))
                    (filePath ++ ".tmp_download") resp with
                | mk fs2 err2 =>
                  rw [hbr] at hb
                  simp only at hb ⊢
                  rcases hb with hb | hb
                  · exact Or.inl hb
                  · exact Or.inr ⟨(hrm fs2).1.trans (hb.1.trans hc.1),
                      (hrm fs2).2.trans (hb.2.trans hc.2)⟩

theorem writeETag_ok (f : Faults) (fs : FS) (p : String) (etag : Bytes)
    (h : f.writeFile p etag = none) : (writeETag f fs p etag).1.files p = some etag := by
  unfold writeETag
  simp [h, FS.put]

/-- What a run that returns nil leaves: the response it got, the file system
`fs1` on which `validateMmdbFile` ran, the canonical file and the sidecar. -/
theorem downloadAndExtract_ok_files (w : World) (fs : FS) (url filePath etagFileName : String)
    (h : (downloadAndExtract w fs url filePath etagFileName).2 = none) :
    ∃ (resp : HTTPResponse) (fs1 : FS),
      w.httpDo url (requestHeader w fs (filepathJoin w.App.DataDir (etagFileName ++ ".etag")))
        = Except.ok resp
      ∧ resp.StatusCode = 200 ∧ resp.BodyErr = none ∧ minFileSize ≤ resp.Body.length
      ∧ validateFileFormat resp.Body url = none
      ∧ validateMmdbFile w fs1 (filePath ++ ".tmp_final") = none
      ∧ (isTarGzURL url = false → fs1.files (filePath ++ ".tmp_final") = some resp.Body)
      ∧ (isTarGzURL url = true →
          ∃ (pre : List TarEntry) (hd : TarEntry) (post : List TarEntry),
            (w.tarEntries (match w.faults.read (filePath ++ ".tmp_download") with
              | some (k, _) => resp.Body.take k
              | none => resp.Body)).entries = pre ++ hd :: post
            ∧ (∀ e ∈ pre, isMmdbEntry e = false) ∧ isMmdbEntry hd = true
            ∧ fs1.files (filePath ++ ".tmp_final") = some hd.Data)
      ∧ (filePath ≠ filepathJoin w.App.DataDir (etagFileName ++ ".etag") →
          (downloadAndExtract w fs url filePath etagFileName).1.files filePath
            = fs1.files (filePath ++ ".tmp_final"))
      ∧ (resp.ETag ≠ [] →
          w.faults.writeFile (filepathJoin w.App.DataDir (etagFileName ++ ".etag")) resp.ETag
            = none →
          (downloadAndExtract w fs url filePath etagFileName).1.files
            (filepathJoin w.App.DataDir (etagFileName ++ ".etag")) = some resp.ETag) := by
  cases hd : downloadAndExtract w fs url filePath etagFileName with
  | mk fs' err =>
    rw [hd] at h
    simp only at h
    subst h
    obtain ⟨resp, fsc, fsb, hdo, h200, _, hb, hfs'⟩ :=
      downloadAndExtract_ok w fs url filePath etagFileName fs' hd
    obtain ⟨hbe, hlen, hfmt, fs0, fs3, hw, hi, hfsb⟩ :=
      bodyStage_ok w fsc url filePath _ _ resp fsb hb
    obtain ⟨fs1, fs2, hst, hv, hr, hfs3⟩ := installStage_ok w fs0 url filePath _ _ _ resp fs3 hi
    obtain ⟨c, hc0, hcopy, hextract⟩ := stageFile_ok w fs0 url _ _ fs1 hst
    have hbody : c = resp.Body := by
      have := (writeTo_ok w.faults fsc _ _ _ fs0 hw).1
      rw [hc0] at this
      exact Option.some.inj this
    subst hbody
    obtain ⟨c', hsrc, hdst⟩ := osRename_ok w.faults fs1 _ _ fs2 hr
    refine ⟨resp, fs1, hdo, h200, hbe, hlen, hfmt, hv, hcopy, hextract, ?_, ?_⟩
    · intro hne
      simp only
      rw [hfs', (osRemove_frame w.faults fsb _ filePath (tmpDownload_ne filePath)).1, hfsb,
        (osRemove_frame w.faults fs3 _ filePath (tmpFinal_ne filePath)).1, hsrc, ← hdst, hfs3]
      split_ifs
      · exact (writeETag_frame w.faults fs2 _ filePath resp.ETag hne).1
      · rfl
    · intro he hwf
      simp only
      rw [hfs', (osRemove_frame w.faults fsb _ _ (etag_ne_tmpDownload _ _ filePath)).1, hfsb,
        (osRemove_frame w.faults fs3 _ _ (etag_ne_tmpFinal _ _ filePath)).1, hfs3, if_pos he]
      exact writeETag_ok w.faults fs2 _ resp.ETag hwf

end updater

namespace updater

/-- A direct download that passes every check is installed when no
file-system call fails and the readers open every file. -/
theorem bodyStage_copy_succeeds (w : World) (fs : FS)
    (url filePath etagFilePath tempFilePath : String) (resp : HTTPResponse)
    (hbe : resp.BodyErr = none) (hlen : minFileSize ≤ resp.Body.length)
    (hfmt : validateFileFormat resp.Body url = none) (hu : isTarGzURL url = false)
    (hq : w.faults = quietFaults)
    (hopen : ∀ (files : String → Option Bytes) (p : String),
      ((w.readers files).geoip2Open p).2 = none) :
    (bodyStage w fs url filePath etagFilePath tempFilePath resp).2 = none := by
  have hl : ¬ resp.Body.length < minFileSize := by omega
  unfold bodyStage
  simp only [hbe, if_neg hl, hfmt]
  unfold writeTo installStage stageFile copyFile osOpen osCreate writeTo osRename
    validateMmdbFile
  simp only [hq, quietFaults, hu, Bool.false_eq_true, if_false, hopen]
  simp [FS.put, FS.record]
  split_ifs <;> rfl

theorem downloadAndExtract_copy_succeeds (w : World) (fs : FS)
    (url filePath etagFileName : String) (resp : HTTPResponse)
    (hreq : w.newRequest url = none)
    (hdo : w.httpDo url (requestHeader w fs (filepathJoin w.App.DataDir
      (etagFileName ++ ".etag"))) = Except.ok resp)
    (hstatus : resp.StatusCode = 200) (hct : resp.ContentType = "")
    (hbe : resp.BodyErr = none) (hlen : minFileSize ≤ resp.Body.length)
    (hfmt : validateFileFormat resp.Body url = none) (hu : isTarGzURL url = false)
    (hq : w.faults = quietFaults)
    (hopen : ∀ (files : String → Option Bytes) (p : String),
      ((w.readers files).geoip2Open p).2 = none) :
    (downloadAndExtract w fs url filePath etagFileName).2 = none := by
  have hcr : osCreate w.faults fs (filePath ++ ".tmp_download")
      = ((fs.record (FsOp.create (filePath ++ ".tmp_download"))).put
          (filePath ++ ".tmp_download") [], none) := by
    unfold osCreate
    simp only [hq, quietFaults]
  rw [downloadAndExtract_of_created w fs url filePath etagFileName resp _ _ _ hreq hdo hstatus
    hct hcr rfl]
  exact bodyStage_copy_succeeds w _ url filePath _ _ resp hbe hlen hfmt hu hq hopen

end updater

/-! ## Claims about the sidecar and the installed file -/

namespace updater

/-- C21: a run of `downloadAndExtract` that returns an error leaves the
content of the .etag sidecar as it was, and no file-system call of the run
targets the sidecar (the sidecar path being another path than the canonical
one); a run that returns nil on a response with a non-empty ETag header, the
write of the sidecar succeeding, leaves exactly that ETag in the sidecar, and
the next request reads it into its If-None-Match header. -/
theorem downloadAndExtract_sidecar_after_install (w : World) (fs : FS)
    (url filePath etagFileName : String) :
    ((downloadAndExtract w fs url filePath etagFileName).2 ≠ none →
      (downloadAndExtract w fs url filePath etagFileName).1.files
        (filepathJoin w.App.DataDir (etagFileName ++ ".etag"))
        = fs.files (filepathJoin w.App.DataDir (etagFileName ++ ".etag")))
    ∧ ((downloadAndExtract w fs url filePath etagFileName).2 ≠ none →
      filePath ≠ filepathJoin w.App.DataDir (etagFileName ++ ".etag") →
      (downloadAndExtract w fs url filePath etagFileName).1.touching
        (filepathJoin w.App.DataDir (etagFileName ++ ".etag"))
        = fs.touching (filepathJoin w.App.DataDir (etagFileName ++ ".etag")))
    ∧ (∀ resp : HTTPResponse,
      w.httpDo url (requestHeader w fs (filepathJoin w.App.DataDir (etagFileName ++ ".etag")))
        = Except.ok resp →
      (downloadAndExtract w fs url filePath etagFileName).2 = none →
      resp.ETag ≠ [] →
      w.faults.writeFile (filepathJoin w.App.DataDir (etagFileName ++ ".etag")) resp.ETag
        = none →
      (downloadAndExtract w fs url filePath etagFileName).1.files
          (filepathJoin w.App.DataDir (etagFileName ++ ".etag")) = some resp.ETag
      ∧ (w.faults.readFile (filepathJoin w.App.DataDir (etagFileName ++ ".etag")) = none →
        requestHeader w (downloadAndExtract w fs url filePath etagFileName).1
          (filepathJoin w.App.DataDir (etagFileName ++ ".etag")) = some resp.ETag)) := by
  have hside := fun h₃ => downloadAndExtract_sidecar w fs url filePath etagFileName
    (filepathJoin w.App.DataDir (etagFileName ++ ".etag"))
    (etag_ne_tmpDownload _ _ filePath) (etag_ne_tmpFinalTmp _ _ filePath)
    (etag_ne_tmpFinal _ _ filePath) h₃
  refine ⟨?_, ?_, ?_⟩
  · intro herr
    by_cases hne : filepathJoin w.App.DataDir (etagFileName ++ ".etag") = filePath
    · rw [hne]
      exact (downloadAndExtract_canonical w fs url filePath etagFileName).1 herr
    · rcases hside hne with h | h
      · exact absurd h herr
      · exact h.1
  · intro herr hne
    rcases hside (fun h => hne h.symm) with h | h
    · exact absurd h herr
    · exact h.2
  · intro resp hdo hnil he hwf
    obtain ⟨resp', fs1, hdo', _, _, _, _, _, _, _, _, hetag⟩ :=
      downloadAndExtract_ok_files w fs url filePath etagFileName hnil
    have hresp : resp' = resp := by
      rw [hdo] at hdo'
      exact (Except.ok.inj hdo').symm
    subst hresp
    have hfile := hetag he hwf
    refine ⟨hfile, fun hrf => ?_⟩
    unfold requestHeader readETag
    simp only [hrf, hfile]

/-- C29: when `downloadAndExtract` returns nil (the sidecar path being another
path than the canonical one), the server answered 200 with a body of at least
2097152 bytes that was read without error and passed `validateFileFormat`;
`validateMmdbFile` accepted the file at the final temp path, and the canonical
file afterwards has that file's content: the response body for a URL that is
not an archive source, and for an archive source the data of the first
regular entry with a name ending in ".mmdb" that the tar reader yields on the
bytes read from the downloaded file (all of the body unless a read fails). -/
theorem downloadAndExtract_install_postcondition (w : World) (fs : FS)
    (url filePath etagFileName : String)
    (hnil : (downloadAndExtract w fs url filePath etagFileName).2 = none)
    (hne : filePath ≠ filepathJoin w.App.DataDir (etagFileName ++ ".etag")) :
    ∃ resp : HTTPResponse,
      w.httpDo url (requestHeader w fs (filepathJoin w.App.DataDir (etagFileName ++ ".etag")))
        = Except.ok resp
      ∧ resp.StatusCode = 200 ∧ resp.BodyErr = none ∧ 2097152 ≤ resp.Body.length
      ∧ validateFileFormat resp.Body url = none
      ∧ (∃ fs1 : FS, validateMmdbFile w fs1 (filePath ++ ".tmp_final") = none
          ∧ (downloadAndExtract w fs url filePath etagFileName).1.files filePath
              = fs1.files (filePath ++ ".tmp_final"))
      ∧ (isTarGzURL url = false →
          (downloadAndExtract w fs url filePath etagFileName).1.files filePath
            = some resp.Body)
      ∧ (isTarGzURL url = true →
          ∃ (pre : List TarEntry) (hd : TarEntry) (post : List TarEntry),
            (w.tarEntries (match w.faults.read (filePath ++ ".tmp_download") with
              | some (k, _) => resp.Body.take k
              | none => resp.Body)).entries = pre ++ hd :: post
            ∧ (∀ e ∈ pre, isMmdbEntry e = false) ∧ isMmdbEntry hd = true
            ∧ (downloadAndExtract w fs url filePath etagFileName).1.files filePath
                = some hd.Data) := by
  obtain ⟨resp, fs1, hdo, h200, hbe, hlen, hfmt, hv, hcopy, hextract, hfile, _⟩ :=
    downloadAndExtract_ok_files w fs url filePath etagFileName hnil
  have hmin : minFileSize = 2097152 := by decide
  refine ⟨resp, hdo, h200, hbe, by omega, hfmt, ⟨fs1, hv, hfile hne⟩, ?_, ?_⟩
  · intro hu
    rw [hfile hne]
    exact hcopy hu
  · intro hu
    obtain ⟨pre, hd, post, hent, hpre, hhd, hf⟩ := hextract hu
    exact ⟨pre, hd, post, hent, hpre, hhd, (hfile hne).trans hf⟩

/-- Witness of `downloadAndExtract_install_postcondition`: the server answers
the URL of the regional-override dataset with a body of 2 MiB, no call fails,
and the canonical file is that body afterwards. -/
theorem downloadAndExtract_install_postcondition_witness :
    (downloadAndExtract sampleArchiveWorld emptyFS geoCNSource.2.URL "data/GeoCN.mmdb"
      "GeoCN.mmdb").2 = none
    ∧ (downloadAndExtract sampleArchiveWorld emptyFS geoCNSource.2.URL "data/GeoCN.mmdb"
      "GeoCN.mmdb").1.files "data/GeoCN.mmdb" = some gzipBody := by
  have hlen : minFileSize ≤ gzipBody.length := by
    rw [gzipBody_length]
    decide
  have hnil : (downloadAndExtract sampleArchiveWorld emptyFS geoCNSource.2.URL
      "data/GeoCN.mmdb" "GeoCN.mmdb").2 = none :=
    downloadAndExtract_copy_succeeds sampleArchiveWorld emptyFS geoCNSource.2.URL
      "data/GeoCN.mmdb" "GeoCN.mmdb" { StatusCode := 200, Status := "200 OK", Body := gzipBody }
      rfl rfl rfl rfl rfl hlen (validateFileFormat_gzipBody _) (by decide) rfl
      (fun _ _ => rfl)
  obtain ⟨resp, hdo, _, _, _, _, _, hcopy, _⟩ :=
    downloadAndExtract_install_postcondition sampleArchiveWorld emptyFS geoCNSource.2.URL
      "data/GeoCN.mmdb" "GeoCN.mmdb" hnil (by decide)
  have hresp : resp = { StatusCode := 200, Status := "200 OK", Body := gzipBody } :=
    (Except.ok.inj hdo).symm
  rw [hresp] at hcopy
  exact ⟨hnil, hcopy (by decide)⟩

end updater
